import Mathlib

/-!
# DevDriver URI protocol: request context and client

A shallow embedding of

* `source/DevDriverComponents/src/ddURIRequestContext.cpp` (the server side
  response-writer state machine), and
* `source/DevDriverComponents/src/protocols/ddURIClient.cpp` (the client
  protocol engine), and
* `source/Common/SingleInstance.h` (the single-instance check),

followed by theorems about them.

Conventions of the embedding:

* a C++ pointer is an `Option` (`none` is `nullptr`);
* a pointer-and-length pair keeps both parts, so that `(nullptr, 0)`,
  `(nullptr, n)` and `(p, 0)` stay distinct;
* calls into collaborators that are not part of these files (the response
  block, the message channel, the transfer manager) are recorded, in order,
  as a list of events; what such a call answers is supplied by an oracle
  that sees every event recorded so far;
* `DD_ASSERT` does not alter the control flow; whether the assertions of a
  call held is reported next to its result;
* a call that dereferences a null response block stops there: this is
  reported next to its result, and nothing is recorded as written.
-/

namespace DevDriver

/-- Modelled from the spec: the `Result` enumeration of `gpuopen.h`, which is
not among the sources. The constructors named in the two translated files are
kept by name (`Success`, `Error`, `Rejected`, `EndOfStream`,
`UriInvalidParameters`, `UriFailedToAcquirePostBlock`,
`UriFailedToOpenResponseBlock`); `NotReady` stands for the transport
results of the error taxonomy and `Other` for every remaining code. -/
inductive Result
  | Success
  | Error
  | NotReady
  | Rejected
  | EndOfStream
  | UriInvalidParameters
  | UriFailedToAcquirePostBlock
  | UriFailedToOpenResponseBlock
  | Other (code : Nat)
  deriving DecidableEq, Repr

/-- The enumeration `URIDataFormat` of `ddUriInterface.h`. -/
inductive URIDataFormat
  | Unknown
  | Text
  | Binary
  | Count
  deriving DecidableEq, Repr

/-- The struct `PostDataInfo` of `ddUriInterface.h`: `pData` is the address
of the post data (`none` is `nullptr`). -/
structure PostDataInfo where
  pData : Option Nat
  size : Nat
  format : URIDataFormat
  deriving DecidableEq, Repr

/-- The enumeration `URIRequestContext::ContextState`, by the names used in
`ddURIRequestContext.cpp`. -/
inductive ContextState
  | WriterSelection
  | ByteWriterSelected
  | TextWriterSelected
  | JsonWriterSelected
  | WritingCompleted
  deriving DecidableEq, Repr

/-- The three writer members of a `URIRequestContext`: `m_byteWriter`,
`m_textWriter`, `m_jsonWriter`. A value of this type is the address of the
corresponding member. -/
inductive WriterRef
  | m_byteWriter
  | m_textWriter
  | m_jsonWriter
  deriving DecidableEq, Repr

/-- The members of `URIRequestContext` that `ddURIRequestContext.cpp` reads
and writes. `m_pResponseBlock` is the identity of the shared response block
(`none` is a null shared pointer). -/
structure URIRequestContext where
  m_postInfo : PostDataInfo
  m_contextState : ContextState
  m_pRequestArguments : Option String
  m_responseDataFormat : URIDataFormat
  m_pResponseBlock : Option Nat
  deriving DecidableEq, Repr

/-- One call `GetBlock()->Write(pBytes, numBytes)` issued by the writer
callback: the block it was issued on and both arguments. -/
structure BlockWrite where
  block : Option Nat
  pBytes : Option (List Nat)
  numBytes : Nat
  deriving DecidableEq, Repr

/-- What a call of `URIRequestContext::WriteBytes` leaves behind.
`nullBlockDereferenced` reports that the call reached
`context.GetBlock()->Write(...)` with a null response block: the call faults
there, and the other fields then hold what it had done up to that point. -/
structure WriteBytesOutcome where
  result : Result
  context : URIRequestContext
  blockWrites : List BlockWrite
  assertsHeld : Bool
  nullBlockDereferenced : Bool := false
  deriving DecidableEq, Repr

/-- `URIRequestContext::GetBlock`. -/
def URIRequestContext.GetBlock (context : URIRequestContext) : Option Nat :=
  context.m_pResponseBlock

/-- `URIRequestContext::GetRequestArguments`. -/
def URIRequestContext.GetRequestArguments (context : URIRequestContext) : Option String :=
  context.m_pRequestArguments

/-- `URIRequestContext::GetPostData`. -/
def URIRequestContext.GetPostData (context : URIRequestContext) : PostDataInfo :=
  context.m_postInfo

/-- `URIRequestContext::GetUriDataFormat`. -/
def URIRequestContext.GetUriDataFormat (context : URIRequestContext) : URIDataFormat :=
  context.m_responseDataFormat

/-- `URIRequestContext::WriteBytes(pUserData, pBytes, numBytes)`, the callback
shared by the three writers; `context` is `*pUserData`. -/
def URIRequestContext.WriteBytes (context : URIRequestContext)
    (pBytes : Option (List Nat)) (numBytes : Nat) : WriteBytesOutcome :=
  match pBytes with
  | some bytes =>
    match context.GetBlock with
    | some block =>
      -- context.GetBlock()->Write(pBytes, numBytes); result = Result::Success;
      { result := Result.Success
        context := context
        blockWrites := [{ block := some block, pBytes := some bytes, numBytes := numBytes }]
        assertsHeld := true }
    | none =>
      -- `GetBlock()` is null: the dereference faults before anything is written,
      -- with `result` still at its initial value.
      { result := Result.Error
        context := context
        blockWrites := []
        assertsHeld := true
        nullBlockDereferenced := true }
  | none =>
    if numBytes = 0 then
      -- Special "End-of-Writer" call.
      match context.m_contextState with
      | ContextState.ByteWriterSelected
      | ContextState.TextWriterSelected
      | ContextState.JsonWriterSelected =>
        { result := Result.Success
          context := { context with m_contextState := ContextState.WritingCompleted }
          blockWrites := []
          assertsHeld := true }
      | st =>
        -- Invalid usage: the two assertions of the default branch.
        { result := Result.Error
          context := context
          blockWrites := []
          assertsHeld := decide (st ≠ ContextState.WriterSelection)
                          && decide (st ≠ ContextState.WritingCompleted) }
    else
      { result := Result.Error, context := context, blockWrites := [], assertsHeld := true }

/-- What a call of one of the three `Begin*Response` methods leaves behind:
`ppWriter` is the pointer that was passed, with the value now stored behind
it. -/
structure BeginResponseOutcome where
  result : Result
  context : URIRequestContext
  ppWriter : Option (Option WriterRef)
  deriving DecidableEq, Repr

/-- `URIRequestContext::BeginByteResponse(ppWriter)`: `ppWriter` is `none` for
`nullptr` and otherwise carries the value stored behind the pointer. -/
def URIRequestContext.BeginByteResponse (this : URIRequestContext)
    (ppWriter : Option (Option WriterRef)) : BeginResponseOutcome :=
  match ppWriter with
  | some _ =>
    if this.m_contextState = ContextState.WriterSelection then
      { result := Result.Success
        context := { this with m_contextState := ContextState.ByteWriterSelected
                               m_responseDataFormat := URIDataFormat.Binary }
        ppWriter := some (some WriterRef.m_byteWriter) }
    else
      { result := Result.Rejected, context := this, ppWriter := ppWriter }
  | none => { result := Result.UriInvalidParameters, context := this, ppWriter := none }

/-- `URIRequestContext::BeginTextResponse(ppWriter)`. -/
def URIRequestContext.BeginTextResponse (this : URIRequestContext)
    (ppWriter : Option (Option WriterRef)) : BeginResponseOutcome :=
  match ppWriter with
  | some _ =>
    if this.m_contextState = ContextState.WriterSelection then
      { result := Result.Success
        context := { this with m_contextState := ContextState.TextWriterSelected
                               m_responseDataFormat := URIDataFormat.Text }
        ppWriter := some (some WriterRef.m_textWriter) }
    else
      { result := Result.Rejected, context := this, ppWriter := ppWriter }
  | none => { result := Result.UriInvalidParameters, context := this, ppWriter := none }

/-- `URIRequestContext::BeginJsonResponse(ppWriter)`. -/
def URIRequestContext.BeginJsonResponse (this : URIRequestContext)
    (ppWriter : Option (Option WriterRef)) : BeginResponseOutcome :=
  match ppWriter with
  | some _ =>
    if this.m_contextState = ContextState.WriterSelection then
      { result := Result.Success
        context := { this with m_contextState := ContextState.JsonWriterSelected
                               m_responseDataFormat := URIDataFormat.Text }
        ppWriter := some (some WriterRef.m_jsonWriter) }
    else
      { result := Result.Rejected, context := this, ppWriter := ppWriter }
  | none => { result := Result.UriInvalidParameters, context := this, ppWriter := none }

/-- What `URIRequestContext::Begin` and `URIRequestContext::End` leave
behind: the context and whether the `DD_ASSERT` at their head held. -/
structure LifecycleOutcome where
  context : URIRequestContext
  assertsHeld : Bool
  deriving DecidableEq, Repr

/-- `URIRequestContext::Begin(pArguments, format, pResponseBlock, postDataInfo)`. -/
def URIRequestContext.Begin (this : URIRequestContext) (pArguments : Option String)
    (format : URIDataFormat) (pResponseBlock : Option Nat) (postDataInfo : PostDataInfo) :
    LifecycleOutcome :=
  { context :=
      { m_postInfo := postDataInfo
        m_pRequestArguments := pArguments
        m_responseDataFormat := format
        m_pResponseBlock := pResponseBlock
        m_contextState := ContextState.WriterSelection }
    assertsHeld := decide (this.m_contextState = ContextState.WriterSelection) }

/-- `URIRequestContext::End()`. -/
def URIRequestContext.End (this : URIRequestContext) : LifecycleOutcome :=
  { context := { this with m_contextState := ContextState.WriterSelection }
    assertsHeld := decide (this.m_contextState = ContextState.WriterSelection)
                    || decide (this.m_contextState = ContextState.WritingCompleted) }

/-! ## Sequences of handler calls on a request context -/

/-- The calls a service handler can make on a request context between
`Begin` and `End`: the three `Begin*Response` methods and the writer
callback, each with its arguments. -/
inductive HandlerCall
  | BeginByteResponse (ppWriter : Option (Option WriterRef))
  | BeginTextResponse (ppWriter : Option (Option WriterRef))
  | BeginJsonResponse (ppWriter : Option (Option WriterRef))
  | WriteBytes (pBytes : Option (List Nat)) (numBytes : Nat)
  deriving DecidableEq, Repr

/-- Whether a handler call is one of the three `Begin*Response` methods. -/
def HandlerCall.isBeginResponse : HandlerCall → Bool
  | HandlerCall.WriteBytes _ _ => false
  | _ => true

/-- The result and the context after one handler call. -/
def HandlerCall.apply (call : HandlerCall) (context : URIRequestContext) :
    Result × URIRequestContext :=
  match call with
  | HandlerCall.BeginByteResponse pp =>
    ((context.BeginByteResponse pp).result, (context.BeginByteResponse pp).context)
  | HandlerCall.BeginTextResponse pp =>
    ((context.BeginTextResponse pp).result, (context.BeginTextResponse pp).context)
  | HandlerCall.BeginJsonResponse pp =>
    ((context.BeginJsonResponse pp).result, (context.BeginJsonResponse pp).context)
  | HandlerCall.WriteBytes pBytes numBytes =>
    ((context.WriteBytes pBytes numBytes).result, (context.WriteBytes pBytes numBytes).context)

/-- The context after a sequence of handler calls, made in list order. -/
def runHandlerCalls (context : URIRequestContext) : List HandlerCall → URIRequestContext
  | [] => context
  | call :: rest => runHandlerCalls (call.apply context).2 rest

/-- The number of `Begin*Response` calls of a sequence that return
`Result::Success` when the sequence is made, in list order, on `context`. -/
def countBeginSuccesses (context : URIRequestContext) : List HandlerCall → Nat
  | [] => 0
  | call :: rest =>
    (if call.isBeginResponse && decide ((call.apply context).1 = Result.Success) then 1 else 0)
      + countBeginSuccesses (call.apply context).2 rest


/-! ## The URI client (`protocols/ddURIClient.cpp`) -/

namespace URIProtocol

/-- The constants and sizes that `ddURIClient.cpp` takes from headers which
are not among the sources (`ddURIProtocol.h`, `ddTransferProtocol.h`,
`ddURIClient.h`). They are parameters of the embedding. `sizeofPayload` is
`sizeof(pContainer->payload)`, the capacity of a `SizedPayloadContainer`; the
two timeouts are the default arguments with which `RequestURI` calls
`TransactURIPayload`. -/
structure Constants where
  kMaxInlineDataSize : Nat
  kLegacyMaxSize : Nat
  sizeofPayload : Nat
  sizeofURIRequestPayload : Nat
  sizeofURIPostRequestPayload : Nat
  URI_POST_PROTOCOL_VERSION : Nat
  URI_RESPONSE_FORMATS_VERSION : Nat
  kInvalidBlockId : Nat
  kDefaultCommunicationTimeoutInMs : Nat
  kDefaultRetryTimeoutInMs : Nat
  deriving DecidableEq, Repr

/-- The conversion `static_cast<uint32>(x)` of a `size_t`. -/
def static_cast_uint32 (x : Nat) : Nat := x % 2 ^ 32

/-- The message tags of the URI protocol; `Other` is any further value of
the command field. -/
inductive URIMessage
  | URIRequest
  | URIResponse
  | URIPostRequest
  | URIPostResponse
  | Other (code : Nat)
  deriving DecidableEq, Repr

/-- The enumeration `TransferDataFormat`. -/
inductive TransferDataFormat
  | Unknown
  | Text
  | Binary
  | Count
  deriving DecidableEq, Repr

/-- The enumeration `ResponseDataFormat`; the `static_assert`s of
`ResponseFormatToUriFormat` fix its four values to those of
`URIDataFormat`. -/
inductive ResponseDataFormat
  | Unknown
  | Text
  | Binary
  | Count
  deriving DecidableEq, Repr

/-- `ResponseFormatToUriFormat(format)`: `static_cast<URIDataFormat>(format)`,
which keeps the numeric value. -/
def ResponseFormatToUriFormat : ResponseDataFormat → URIDataFormat
  | ResponseDataFormat.Unknown => URIDataFormat.Unknown
  | ResponseDataFormat.Text => URIDataFormat.Text
  | ResponseDataFormat.Binary => URIDataFormat.Binary
  | ResponseDataFormat.Count => URIDataFormat.Count

/-- The contents of a container after a receive, as the client reads them:
`header.command`, `result`, `blockId` and `format` of the
`URIResponsePayload` view (`blockId` and `result` are also the two fields
read through the `URIPostResponsePayload` view), and the received size. -/
structure ReceivedPayload where
  command : URIMessage
  result : Result
  blockId : Nat
  format : ResponseDataFormat
  payloadSize : Nat
  deriving DecidableEq, Repr

/-- The three trailing constructor arguments of `URIRequestPayload`, present
when the request carries post data. -/
structure PostDataFields where
  blockId : Nat
  dataFormat : TransferDataFormat
  dataSize : Nat
  deriving DecidableEq, Repr

/-- The typed message at the start of a container's buffer: nothing yet
(`= {}`), a request built with `CreatePayload<URIRequestPayload>` (with the
request string alone, or with the three post-data arguments), a post request
built with `CreatePayload<URIPostRequestPayload>`, or whatever a receive has
stored there. Constructor arguments are kept as they are passed. -/
inductive Payload
  | Zero
  | URIRequestPayload (pUriString : String) (post : Option PostDataFields)
  | URIPostRequestPayload (pUriString : String) (dataSize : Nat)
  | Received (msg : ReceivedPayload)
  deriving DecidableEq, Repr

/-- Modelled from the spec: the struct `SizedPayloadContainer`, declared in a
header that is not among the sources. It holds the typed message at the
start of its buffer, the bytes copied into the buffer right behind that
message (`inlineData`, the region `GetInlineDataPtr` points to), and
`payloadSize`. -/
structure SizedPayloadContainer where
  payload : Payload
  inlineData : List Nat
  payloadSize : Nat
  deriving DecidableEq, Repr

/-- The container `SizedPayloadContainer container = {}`. -/
def SizedPayloadContainer.zero : SizedPayloadContainer :=
  { payload := Payload.Zero, inlineData := [], payloadSize := 0 }

/-- Modelled from the spec: `SizedPayloadContainer::CreatePayload<T>(args...)`,
declared in a header that is not among the sources. It places the typed
message into the buffer and sets `payloadSize = sizeof(T)`; `sizeofT` is
that size. -/
def SizedPayloadContainer.CreatePayload (_container : SizedPayloadContainer)
    (message : Payload) (sizeofT : Nat) : SizedPayloadContainer :=
  { payload := message, inlineData := [], payloadSize := sizeofT }

/-- Modelled from the spec: `container.GetPayload<T>()` for the two response
types, declared in a header that is not among the sources. It gives the
typed view of what a receive has stored in the buffer. The client reads a
container in this way only after a successful receive; for a container that
holds a locally built message the view is all zeroes. -/
def SizedPayloadContainer.GetPayload (container : SizedPayloadContainer) : ReceivedPayload :=
  match container.payload with
  | Payload.Received msg => msg
  | _ => { command := URIMessage.Other 0, result := Result.Success, blockId := 0,
           format := ResponseDataFormat.Unknown, payloadSize := container.payloadSize }

/-- Every call the client makes into the message channel, the transfer
manager and the transfer blocks, with its arguments and with what the call
answered. -/
inductive Event
  | Send (container : SizedPayloadContainer) (payloadSize timeoutInMs retryInMs : Nat)
      (answer : Result)
  | Receive (bufferSize timeoutInMs retryInMs : Nat) (answer : Result)
      (received : ReceivedPayload)
  | OpenPushBlock (clientId blockId size : Nat) (answer : Option Nat)
  | PushBlockWrite (block : Nat) (pData : List Nat) (size : Nat) (answer : Result)
  | PushBlockFinalize (block : Nat) (answer : Result)
  | ClosePushBlock (block : Nat)
  | OpenPullBlock (clientId blockId : Nat) (answer : Option Nat)
  | PullBlockRead (block : Option Nat) (bufferSize : Nat) (answer : Result)
      (bytes : List Nat)
  | ClosePullBlock (block : Option Nat)
  deriving DecidableEq, Repr

/-- The collaborators of the client. The session accessors are fixed for the
life of the session; every other member answers one call, given all events
recorded before it and the arguments of the call. -/
structure Environment where
  sessionIsNull : Bool
  sessionGetVersion : Nat
  sessionGetDestinationClientId : Nat
  GetRemoteClientId : Nat
  SendSizedPayload : List Event → SizedPayloadContainer → Nat → Nat → Nat → Result
  ReceiveSizedPayload : List Event → Nat → Nat → Nat → Result × ReceivedPayload
  OpenPushBlock : List Event → Nat → Nat → Nat → Option Nat
  PushBlockWrite : List Event → Nat → List Nat → Nat → Result
  PushBlockFinalize : List Event → Nat → Result
  OpenPullBlock : List Event → Nat → Nat → Option Nat
  GetBlockDataSize : List Event → Nat → Nat
  PullBlockRead : List Event → Option Nat → Nat → Result × List Nat

/-- The enumeration `URIClient::State`, by the names used in
`ddURIClient.cpp`. -/
inductive State
  | Idle
  | ReadResponse
  deriving DecidableEq, Repr

/-- The member `m_context` of `URIClient`: the state and the pull block
pointer. -/
structure Context where
  state : State
  pBlock : Option Nat
  deriving DecidableEq, Repr

/-- The struct `URIResponseHeader` of `ddUriInterface.h` (`ResponseHeader` in
the client). -/
structure ResponseHeader where
  responseDataSizeInBytes : Nat
  responseDataFormat : URIDataFormat
  deriving DecidableEq, Repr

/-- The local `payloadSize` of `URIClient::SendURIPayload`: the number of
bytes handed to `SendSizedPayload`, chosen from the session version. -/
def SendURIPayload.payloadSize (k : Constants) (env : Environment)
    (container : SizedPayloadContainer) : Nat :=
  let sessionVersion := if env.sessionIsNull = false then env.sessionGetVersion else 0
  if sessionVersion ≥ k.URI_POST_PROTOCOL_VERSION then container.payloadSize
  else k.kLegacyMaxSize

/-- `URIClient::SendURIPayload(container, timeoutInMs, retryInMs)`: the
result and the event recorded. `history` holds the events recorded before
the call. -/
def SendURIPayload (k : Constants) (env : Environment) (history : List Event)
    (container : SizedPayloadContainer) (timeoutInMs retryInMs : Nat) : Result × List Event :=
  let payloadSize := SendURIPayload.payloadSize k env container
  let answer := env.SendSizedPayload history container payloadSize timeoutInMs retryInMs
  (answer, [Event.Send container payloadSize timeoutInMs retryInMs answer])

/-- `URIClient::ReceiveURIPayload(pContainer, timeoutInMs, retryInMs)`: the
result, the container as the receive leaves it, and the event recorded. -/
def ReceiveURIPayload (k : Constants) (env : Environment) (history : List Event)
    (_container : SizedPayloadContainer) (timeoutInMs retryInMs : Nat) :
    Result × SizedPayloadContainer × List Event :=
  let answer := env.ReceiveSizedPayload history k.sizeofPayload timeoutInMs retryInMs
  (answer.1,
   { payload := Payload.Received answer.2, inlineData := [], payloadSize := answer.2.payloadSize },
   [Event.Receive k.sizeofPayload timeoutInMs retryInMs answer.1 answer.2])

/-- `URIClient::TransactURIPayload(pContainer, timeoutInMs, retryInMs)`: send,
and receive only when the send returned `Success`. -/
def TransactURIPayload (k : Constants) (env : Environment) (history : List Event)
    (container : SizedPayloadContainer) (timeoutInMs retryInMs : Nat) :
    Result × SizedPayloadContainer × List Event :=
  let sent := SendURIPayload k env history container timeoutInMs retryInMs
  if sent.1 = Result.Success then
    let received :=
      ReceiveURIPayload k env (history ++ sent.2) container timeoutInMs retryInMs
    (received.1, received.2.1, sent.2 ++ received.2.2)
  else
    (sent.1, container, sent.2)

/-- Modelled from the spec: `TransferManager::ClosePullBlock(&pBlock)`, which
is not among the sources. It closes the block behind the pointer it is given
and leaves that pointer null: the new pointer value and the event
recorded. -/
def ClosePullBlock (pBlock : Option Nat) : Option Nat × List Event :=
  (none, [Event.ClosePullBlock pBlock])

/-- What a call of `URIClient::RequestURI` leaves behind: the result, the
client context, the response header behind `pResponseHeader` (`none` when
that pointer is null) and the events recorded during the call, in order. -/
structure RequestOutcome where
  result : Result
  context : Context
  pResponseHeader : Option ResponseHeader
  events : List Event
  deriving DecidableEq, Repr

namespace URIClient

/-- Lines 112 to 154 of `RequestURI`: post data that does not fit into one
packet. Sends the post request, opens the push block named in the answer,
writes and finalizes it, closes it, and sets up the request that refers to
the block. Returns the result, the request container and the events. -/
def RequestURI.postThroughBlock (k : Constants) (env : Environment) (history : List Event)
    (container : SizedPayloadContainer) (pRequestString : String) (pPostData : List Nat)
    (postDataSize : Nat) : Result × SizedPayloadContainer × List Event :=
  let blockRequest :=
    SizedPayloadContainer.zero.CreatePayload
      (Payload.URIPostRequestPayload pRequestString (static_cast_uint32 postDataSize))
      k.sizeofURIPostRequestPayload
  let transacted :=
    TransactURIPayload k env history blockRequest
      k.kDefaultCommunicationTimeoutInMs k.kDefaultRetryTimeoutInMs
  if transacted.1 = Result.Success then
    let response := transacted.2.1.GetPayload
    let pushBlockId := response.blockId
    let uploaded : Result × List Event :=
      if response.result = Result.Success then
        let pPostBlock :=
          env.OpenPushBlock (history ++ transacted.2.2)
            env.sessionGetDestinationClientId pushBlockId postDataSize
        let opened :=
          transacted.2.2 ++
            [Event.OpenPushBlock env.sessionGetDestinationClientId pushBlockId postDataSize
              pPostBlock]
        match pPostBlock with
        | some block =>
          let writeResult := env.PushBlockWrite (history ++ opened) block pPostData postDataSize
          let written :=
            opened ++ [Event.PushBlockWrite block pPostData postDataSize writeResult]
          if writeResult = Result.Success then
            let finalizeResult := env.PushBlockFinalize (history ++ written) block
            (finalizeResult,
             written ++ [Event.PushBlockFinalize block finalizeResult, Event.ClosePushBlock block])
          else
            (writeResult, written ++ [Event.ClosePushBlock block])
        | none => (Result.UriFailedToAcquirePostBlock, opened)
      else
        (response.result, transacted.2.2)
    if uploaded.1 = Result.Success then
      (uploaded.1,
       container.CreatePayload
         (Payload.URIRequestPayload pRequestString
           (some { blockId := pushBlockId, dataFormat := TransferDataFormat.Binary,
                   dataSize := static_cast_uint32 postDataSize }))
         k.sizeofURIRequestPayload,
       uploaded.2)
    else
      (uploaded.1, container, uploaded.2)
  else
    (transacted.1, container, transacted.2.2)

/-- Lines 82 to 156 of `RequestURI`: set up the request payload. Returns the
value of `result` at line 157, the request container and the events recorded
on the way. The copy `memcpy(GetInlineDataPtr(&container), pPostData,
postDataSize)` puts the first `postDataSize` bytes behind `pPostData` right
after the request struct. -/
def RequestURI.setupPayload (k : Constants) (env : Environment) (history : List Event)
    (pRequestString : String) (pPostData : Option (List Nat)) (postDataSize : Nat) :
    Result × SizedPayloadContainer × List Event :=
  let container := SizedPayloadContainer.zero
  if pPostData = none ∨ postDataSize = 0 then
    (Result.Success,
     container.CreatePayload (Payload.URIRequestPayload pRequestString none)
       k.sizeofURIRequestPayload,
     [])
  else
    match pPostData with
    | some postData =>
      if postDataSize ≤ k.kMaxInlineDataSize then
        let created :=
          container.CreatePayload
            (Payload.URIRequestPayload pRequestString
              (some { blockId := k.kInvalidBlockId, dataFormat := TransferDataFormat.Binary,
                      dataSize := static_cast_uint32 postDataSize }))
            k.sizeofURIRequestPayload
        (Result.Success,
         { created with
             inlineData := postData.take postDataSize
             payloadSize := static_cast_uint32 (k.sizeofURIRequestPayload + postDataSize) },
         [])
      else
        RequestURI.postThroughBlock k env history container pRequestString postData postDataSize
    | none => (Result.UriInvalidParameters, container, [])

/-- Lines 164 to 224 of `RequestURI`: read the response out of the container
after a successful transaction. `pResponseHeader` already holds the defaults
of lines 76 to 80. The events returned are those recorded here. -/
def RequestURI.readResponsePayload (k : Constants) (env : Environment) (history : List Event)
    (m_context : Context) (pResponseHeader : Option ResponseHeader)
    (container : SizedPayloadContainer) : RequestOutcome :=
  let responsePayload := container.GetPayload
  if responsePayload.command = URIMessage.URIResponse then
    if responsePayload.result = Result.Success then
      if responsePayload.blockId ≠ k.kInvalidBlockId then
        let pPullBlock := env.OpenPullBlock history env.GetRemoteClientId responsePayload.blockId
        let opened := [Event.OpenPullBlock env.GetRemoteClientId responsePayload.blockId pPullBlock]
        match pPullBlock with
        | some block =>
          let blockSize := env.GetBlockDataSize (history ++ opened) block
          let header :=
            match pResponseHeader with
            | some _ =>
              some { responseDataSizeInBytes := blockSize
                     responseDataFormat :=
                       if env.sessionGetVersion ≥ k.URI_RESPONSE_FORMATS_VERSION then
                         ResponseFormatToUriFormat responsePayload.format
                       else URIDataFormat.Text }
            | none => none
          if blockSize > 0 then
            { result := Result.Success
              context := { state := State.ReadResponse, pBlock := some block }
              pResponseHeader := header
              events := opened }
          else
            { result := Result.Success
              context := { m_context with pBlock := (ClosePullBlock (some block)).1 }
              pResponseHeader := header
              events := opened ++ (ClosePullBlock (some block)).2 }
        | none =>
          { result := Result.UriFailedToOpenResponseBlock, context := m_context,
            pResponseHeader := pResponseHeader, events := opened }
      else
        { result := Result.Success, context := m_context,
          pResponseHeader := pResponseHeader, events := [] }
    else
      { result := responsePayload.result, context := m_context,
        pResponseHeader := pResponseHeader, events := [] }
  else
    { result := Result.Success, context := m_context,
      pResponseHeader := pResponseHeader, events := [] }

/-- `URIClient::RequestURI(pRequestString, pResponseHeader, pPostData,
postDataSize)` on a client whose context is `m_context`; `history` holds the
events recorded before the call. -/
def RequestURI (k : Constants) (env : Environment) (history : List Event) (m_context : Context)
    (pRequestString : Option String) (pResponseHeader : Option ResponseHeader)
    (pPostData : Option (List Nat)) (postDataSize : Nat) : RequestOutcome :=
  match pRequestString with
  | some requestString =>
    if m_context.state = State.Idle then
      -- Setup some sensible defaults in the response header
      let header : Option ResponseHeader :=
        match pResponseHeader with
        | some _ =>
          some { responseDataSizeInBytes := 0, responseDataFormat := URIDataFormat.Unknown }
        | none => none
      -- Set up the request payload.
      let setup := RequestURI.setupPayload k env history requestString pPostData postDataSize
      -- Issue a transaction.
      let transacted : Result × SizedPayloadContainer × List Event :=
        if setup.1 = Result.Success then
          let t :=
            TransactURIPayload k env (history ++ setup.2.2) setup.2.1
              k.kDefaultCommunicationTimeoutInMs k.kDefaultRetryTimeoutInMs
          (t.1, t.2.1, setup.2.2 ++ t.2.2)
        else setup
      if transacted.1 = Result.Success then
        let decoded :=
          RequestURI.readResponsePayload k env (history ++ transacted.2.2) m_context header
            transacted.2.1
        { decoded with events := transacted.2.2 ++ decoded.events }
      else
        { result := transacted.1, context := m_context, pResponseHeader := header,
          events := transacted.2.2 }
    else
      { result := Result.UriInvalidParameters, context := m_context,
        pResponseHeader := pResponseHeader, events := [] }
  | none =>
    { result := Result.UriInvalidParameters, context := m_context,
      pResponseHeader := pResponseHeader, events := [] }

/-- Modelled from the spec: the context after
`memset(&m_context, 0, sizeof(m_context))`. The enumeration `State` is
declared in `ddURIClient.h`, which is not among the sources; `Idle` is taken
to be its zero value, as the constructor leaves a client that accepts a
request. The pull block pointer is null. -/
def zeroedContext : Context := { state := State.Idle, pBlock := none }

/-- `URIClient::URIClient(pMsgChannel)`: the member `m_context` of a freshly
constructed client. -/
def construct : Context := zeroedContext

/-- What a call of `URIClient::ReadResponse` leaves behind: the result, the
client context, the bytes the block's `Read` stored in the destination
buffer, and the events recorded during the call, in order. -/
structure ReadOutcome where
  result : Result
  context : Context
  bytes : List Nat
  events : List Event
  deriving DecidableEq, Repr

/-- `URIClient::ReadResponse(pDstBuffer, bufferSize, pBytesRead)`: the two
pointers are handed to the block's `Read` as they are; `history` holds the
events recorded before the call. -/
def ReadResponse (env : Environment) (history : List Event) (m_context : Context)
    (bufferSize : Nat) : ReadOutcome :=
  if m_context.state = State.ReadResponse then
    let answer := env.PullBlockRead history m_context.pBlock bufferSize
    let read := [Event.PullBlockRead m_context.pBlock bufferSize answer.1 answer.2]
    -- If we reach the end of the stream or we encounter an error, we should transition back
    -- to the idle state.
    if answer.1 = Result.EndOfStream ∨ answer.1 = Result.Error then
      { result := answer.1
        context := { state := State.Idle, pBlock := (ClosePullBlock m_context.pBlock).1 }
        bytes := answer.2
        events := read ++ (ClosePullBlock m_context.pBlock).2 }
    else
      { result := answer.1, context := m_context, bytes := answer.2, events := read }
  else
    { result := Result.UriInvalidParameters, context := m_context, bytes := [], events := [] }

/-- What a call of `URIClient::AbortRequest` leaves behind. -/
structure AbortOutcome where
  result : Result
  context : Context
  events : List Event
  deriving DecidableEq, Repr

/-- `URIClient::AbortRequest()`. -/
def AbortRequest (m_context : Context) : AbortOutcome :=
  if m_context.state = State.ReadResponse then
    { result := Result.Success
      context := { state := State.Idle, pBlock := (ClosePullBlock m_context.pBlock).1 }
      events := (ClosePullBlock m_context.pBlock).2 }
  else
    { result := Result.UriInvalidParameters, context := m_context, events := [] }

/-- `URIClient::ResetState()`: the client context after the call and the
events recorded during it. -/
def ResetState (m_context : Context) : Context × List Event :=
  -- Close the pull block if it's still valid.
  if m_context.pBlock ≠ none then
    (zeroedContext, (ClosePullBlock m_context.pBlock).2)
  else
    (zeroedContext, [])

end URIClient

/-! ## Sequences of calls on a client -/

/-- The calls a user of the client can make, each with its arguments. -/
inductive ClientCall
  | RequestURI (pRequestString : Option String) (pResponseHeader : Option ResponseHeader)
      (pPostData : Option (List Nat)) (postDataSize : Nat)
  | ReadResponse (bufferSize : Nat)
  | AbortRequest
  | ResetState
  deriving DecidableEq, Repr

/-- One call on a client: from the client context and the events recorded so
far to the context after the call and the events recorded by then. -/
def ClientCall.apply (k : Constants) (env : Environment) (call : ClientCall)
    (client : Context × List Event) : Context × List Event :=
  match call with
  | ClientCall.RequestURI pRequestString pResponseHeader pPostData postDataSize =>
    ((URIClient.RequestURI k env client.2 client.1 pRequestString pResponseHeader pPostData
        postDataSize).context,
     client.2 ++
       (URIClient.RequestURI k env client.2 client.1 pRequestString pResponseHeader pPostData
          postDataSize).events)
  | ClientCall.ReadResponse bufferSize =>
    ((URIClient.ReadResponse env client.2 client.1 bufferSize).context,
     client.2 ++ (URIClient.ReadResponse env client.2 client.1 bufferSize).events)
  | ClientCall.AbortRequest =>
    ((URIClient.AbortRequest client.1).context,
     client.2 ++ (URIClient.AbortRequest client.1).events)
  | ClientCall.ResetState =>
    ((URIClient.ResetState client.1).1, client.2 ++ (URIClient.ResetState client.1).2)

/-- A sequence of calls on a client, made in list order. -/
def runClientCalls (k : Constants) (env : Environment) (client : Context × List Event) :
    List ClientCall → Context × List Event
  | [] => client
  | call :: rest => runClientCalls k env (call.apply k env client) rest

/-! ## Observations on recorded events -/

/-- The event is a call of `ClosePullBlock`. -/
def Event.isClosePullBlock : Event → Bool
  | Event.ClosePullBlock _ => true
  | _ => false

/-- The event is a call of `Read` on a pull block. -/
def Event.isPullBlockRead : Event → Bool
  | Event.PullBlockRead _ _ _ _ => true
  | _ => false

/-- The event is a call of `ClosePushBlock`. -/
def Event.isClosePushBlock : Event → Bool
  | Event.ClosePushBlock _ => true
  | _ => false

/-- The result propagation rule as the specification words it, read off the
recorded events of one call: the first event that records a failing step,
with the result the rule prescribes for it and the events recorded after it;
`none` when no step fails. The failing steps are: a send or a receive whose
result is not `Success` (that result); the answer to a post request whose
result field is not `Success` (that field); a `URIResponse` answering a
request whose result field is not `Success` (that field); a `Write` or a
`Finalize` of the push block whose result is not `Success` (that result); a
push block that does not open (`UriFailedToAcquirePostBlock`); a pull block
that does not open (`UriFailedToOpenResponseBlock`). `lastSent` is the
payload of the most recent send. -/
def specFirstFailingStep (lastSent : Option Payload) :
    List Event → Option (Result × List Event)
  | [] => none
  | Event.Send container _ _ _ answer :: rest =>
    if answer = Result.Success then specFirstFailingStep (some container.payload) rest
    else some (answer, rest)
  | Event.Receive _ _ _ answer received :: rest =>
    if answer = Result.Success then
      match lastSent with
      | some (Payload.URIPostRequestPayload _ _) =>
        if received.result = Result.Success then specFirstFailingStep lastSent rest
        else some (received.result, rest)
      | some (Payload.URIRequestPayload _ _) =>
        if received.command = URIMessage.URIResponse ∧ received.result ≠ Result.Success then
          some (received.result, rest)
        else specFirstFailingStep lastSent rest
      | _ => specFirstFailingStep lastSent rest
    else some (answer, rest)
  | Event.OpenPushBlock _ _ _ none :: rest => some (Result.UriFailedToAcquirePostBlock, rest)
  | Event.OpenPushBlock _ _ _ (some _) :: rest => specFirstFailingStep lastSent rest
  | Event.PushBlockWrite _ _ _ answer :: rest =>
    if answer = Result.Success then specFirstFailingStep lastSent rest
    else some (answer, rest)
  | Event.PushBlockFinalize _ answer :: rest =>
    if answer = Result.Success then specFirstFailingStep lastSent rest
    else some (answer, rest)
  | Event.ClosePushBlock _ :: rest => specFirstFailingStep lastSent rest
  | Event.OpenPullBlock _ _ none :: rest => some (Result.UriFailedToOpenResponseBlock, rest)
  | Event.OpenPullBlock _ _ (some _) :: rest => specFirstFailingStep lastSent rest
  | Event.PullBlockRead _ _ _ _ :: rest => specFirstFailingStep lastSent rest
  | Event.ClosePullBlock _ :: rest => specFirstFailingStep lastSent rest

/-- The result the propagation rule prescribes for the recorded events of a
call: that of the first failing step, `Success` when no step fails. -/
def specPropagatedResult (events : List Event) : Result :=
  match specFirstFailingStep none events with
  | some (result, _) => result
  | none => Result.Success

/-- The events recorded after the first failing step of a call; none when no
step fails. -/
def specStepsAfterFailure (events : List Event) : List Event :=
  match specFirstFailingStep none events with
  | some (_, rest) => rest
  | none => []

/-- The event records that `OpenPullBlock` returned a block. -/
def Event.opensPullBlock : Event → Bool
  | Event.OpenPullBlock _ _ (some _) => true
  | _ => false

/-- The event is a send on the channel. -/
def Event.isSend : Event → Bool
  | Event.Send _ _ _ _ _ => true
  | _ => false

/-- The event is a receive on the channel. -/
def Event.isReceive : Event → Bool
  | Event.Receive _ _ _ _ _ => true
  | _ => false

/-- The event is a send on the channel that returned `Success`. -/
def Event.isSuccessfulSend : Event → Bool
  | Event.Send _ _ _ _ answer => decide (answer = Result.Success)
  | _ => false

/-- The event is a receive that returned `Success` and delivered a
`URIResponse` with result `Success` and a block id other than the invalid
sentinel. -/
def Event.isReceiveOfBlockResponse (k : Constants) : Event → Bool
  | Event.Receive _ _ _ answer received =>
    decide (answer = Result.Success) && decide (received.command = URIMessage.URIResponse)
      && decide (received.result = Result.Success)
      && decide (received.blockId ≠ k.kInvalidBlockId)
  | _ => false

/-- The event is a call of `OpenPushBlock`. -/
def Event.isOpenPushBlock : Event → Bool
  | Event.OpenPushBlock _ _ _ _ => true
  | _ => false

/-- The event is a call of `OpenPullBlock`. -/
def Event.isOpenPullBlock : Event → Bool
  | Event.OpenPullBlock _ _ _ => true
  | _ => false

/-- The event is a call on a push block or on the transfer manager for a
push block: open, write, finalize or close. -/
def Event.isPushBlockCall : Event → Bool
  | Event.OpenPushBlock _ _ _ _ => true
  | Event.PushBlockWrite _ _ _ _ => true
  | Event.PushBlockFinalize _ _ => true
  | Event.ClosePushBlock _ => true
  | _ => false

/-- The event is a send of a `URIPostRequestPayload`. -/
def Event.isSendOfPostRequest : Event → Bool
  | Event.Send { payload := Payload.URIPostRequestPayload _ _, .. } _ _ _ _ => true
  | _ => false

/-- The event is a send of a `URIRequestPayload`. -/
def Event.isSendOfRequest : Event → Bool
  | Event.Send { payload := Payload.URIRequestPayload _ _, .. } _ _ _ _ => true
  | _ => false

/-- The containers handed to the channel by the sends among the events, in
order. -/
def sentContainers : List Event → List SizedPayloadContainer
  | [] => []
  | Event.Send container _ _ _ _ :: rest => container :: sentContainers rest
  | _ :: rest => sentContainers rest

/-- The event records that `OpenPushBlock` returned the block `block`. -/
def Event.opensPushBlock (block : Nat) : Event → Bool
  | Event.OpenPushBlock _ _ _ (some b) => decide (b = block)
  | _ => false

/-- The event is `ClosePushBlock` of the block `block`. -/
def Event.closesPushBlock (block : Nat) : Event → Bool
  | Event.ClosePushBlock b => decide (b = block)
  | _ => false

end URIProtocol

end DevDriver

/-! ## The single-instance check (`Common/SingleInstance.h`) -/

/-- One call on the member `m_mutex` of a `SingleInstance`, with its arguments
and with what the call answered. -/
inductive MutexCall
  | Open (strMutexName : Option String) (second third : Bool) (answer : Bool)
  | OpenOrCreate (strMutexName : Option String) (second third : Bool) (answer : Bool)
  | Close
  deriving DecidableEq, Repr

/-- The class `NamedMutex`, declared in `NamedMutex.h`, which is not among the
sources: what `Open` and `OpenOrCreate` answer. `OpenOrCreate` sees the calls
made on the mutex before it. -/
structure NamedMutex where
  Open : Option String → Bool → Bool → Bool
  OpenOrCreate : List MutexCall → Option String → Bool → Bool → Bool

/-- The class `SingleInstance`: the member `m_anotherInstanceRunning`, and the
calls made so far on the member `m_mutex`, in order. -/
structure SingleInstance where
  m_anotherInstanceRunning : Bool
  mutexCalls : List MutexCall
  deriving DecidableEq, Repr

/-- `SingleInstance::SingleInstance(strMutexName)`: the object the constructor
leaves, for a mutex that answers as `m_mutex` does. -/
def SingleInstance.construct (m_mutex : NamedMutex) (strMutexName : Option String) :
    SingleInstance :=
  -- Try to open an existing mutex.
  let opened := m_mutex.Open strMutexName false true
  if opened = false then
    -- The mutex doesn't exist so create one
    let created :=
      m_mutex.OpenOrCreate [MutexCall.Open strMutexName false true opened] strMutexName false
        true
    { m_anotherInstanceRunning := false
      mutexCalls :=
        [MutexCall.Open strMutexName false true opened,
         MutexCall.OpenOrCreate strMutexName false true created] }
  else
    { m_anotherInstanceRunning := true
      mutexCalls := [MutexCall.Open strMutexName false true opened] }

/-- `SingleInstance::IsProgramAlreadyRunning()`. -/
def SingleInstance.IsProgramAlreadyRunning (this : SingleInstance) : Bool :=
  this.m_anotherInstanceRunning

/-- The call is `OpenOrCreate`. -/
def MutexCall.isOpenOrCreate : MutexCall → Bool
  | MutexCall.OpenOrCreate _ _ _ _ => true
  | _ => false

/-! ## Concrete instances -/

/-- A named mutex that exists already when `present` is true: `Open` succeeds
exactly then, and `OpenOrCreate` always succeeds. -/
def sampleMutex (present : Bool) : NamedMutex :=
  { Open := fun _ _ _ => present
    OpenOrCreate := fun _ _ _ _ => true }

namespace DevDriver

/-- A request context in the given state, as the server sets it up for a
request with arguments `"x=1"`, a text post of 10 bytes and response block
7. -/
def sampleContext (state : ContextState) : URIRequestContext :=
  { m_postInfo := { pData := some 4096, size := 10, format := URIDataFormat.Text }
    m_contextState := state
    m_pRequestArguments := some "x=1"
    m_responseDataFormat := URIDataFormat.Unknown
    m_pResponseBlock := some 7 }

end DevDriver

namespace DevDriver.URIProtocol

/-- Constants of a small build: a container holds 48 bytes and a
`URIRequestPayload` takes 32 of them, which leaves 16 bytes for inline post
data; the post protocol starts with session version 3 and response formats
with version 2; block id 0 is the invalid sentinel. -/
def sampleConstants : Constants :=
  { kMaxInlineDataSize := 16
    kLegacyMaxSize := 24
    sizeofPayload := 48
    sizeofURIRequestPayload := 32
    sizeofURIPostRequestPayload := 24
    URI_POST_PROTOCOL_VERSION := 3
    URI_RESPONSE_FORMATS_VERSION := 2
    kInvalidBlockId := 0
    kDefaultCommunicationTimeoutInMs := 5000
    kDefaultRetryTimeoutInMs := 50 }

/-- A fixed script for the collaborators of the client: the answers of the
successive sends and receives, and one answer for each kind of block call. -/
structure Script where
  sessionVersion : Nat
  sends : List Result
  receives : List (Result × ReceivedPayload)
  openPushBlock : Option Nat
  pushBlockWrite : Result
  pushBlockFinalize : Result
  openPullBlock : Option Nat
  blockDataSize : Nat
  pullBlockRead : Result × List Nat

/-- The message a scripted channel delivers once its script of receives is
used up: nothing arrives. -/
def nothingReceived : Result × ReceivedPayload :=
  (Result.NotReady,
   { command := URIMessage.Other 0, result := Result.Error, blockId := 0,
     format := ResponseDataFormat.Unknown, payloadSize := 0 })

/-- The environment that follows a script: the n-th send and the n-th
receive of a history get the n-th answer of the script (`NotReady` once the
script is used up); block calls get the scripted answer. The session exists
and has the scripted version; the client ids are 1 and 2. -/
def scriptedEnvironment (script : Script) : Environment :=
  { sessionIsNull := false
    sessionGetVersion := script.sessionVersion
    sessionGetDestinationClientId := 1
    GetRemoteClientId := 2
    SendSizedPayload := fun history _ _ _ _ =>
      script.sends.getD (history.filter Event.isSend).length Result.NotReady
    ReceiveSizedPayload := fun history _ _ _ =>
      script.receives.getD (history.filter Event.isReceive).length nothingReceived
    OpenPushBlock := fun _ _ _ _ => script.openPushBlock
    PushBlockWrite := fun _ _ _ _ => script.pushBlockWrite
    PushBlockFinalize := fun _ _ => script.pushBlockFinalize
    OpenPullBlock := fun _ _ _ => script.openPullBlock
    GetBlockDataSize := fun _ _ => script.blockDataSize
    PullBlockRead := fun _ _ _ => script.pullBlockRead }

/-- A `URIResponse` message with result `Success`, the given block id and
text format. -/
def successResponse (blockId : Nat) : ReceivedPayload :=
  { command := URIMessage.URIResponse, result := Result.Success, blockId := blockId,
    format := ResponseDataFormat.Text, payloadSize := 16 }

/-- A `URIPostResponse` message with result `Success` and the given block
id. -/
def successPostResponse (blockId : Nat) : ReceivedPayload :=
  { command := URIMessage.URIPostResponse, result := Result.Success, blockId := blockId,
    format := ResponseDataFormat.Unknown, payloadSize := 16 }

/-- A script on a session of version 3 in which every call succeeds: the post
request is answered with push block id 9, the request with pull block id 5,
the push block opens as block 40, the pull block as block 41 with 10 bytes
of data. -/
def allSucceed : Script :=
  { sessionVersion := 3
    sends := [Result.Success, Result.Success]
    receives := [(Result.Success, successPostResponse 9), (Result.Success, successResponse 5)]
    openPushBlock := some 40
    pushBlockWrite := Result.Success
    pushBlockFinalize := Result.Success
    openPullBlock := some 41
    blockDataSize := 10
    pullBlockRead := (Result.EndOfStream, []) }

/-- A script on a session of version 3 for a request without post data: the
send succeeds and the response names pull block id 5, which opens as block 41
with 10 bytes of data. -/
def respondsWithBlock : Script :=
  { allSucceed with receives := [(Result.Success, successResponse 5)] }

/-- The context of a client that is reading the response held in block 41. -/
def readingContext : Context := { state := State.ReadResponse, pBlock := some 41 }

/-- The context of a freshly constructed client: `Idle`, no pull block. -/
def idleContext : Context := { state := State.Idle, pBlock := none }

end DevDriver.URIProtocol

/-! ## Theorems: the request context -/

namespace DevDriver

/-- A handler call never brings a context back to `WriterSelection`. -/
theorem HandlerCall.apply_state_ne_WriterSelection (call : HandlerCall)
    (context : URIRequestContext)
    (h : context.m_contextState ≠ ContextState.WriterSelection) :
    (call.apply context).2.m_contextState ≠ ContextState.WriterSelection := by
  cases call with
  | BeginByteResponse pp =>
    cases pp <;> simp [HandlerCall.apply, URIRequestContext.BeginByteResponse, h]
  | BeginTextResponse pp =>
    cases pp <;> simp [HandlerCall.apply, URIRequestContext.BeginTextResponse, h]
  | BeginJsonResponse pp =>
    cases pp <;> simp [HandlerCall.apply, URIRequestContext.BeginJsonResponse, h]
  | WriteBytes pBytes numBytes =>
    cases pBytes with
    | some bytes =>
      cases hb : context.m_pResponseBlock <;>
        simpa [HandlerCall.apply, URIRequestContext.WriteBytes, URIRequestContext.GetBlock,
          hb] using h
    | none =>
      by_cases hn : numBytes = 0
      · cases hs : context.m_contextState <;>
          simp_all [HandlerCall.apply, URIRequestContext.WriteBytes]
      · simpa [HandlerCall.apply, URIRequestContext.WriteBytes, hn] using h

/-- A sequence of handler calls never brings a context back to
`WriterSelection`. -/
theorem runHandlerCalls_state_ne_WriterSelection (calls : List HandlerCall) :
    ∀ context : URIRequestContext,
      context.m_contextState ≠ ContextState.WriterSelection →
      (runHandlerCalls context calls).m_contextState ≠ ContextState.WriterSelection := by
  induction calls with
  | nil => intro context h; simpa [runHandlerCalls] using h
  | cons call rest ih =>
    intro context h
    simp only [runHandlerCalls]
    exact ih _ (HandlerCall.apply_state_ne_WriterSelection call context h)

/-- A `Begin*Response` call that returns `Success` leaves a state other than
`WriterSelection`. -/
theorem HandlerCall.apply_success_state (call : HandlerCall) (context : URIRequestContext)
    (hbegin : call.isBeginResponse = true)
    (hsuccess : (call.apply context).1 = Result.Success) :
    (call.apply context).2.m_contextState ≠ ContextState.WriterSelection := by
  cases call with
  | BeginByteResponse pp =>
    cases pp with
    | none => simp [HandlerCall.apply, URIRequestContext.BeginByteResponse] at hsuccess
    | some slot =>
      by_cases hs : context.m_contextState = ContextState.WriterSelection <;>
        simp_all [HandlerCall.apply, URIRequestContext.BeginByteResponse]
  | BeginTextResponse pp =>
    cases pp with
    | none => simp [HandlerCall.apply, URIRequestContext.BeginTextResponse] at hsuccess
    | some slot =>
      by_cases hs : context.m_contextState = ContextState.WriterSelection <;>
        simp_all [HandlerCall.apply, URIRequestContext.BeginTextResponse]
  | BeginJsonResponse pp =>
    cases pp with
    | none => simp [HandlerCall.apply, URIRequestContext.BeginJsonResponse] at hsuccess
    | some slot =>
      by_cases hs : context.m_contextState = ContextState.WriterSelection <;>
        simp_all [HandlerCall.apply, URIRequestContext.BeginJsonResponse]
  | WriteBytes pBytes numBytes => simp [HandlerCall.isBeginResponse] at hbegin

/-- From a state other than `WriterSelection` no `Begin*Response` call
returns `Success`. -/
theorem HandlerCall.apply_not_success (call : HandlerCall) (context : URIRequestContext)
    (hbegin : call.isBeginResponse = true)
    (h : context.m_contextState ≠ ContextState.WriterSelection) :
    (call.apply context).1 ≠ Result.Success := by
  cases call with
  | BeginByteResponse pp =>
    cases pp <;> simp [HandlerCall.apply, URIRequestContext.BeginByteResponse, h]
  | BeginTextResponse pp =>
    cases pp <;> simp [HandlerCall.apply, URIRequestContext.BeginTextResponse, h]
  | BeginJsonResponse pp =>
    cases pp <;> simp [HandlerCall.apply, URIRequestContext.BeginJsonResponse, h]
  | WriteBytes pBytes numBytes => simp [HandlerCall.isBeginResponse] at hbegin

/-- From a state other than `WriterSelection` no `Begin*Response` call of a
sequence of handler calls returns `Success`. -/
theorem countBeginSuccesses_eq_zero (calls : List HandlerCall) :
    ∀ context : URIRequestContext,
      context.m_contextState ≠ ContextState.WriterSelection →
      countBeginSuccesses context calls = 0 := by
  induction calls with
  | nil => intro context _; rfl
  | cons call rest ih =>
    intro context h
    have hrest := ih _ (HandlerCall.apply_state_ne_WriterSelection call context h)
    by_cases hbegin : call.isBeginResponse = true
    · have hns := HandlerCall.apply_not_success call context hbegin h
      simp [countBeginSuccesses, hrest, hns]
    · simp [countBeginSuccesses, hrest, hbegin]

/-- C1. Once one of `BeginByteResponse`, `BeginTextResponse`,
`BeginJsonResponse` has returned `Success` on a request context, then after
any further sequence of `Begin*Response` and `WriteBytes` calls (so with or
without a close of the writer, and with no `End`), each of the three methods
called with a non-null output pointer returns `Result::Rejected`. -/
theorem beginResponse_second_call_rejected (context : URIRequestContext) (first : HandlerCall)
    (hbegin : first.isBeginResponse = true)
    (hsuccess : (first.apply context).1 = Result.Success)
    (between : List HandlerCall) (slot : Option WriterRef) :
    ((runHandlerCalls (first.apply context).2 between).BeginByteResponse (some slot)).result
        = Result.Rejected
    ∧ ((runHandlerCalls (first.apply context).2 between).BeginTextResponse (some slot)).result
        = Result.Rejected
    ∧ ((runHandlerCalls (first.apply context).2 between).BeginJsonResponse (some slot)).result
        = Result.Rejected := by
  have h := runHandlerCalls_state_ne_WriterSelection between _
    (HandlerCall.apply_success_state first context hbegin hsuccess)
  simp [URIRequestContext.BeginByteResponse, URIRequestContext.BeginTextResponse,
    URIRequestContext.BeginJsonResponse, h]

end DevDriver

namespace DevDriver

/-- Witness for C1: a text writer is selected, two bytes are written, the
writer is closed, and each `Begin*Response` is then rejected. -/
theorem beginResponse_second_call_rejected_witness :
    (HandlerCall.BeginTextResponse (some none)).isBeginResponse = true
    ∧ ((HandlerCall.BeginTextResponse (some none)).apply
        (sampleContext ContextState.WriterSelection)).1 = Result.Success
    ∧ ((runHandlerCalls
          ((HandlerCall.BeginTextResponse (some none)).apply
            (sampleContext ContextState.WriterSelection)).2
          [HandlerCall.WriteBytes (some [104, 105]) 2,
           HandlerCall.WriteBytes none 0]).BeginByteResponse (some none)).result
        = Result.Rejected
    ∧ ((runHandlerCalls
          ((HandlerCall.BeginTextResponse (some none)).apply
            (sampleContext ContextState.WriterSelection)).2
          [HandlerCall.WriteBytes (some [104, 105]) 2,
           HandlerCall.WriteBytes none 0]).BeginTextResponse (some none)).result
        = Result.Rejected
    ∧ ((runHandlerCalls
          ((HandlerCall.BeginTextResponse (some none)).apply
            (sampleContext ContextState.WriterSelection)).2
          [HandlerCall.WriteBytes (some [104, 105]) 2,
           HandlerCall.WriteBytes none 0]).BeginJsonResponse (some none)).result
        = Result.Rejected :=
  ⟨by decide, by decide,
   beginResponse_second_call_rejected (sampleContext ContextState.WriterSelection)
     (HandlerCall.BeginTextResponse (some none)) (by decide) (by decide)
     [HandlerCall.WriteBytes (some [104, 105]) 2, HandlerCall.WriteBytes none 0] none⟩

/-- C2. From `WriterSelection` and with a non-null output pointer,
`BeginByteResponse`, `BeginTextResponse` and `BeginJsonResponse` return
`Success`, move the state to `ByteWriterSelected`, `TextWriterSelected` and
`JsonWriterSelected`, record the response format `Binary`, `Text` and `Text`,
change nothing else in the context, and store the context's own byte, text
and json writer behind the pointer. From every other state, and whatever the
pointer, none of the three returns `Success`. -/
theorem beginResponse_from_WriterSelection (context : URIRequestContext)
    (slot : Option WriterRef) (ppWriter : Option (Option WriterRef)) :
    (context.m_contextState = ContextState.WriterSelection →
      context.BeginByteResponse (some slot)
        = { result := Result.Success
            context := { context with m_contextState := ContextState.ByteWriterSelected
                                      m_responseDataFormat := URIDataFormat.Binary }
            ppWriter := some (some WriterRef.m_byteWriter) }
      ∧ context.BeginTextResponse (some slot)
        = { result := Result.Success
            context := { context with m_contextState := ContextState.TextWriterSelected
                                      m_responseDataFormat := URIDataFormat.Text }
            ppWriter := some (some WriterRef.m_textWriter) }
      ∧ context.BeginJsonResponse (some slot)
        = { result := Result.Success
            context := { context with m_contextState := ContextState.JsonWriterSelected
                                      m_responseDataFormat := URIDataFormat.Text }
            ppWriter := some (some WriterRef.m_jsonWriter) })
    ∧ (context.m_contextState ≠ ContextState.WriterSelection →
      (context.BeginByteResponse ppWriter).result ≠ Result.Success
      ∧ (context.BeginTextResponse ppWriter).result ≠ Result.Success
      ∧ (context.BeginJsonResponse ppWriter).result ≠ Result.Success) := by
  constructor
  · intro h
    simp [URIRequestContext.BeginByteResponse, URIRequestContext.BeginTextResponse,
      URIRequestContext.BeginJsonResponse, h]
  · intro h
    cases ppWriter <;>
      simp [URIRequestContext.BeginByteResponse, URIRequestContext.BeginTextResponse,
        URIRequestContext.BeginJsonResponse, h]

/-- Witness for C2: the three methods on a context in `WriterSelection`, and
on one in `WritingCompleted`. -/
theorem beginResponse_from_WriterSelection_witness :
    ((sampleContext ContextState.WriterSelection).BeginByteResponse (some none)
        = { result := Result.Success
            context := { sampleContext ContextState.WriterSelection with
                           m_contextState := ContextState.ByteWriterSelected
                           m_responseDataFormat := URIDataFormat.Binary }
            ppWriter := some (some WriterRef.m_byteWriter) }
      ∧ (sampleContext ContextState.WriterSelection).BeginTextResponse (some none)
        = { result := Result.Success
            context := { sampleContext ContextState.WriterSelection with
                           m_contextState := ContextState.TextWriterSelected
                           m_responseDataFormat := URIDataFormat.Text }
            ppWriter := some (some WriterRef.m_textWriter) }
      ∧ (sampleContext ContextState.WriterSelection).BeginJsonResponse (some none)
        = { result := Result.Success
            context := { sampleContext ContextState.WriterSelection with
                           m_contextState := ContextState.JsonWriterSelected
                           m_responseDataFormat := URIDataFormat.Text }
            ppWriter := some (some WriterRef.m_jsonWriter) })
    ∧ (((sampleContext ContextState.WritingCompleted).BeginByteResponse (some none)).result
          ≠ Result.Success
      ∧ ((sampleContext ContextState.WritingCompleted).BeginTextResponse (some none)).result
          ≠ Result.Success
      ∧ ((sampleContext ContextState.WritingCompleted).BeginJsonResponse (some none)).result
          ≠ Result.Success) :=
  ⟨(beginResponse_from_WriterSelection (sampleContext ContextState.WriterSelection)
      none (some none)).1 rfl,
   (beginResponse_from_WriterSelection (sampleContext ContextState.WritingCompleted)
      none (some none)).2 (by decide)⟩

/-- C3. The close sentinel `WriteBytes(nullptr, 0)` issued while the context
is in `ByteWriterSelected`, `TextWriterSelected` or `JsonWriterSelected`
returns `Success`, moves the state to `WritingCompleted`, changes nothing
else in the context and forwards no write to the response block. -/
theorem writeBytes_close_from_selected (context : URIRequestContext)
    (h : context.m_contextState = ContextState.ByteWriterSelected
          ∨ context.m_contextState = ContextState.TextWriterSelected
          ∨ context.m_contextState = ContextState.JsonWriterSelected) :
    (context.WriteBytes none 0).result = Result.Success
    ∧ (context.WriteBytes none 0).context
        = { context with m_contextState := ContextState.WritingCompleted }
    ∧ (context.WriteBytes none 0).blockWrites = [] := by
  rcases h with h | h | h <;> simp [URIRequestContext.WriteBytes, h]

/-- Witness for C3: the close sentinel on a context in `JsonWriterSelected`. -/
theorem writeBytes_close_from_selected_witness :
    ((sampleContext ContextState.JsonWriterSelected).WriteBytes none 0).result = Result.Success
    ∧ ((sampleContext ContextState.JsonWriterSelected).WriteBytes none 0).context
        = { sampleContext ContextState.JsonWriterSelected with
              m_contextState := ContextState.WritingCompleted }
    ∧ ((sampleContext ContextState.JsonWriterSelected).WriteBytes none 0).blockWrites = [] :=
  writeBytes_close_from_selected (sampleContext ContextState.JsonWriterSelected)
    (Or.inr (Or.inr rfl))

/-- C4. The close sentinel `WriteBytes(nullptr, 0)` issued while the context
is in `WriterSelection` or `WritingCompleted` returns `Result::Error`, leaves
the context as it is and forwards nothing to the response block; and from no
state at all do two consecutive close calls both return `Success`. -/
theorem writeBytes_close_from_unselected (context : URIRequestContext) :
    ((context.m_contextState = ContextState.WriterSelection
        ∨ context.m_contextState = ContextState.WritingCompleted) →
      (context.WriteBytes none 0).result = Result.Error
      ∧ (context.WriteBytes none 0).context = context
      ∧ (context.WriteBytes none 0).blockWrites = [])
    ∧ ¬ ((context.WriteBytes none 0).result = Result.Success
          ∧ ((context.WriteBytes none 0).context.WriteBytes none 0).result = Result.Success) := by
  constructor
  · intro h
    rcases h with h | h <;> simp [URIRequestContext.WriteBytes, h]
  · cases hs : context.m_contextState <;> simp [URIRequestContext.WriteBytes, hs]

/-- Witness for C4: the close sentinel on a context in `WritingCompleted`,
and two closes in a row on a context in `TextWriterSelected`. -/
theorem writeBytes_close_from_unselected_witness :
    (((sampleContext ContextState.WritingCompleted).WriteBytes none 0).result = Result.Error
      ∧ ((sampleContext ContextState.WritingCompleted).WriteBytes none 0).context
          = sampleContext ContextState.WritingCompleted
      ∧ ((sampleContext ContextState.WritingCompleted).WriteBytes none 0).blockWrites = [])
    ∧ ¬ (((sampleContext ContextState.TextWriterSelected).WriteBytes none 0).result
            = Result.Success
          ∧ (((sampleContext ContextState.TextWriterSelected).WriteBytes none 0).context.WriteBytes
              none 0).result = Result.Success) :=
  ⟨(writeBytes_close_from_unselected (sampleContext ContextState.WritingCompleted)).1
      (Or.inr rfl),
   (writeBytes_close_from_unselected (sampleContext ContextState.TextWriterSelected)).2⟩

/-- In a sequence of handler calls at most one `Begin*Response` call returns
`Success`, whatever the context the sequence starts on. -/
theorem countBeginSuccesses_le_one (calls : List HandlerCall) :
    ∀ context : URIRequestContext, countBeginSuccesses context calls ≤ 1 := by
  induction calls with
  | nil => intro context; simp [countBeginSuccesses]
  | cons call rest ih =>
    intro context
    by_cases hfirst :
        call.isBeginResponse = true ∧ (call.apply context).1 = Result.Success
    · have hrest := countBeginSuccesses_eq_zero rest _
        (HandlerCall.apply_success_state call context hfirst.1 hfirst.2)
      simp [countBeginSuccesses, hrest, hfirst.1, hfirst.2]
    · have hrest := ih (call.apply context).2
      have hzero :
          (if call.isBeginResponse && decide ((call.apply context).1 = Result.Success)
            then 1 else 0) = 0 := by
        simp only [Bool.and_eq_true, decide_eq_true_eq]
        exact if_neg hfirst
      simp only [countBeginSuccesses, hzero]
      omega

/-- C5. In any sequence of `BeginByteResponse`, `BeginTextResponse`,
`BeginJsonResponse` and `WriteBytes` calls made on a request context with no
`End` in between, at most one `Begin*Response` call returns `Success`; and
when the sequence starts in `WritingCompleted`, none does. -/
theorem at_most_one_writer_selected (context : URIRequestContext) (calls : List HandlerCall) :
    countBeginSuccesses context calls ≤ 1
    ∧ (context.m_contextState = ContextState.WritingCompleted →
        countBeginSuccesses context calls = 0) := by
  constructor
  · exact countBeginSuccesses_le_one calls context
  · intro h
    exact countBeginSuccesses_eq_zero calls context (by simp [h])

/-- Witness for C5: a handler that asks for a byte writer, then for a text
writer, writes, closes, and asks for a json writer; and a handler that asks
for a writer on a context already in `WritingCompleted`. -/
theorem at_most_one_writer_selected_witness :
    countBeginSuccesses (sampleContext ContextState.WriterSelection)
        [HandlerCall.BeginByteResponse (some none), HandlerCall.BeginTextResponse (some none),
         HandlerCall.WriteBytes (some [1]) 1, HandlerCall.WriteBytes none 0,
         HandlerCall.BeginJsonResponse (some none)] ≤ 1
    ∧ countBeginSuccesses (sampleContext ContextState.WritingCompleted)
        [HandlerCall.BeginJsonResponse (some none)] = 0 :=
  ⟨(at_most_one_writer_selected (sampleContext ContextState.WriterSelection) _).1,
   (at_most_one_writer_selected (sampleContext ContextState.WritingCompleted) _).2 rfl⟩

end DevDriver

/-! ## Theorems: the URI client -/

namespace DevDriver.URIProtocol

/-! ### The shape of a call of `RequestURI` -/

/-- The two ways a transaction can go: the send fails and nothing is
received, or the send succeeds and one receive follows, whose result is the
result of the transaction and whose message fills the container. -/
theorem TransactURIPayload_shape (k : Constants) (env : Environment) (history : List Event)
    (container : SizedPayloadContainer) (t r : Nat) :
    (∃ a, a ≠ Result.Success
        ∧ TransactURIPayload k env history container t r
          = (a, container,
             [Event.Send container (SendURIPayload.payloadSize k env container) t r a]))
    ∨ (∃ ra msg,
        TransactURIPayload k env history container t r
          = (ra, { payload := Payload.Received msg, inlineData := [],
                   payloadSize := msg.payloadSize },
             [Event.Send container (SendURIPayload.payloadSize k env container) t r
                Result.Success,
              Event.Receive k.sizeofPayload t r ra msg])) := by
  by_cases h : env.SendSizedPayload history container
      (SendURIPayload.payloadSize k env container) t r = Result.Success
  · right
    refine ⟨(env.ReceiveSizedPayload
        (history ++ [Event.Send container (SendURIPayload.payloadSize k env container) t r
          Result.Success]) k.sizeofPayload t r).1,
      (env.ReceiveSizedPayload
        (history ++ [Event.Send container (SendURIPayload.payloadSize k env container) t r
          Result.Success]) k.sizeofPayload t r).2, ?_⟩
    simp [TransactURIPayload, SendURIPayload, ReceiveURIPayload, h]
  · left
    exact ⟨_, h, by simp [TransactURIPayload, SendURIPayload, ReceiveURIPayload, h]⟩

/-- The ways the block-backed post path can go, each with its result, the
request container it leaves and the events it records. -/
theorem postThroughBlock_shape (k : Constants) (env : Environment) (history : List Event)
    (container : SizedPayloadContainer) (s : String) (data : List Nat) (n : Nat) :
    ∃ w : Nat,
    -- the send of the post request fails
    (∃ a, a ≠ Result.Success
        ∧ URIClient.RequestURI.postThroughBlock k env history container s data n
          = (a, container,
             [Event.Send
                (SizedPayloadContainer.zero.CreatePayload
                  (Payload.URIPostRequestPayload s (static_cast_uint32 n))
                  k.sizeofURIPostRequestPayload)
                w k.kDefaultCommunicationTimeoutInMs k.kDefaultRetryTimeoutInMs a]))
    -- the receive of the post response fails
    ∨ (∃ ra msg, ra ≠ Result.Success
        ∧ URIClient.RequestURI.postThroughBlock k env history container s data n
          = (ra, container,
             [Event.Send
                (SizedPayloadContainer.zero.CreatePayload
                  (Payload.URIPostRequestPayload s (static_cast_uint32 n))
                  k.sizeofURIPostRequestPayload)
                w k.kDefaultCommunicationTimeoutInMs k.kDefaultRetryTimeoutInMs Result.Success,
              Event.Receive k.sizeofPayload k.kDefaultCommunicationTimeoutInMs
                k.kDefaultRetryTimeoutInMs ra msg]))
    -- the post response carries a failure
    ∨ (∃ msg, msg.result ≠ Result.Success
        ∧ URIClient.RequestURI.postThroughBlock k env history container s data n
          = (msg.result, container,
             [Event.Send
                (SizedPayloadContainer.zero.CreatePayload
                  (Payload.URIPostRequestPayload s (static_cast_uint32 n))
                  k.sizeofURIPostRequestPayload)
                w k.kDefaultCommunicationTimeoutInMs k.kDefaultRetryTimeoutInMs Result.Success,
              Event.Receive k.sizeofPayload k.kDefaultCommunicationTimeoutInMs
                k.kDefaultRetryTimeoutInMs Result.Success msg]))
    -- the push block does not open
    ∨ (∃ msg, msg.result = Result.Success
        ∧ URIClient.RequestURI.postThroughBlock k env history container s data n
          = (Result.UriFailedToAcquirePostBlock, container,
             [Event.Send
                (SizedPayloadContainer.zero.CreatePayload
                  (Payload.URIPostRequestPayload s (static_cast_uint32 n))
                  k.sizeofURIPostRequestPayload)
                w k.kDefaultCommunicationTimeoutInMs k.kDefaultRetryTimeoutInMs Result.Success,
              Event.Receive k.sizeofPayload k.kDefaultCommunicationTimeoutInMs
                k.kDefaultRetryTimeoutInMs Result.Success msg,
              Event.OpenPushBlock env.sessionGetDestinationClientId msg.blockId n none]))
    -- the write fails
    ∨ (∃ msg block wr, msg.result = Result.Success ∧ wr ≠ Result.Success
        ∧ URIClient.RequestURI.postThroughBlock k env history container s data n
          = (wr, container,
             [Event.Send
                (SizedPayloadContainer.zero.CreatePayload
                  (Payload.URIPostRequestPayload s (static_cast_uint32 n))
                  k.sizeofURIPostRequestPayload)
                w k.kDefaultCommunicationTimeoutInMs k.kDefaultRetryTimeoutInMs Result.Success,
              Event.Receive k.sizeofPayload k.kDefaultCommunicationTimeoutInMs
                k.kDefaultRetryTimeoutInMs Result.Success msg,
              Event.OpenPushBlock env.sessionGetDestinationClientId msg.blockId n (some block),
              Event.PushBlockWrite block data n wr,
              Event.ClosePushBlock block]))
    -- the finalize fails
    ∨ (∃ msg block fin, msg.result = Result.Success ∧ fin ≠ Result.Success
        ∧ URIClient.RequestURI.postThroughBlock k env history container s data n
          = (fin, container,
             [Event.Send
                (SizedPayloadContainer.zero.CreatePayload
                  (Payload.URIPostRequestPayload s (static_cast_uint32 n))
                  k.sizeofURIPostRequestPayload)
                w k.kDefaultCommunicationTimeoutInMs k.kDefaultRetryTimeoutInMs Result.Success,
              Event.Receive k.sizeofPayload k.kDefaultCommunicationTimeoutInMs
                k.kDefaultRetryTimeoutInMs Result.Success msg,
              Event.OpenPushBlock env.sessionGetDestinationClientId msg.blockId n (some block),
              Event.PushBlockWrite block data n Result.Success,
              Event.PushBlockFinalize block fin,
              Event.ClosePushBlock block]))
    -- every step succeeds
    ∨ (∃ msg block, msg.result = Result.Success
        ∧ URIClient.RequestURI.postThroughBlock k env history container s data n
          = (Result.Success,
             container.CreatePayload
               (Payload.URIRequestPayload s
                 (some { blockId := msg.blockId, dataFormat := TransferDataFormat.Binary,
                         dataSize := static_cast_uint32 n }))
               k.sizeofURIRequestPayload,
             [Event.Send
                (SizedPayloadContainer.zero.CreatePayload
                  (Payload.URIPostRequestPayload s (static_cast_uint32 n))
                  k.sizeofURIPostRequestPayload)
                w k.kDefaultCommunicationTimeoutInMs k.kDefaultRetryTimeoutInMs Result.Success,
              Event.Receive k.sizeofPayload k.kDefaultCommunicationTimeoutInMs
                k.kDefaultRetryTimeoutInMs Result.Success msg,
              Event.OpenPushBlock env.sessionGetDestinationClientId msg.blockId n (some block),
              Event.PushBlockWrite block data n Result.Success,
              Event.PushBlockFinalize block Result.Success,
              Event.ClosePushBlock block])) := by
  refine ⟨SendURIPayload.payloadSize k env
    (SizedPayloadContainer.zero.CreatePayload
      (Payload.URIPostRequestPayload s (static_cast_uint32 n)) k.sizeofURIPostRequestPayload), ?_⟩
  rcases TransactURIPayload_shape k env history
      (SizedPayloadContainer.zero.CreatePayload
        (Payload.URIPostRequestPayload s (static_cast_uint32 n)) k.sizeofURIPostRequestPayload)
      k.kDefaultCommunicationTimeoutInMs k.kDefaultRetryTimeoutInMs
    with ⟨a, ha, hT⟩ | ⟨ra, msg, hT⟩
  · left
    exact ⟨a, ha, by simp [URIClient.RequestURI.postThroughBlock, hT, ha]⟩
  · by_cases hra : ra = Result.Success
    · subst hra
      by_cases hres : msg.result = Result.Success
      · generalize hP : URIClient.RequestURI.postThroughBlock k env history container s data n = P
        simp only [URIClient.RequestURI.postThroughBlock, hT, SizedPayloadContainer.GetPayload,
          hres, if_true] at hP
        revert hP
        generalize env.OpenPushBlock _ _ _ _ = opened
        cases opened with
        | none =>
          intro hP
          right; right; right; left
          exact ⟨msg, hres, by simp [← hP]⟩
        | some block =>
          simp only []
          generalize env.PushBlockWrite _ _ _ _ = wr
          by_cases hw : wr = Result.Success
          · subst hw
            simp only [if_true]
            generalize env.PushBlockFinalize _ _ = fin
            by_cases hf : fin = Result.Success
            · subst hf
              intro hP
              right; right; right; right; right; right
              exact ⟨msg, block, hres, by simp [← hP]⟩
            · intro hP
              right; right; right; right; right; left
              exact ⟨msg, block, fin, hres, hf, by simp [← hP, hf]⟩
          · intro hP
            right; right; right; right; left
            exact ⟨msg, block, wr, hres, hw, by simp [← hP, hw]⟩
      · right; right; left
        exact ⟨msg, hres, by
          simp [URIClient.RequestURI.postThroughBlock, hT, SizedPayloadContainer.GetPayload, hres]⟩
    · right; left
      exact ⟨ra, msg, hra, by simp [URIClient.RequestURI.postThroughBlock, hT, hra]⟩

/-- The ways the decoding of a received message can go, each with the
outcome it produces. -/
theorem readResponsePayload_shape (k : Constants) (env : Environment) (history : List Event)
    (m_context : Context) (hdr : Option ResponseHeader) (msg : ReceivedPayload) :
    -- the message is not a `URIResponse`
    (msg.command ≠ URIMessage.URIResponse
      ∧ URIClient.RequestURI.readResponsePayload k env history m_context hdr
          { payload := Payload.Received msg, inlineData := [], payloadSize := msg.payloadSize }
        = { result := Result.Success, context := m_context, pResponseHeader := hdr,
            events := [] })
    -- the response carries a failure
    ∨ (msg.command = URIMessage.URIResponse ∧ msg.result ≠ Result.Success
      ∧ URIClient.RequestURI.readResponsePayload k env history m_context hdr
          { payload := Payload.Received msg, inlineData := [], payloadSize := msg.payloadSize }
        = { result := msg.result, context := m_context, pResponseHeader := hdr, events := [] })
    -- the response carries the invalid block id
    ∨ (msg.command = URIMessage.URIResponse ∧ msg.result = Result.Success
      ∧ msg.blockId = k.kInvalidBlockId
      ∧ URIClient.RequestURI.readResponsePayload k env history m_context hdr
          { payload := Payload.Received msg, inlineData := [], payloadSize := msg.payloadSize }
        = { result := Result.Success, context := m_context, pResponseHeader := hdr,
            events := [] })
    -- the pull block does not open
    ∨ (msg.command = URIMessage.URIResponse ∧ msg.result = Result.Success
      ∧ msg.blockId ≠ k.kInvalidBlockId
      ∧ URIClient.RequestURI.readResponsePayload k env history m_context hdr
          { payload := Payload.Received msg, inlineData := [], payloadSize := msg.payloadSize }
        = { result := Result.UriFailedToOpenResponseBlock, context := m_context,
            pResponseHeader := hdr,
            events := [Event.OpenPullBlock env.GetRemoteClientId msg.blockId none] })
    -- the pull block opens and holds data
    ∨ (∃ block blockSize, msg.command = URIMessage.URIResponse ∧ msg.result = Result.Success
      ∧ msg.blockId ≠ k.kInvalidBlockId ∧ 0 < blockSize
      ∧ URIClient.RequestURI.readResponsePayload k env history m_context hdr
          { payload := Payload.Received msg, inlineData := [], payloadSize := msg.payloadSize }
        = { result := Result.Success
            context := { state := State.ReadResponse, pBlock := some block }
            pResponseHeader :=
              hdr.map (fun _ =>
                { responseDataSizeInBytes := blockSize
                  responseDataFormat :=
                    if env.sessionGetVersion ≥ k.URI_RESPONSE_FORMATS_VERSION then
                      ResponseFormatToUriFormat msg.format
                    else URIDataFormat.Text })
            events := [Event.OpenPullBlock env.GetRemoteClientId msg.blockId (some block)] })
    -- the pull block opens and is empty
    ∨ (∃ block, msg.command = URIMessage.URIResponse ∧ msg.result = Result.Success
      ∧ msg.blockId ≠ k.kInvalidBlockId
      ∧ URIClient.RequestURI.readResponsePayload k env history m_context hdr
          { payload := Payload.Received msg, inlineData := [], payloadSize := msg.payloadSize }
        = { result := Result.Success
            context := { m_context with pBlock := none }
            pResponseHeader :=
              hdr.map (fun _ =>
                { responseDataSizeInBytes := 0
                  responseDataFormat :=
                    if env.sessionGetVersion ≥ k.URI_RESPONSE_FORMATS_VERSION then
                      ResponseFormatToUriFormat msg.format
                    else URIDataFormat.Text })
            events := [Event.OpenPullBlock env.GetRemoteClientId msg.blockId (some block),
                       Event.ClosePullBlock (some block)] }) := by
  by_cases hc : msg.command = URIMessage.URIResponse
  · by_cases hr : msg.result = Result.Success
    · by_cases hb : msg.blockId = k.kInvalidBlockId
      · right; right; left
        exact ⟨hc, hr, hb, by
          simp [URIClient.RequestURI.readResponsePayload, SizedPayloadContainer.GetPayload,
            hc, hr, hb]⟩
      · generalize hR : URIClient.RequestURI.readResponsePayload k env history m_context hdr
            { payload := Payload.Received msg, inlineData := [],
              payloadSize := msg.payloadSize } = R
        simp only [URIClient.RequestURI.readResponsePayload, SizedPayloadContainer.GetPayload,
          hc, hr, hb, if_true, ne_eq, not_false_eq_true, ClosePullBlock] at hR
        revert hR
        generalize env.OpenPullBlock _ _ _ = opened
        cases opened with
        | none =>
          intro hR
          right; right; right; left
          exact ⟨hc, hr, hb, by simp [← hR]⟩
        | some block =>
          simp only []
          generalize env.GetBlockDataSize _ _ = blockSize
          by_cases hs : blockSize > 0
          · intro hR
            right; right; right; right; left
            refine ⟨block, blockSize, hc, hr, hb, hs, ?_⟩
            cases hdr <;> simp [← hR, hs]
          · intro hR
            have hz : blockSize = 0 := by omega
            subst hz
            right; right; right; right; right
            refine ⟨block, hc, hr, hb, ?_⟩
            cases hdr <;> simp [← hR]
    · right; left
      exact ⟨hc, hr, by
        simp [URIClient.RequestURI.readResponsePayload, SizedPayloadContainer.GetPayload,
          hc, hr]⟩
  · left
    exact ⟨hc, by
      simp [URIClient.RequestURI.readResponsePayload, SizedPayloadContainer.GetPayload, hc]⟩

/-- `RequestURI` from `Idle` when the set-up of the payload fails: the call
returns the result of the set-up, with the header defaults in place. -/
theorem RequestURI_of_setup_failed (k : Constants) (env : Environment) (history : List Event)
    (m_context : Context) (s : String) (hdr : Option ResponseHeader)
    (pd : Option (List Nat)) (n : Nat) (res : Result) (c : SizedPayloadContainer)
    (evs : List Event) (hidle : m_context.state = State.Idle)
    (hsetup : URIClient.RequestURI.setupPayload k env history s pd n = (res, c, evs))
    (hres : res ≠ Result.Success) :
    URIClient.RequestURI k env history m_context (some s) hdr pd n
      = { result := res, context := m_context
          pResponseHeader :=
            hdr.map (fun _ =>
              { responseDataSizeInBytes := 0, responseDataFormat := URIDataFormat.Unknown })
          events := evs } := by
  cases hdr <;> simp [URIClient.RequestURI, hidle, hsetup, hres]

/-- `RequestURI` from `Idle` when the set-up of the payload succeeds: the ways
the transaction and the decoding of the response can go, each with the
outcome of the call. -/
theorem RequestURI_of_setup_succeeded (k : Constants) (env : Environment)
    (history : List Event) (m_context : Context) (s : String) (hdr : Option ResponseHeader)
    (pd : Option (List Nat)) (n : Nat) (c : SizedPayloadContainer) (evs : List Event)
    (hidle : m_context.state = State.Idle)
    (hsetup : URIClient.RequestURI.setupPayload k env history s pd n
      = (Result.Success, c, evs)) :
    ∃ w : Nat,
    -- the send of the request fails
    (∃ a, a ≠ Result.Success
      ∧ URIClient.RequestURI k env history m_context (some s) hdr pd n
        = { result := a, context := m_context
            pResponseHeader :=
            hdr.map (fun _ =>
              { responseDataSizeInBytes := 0, responseDataFormat := URIDataFormat.Unknown })
            events := evs ++
              [Event.Send c w k.kDefaultCommunicationTimeoutInMs k.kDefaultRetryTimeoutInMs
                a] })
    -- the receive of the response fails
    ∨ (∃ ra msg, ra ≠ Result.Success
      ∧ URIClient.RequestURI k env history m_context (some s) hdr pd n
        = { result := ra, context := m_context
            pResponseHeader :=
            hdr.map (fun _ =>
              { responseDataSizeInBytes := 0, responseDataFormat := URIDataFormat.Unknown })
            events := evs ++
              [Event.Send c w k.kDefaultCommunicationTimeoutInMs k.kDefaultRetryTimeoutInMs
                Result.Success,
               Event.Receive k.sizeofPayload k.kDefaultCommunicationTimeoutInMs
                k.kDefaultRetryTimeoutInMs ra msg] })
    -- the message received is not a `URIResponse`
    ∨ (∃ msg, msg.command ≠ URIMessage.URIResponse
      ∧ URIClient.RequestURI k env history m_context (some s) hdr pd n
        = { result := Result.Success, context := m_context
            pResponseHeader :=
            hdr.map (fun _ =>
              { responseDataSizeInBytes := 0, responseDataFormat := URIDataFormat.Unknown })
            events := evs ++
              [Event.Send c w k.kDefaultCommunicationTimeoutInMs k.kDefaultRetryTimeoutInMs
                Result.Success,
               Event.Receive k.sizeofPayload k.kDefaultCommunicationTimeoutInMs
                k.kDefaultRetryTimeoutInMs Result.Success msg] })
    -- the response carries a failure
    ∨ (∃ msg, msg.command = URIMessage.URIResponse ∧ msg.result ≠ Result.Success
      ∧ URIClient.RequestURI k env history m_context (some s) hdr pd n
        = { result := msg.result, context := m_context
            pResponseHeader :=
            hdr.map (fun _ =>
              { responseDataSizeInBytes := 0, responseDataFormat := URIDataFormat.Unknown })
            events := evs ++
              [Event.Send c w k.kDefaultCommunicationTimeoutInMs k.kDefaultRetryTimeoutInMs
                Result.Success,
               Event.Receive k.sizeofPayload k.kDefaultCommunicationTimeoutInMs
                k.kDefaultRetryTimeoutInMs Result.Success msg] })
    -- the response carries the invalid block id
    ∨ (∃ msg, msg.command = URIMessage.URIResponse ∧ msg.result = Result.Success
      ∧ msg.blockId = k.kInvalidBlockId
      ∧ URIClient.RequestURI k env history m_context (some s) hdr pd n
        = { result := Result.Success, context := m_context
            pResponseHeader :=
            hdr.map (fun _ =>
              { responseDataSizeInBytes := 0, responseDataFormat := URIDataFormat.Unknown })
            events := evs ++
              [Event.Send c w k.kDefaultCommunicationTimeoutInMs k.kDefaultRetryTimeoutInMs
                Result.Success,
               Event.Receive k.sizeofPayload k.kDefaultCommunicationTimeoutInMs
                k.kDefaultRetryTimeoutInMs Result.Success msg] })
    -- the pull block does not open
    ∨ (∃ msg, msg.command = URIMessage.URIResponse ∧ msg.result = Result.Success
      ∧ msg.blockId ≠ k.kInvalidBlockId
      ∧ URIClient.RequestURI k env history m_context (some s) hdr pd n
        = { result := Result.UriFailedToOpenResponseBlock, context := m_context
            pResponseHeader :=
            hdr.map (fun _ =>
              { responseDataSizeInBytes := 0, responseDataFormat := URIDataFormat.Unknown })
            events := evs ++
              [Event.Send c w k.kDefaultCommunicationTimeoutInMs k.kDefaultRetryTimeoutInMs
                Result.Success,
               Event.Receive k.sizeofPayload k.kDefaultCommunicationTimeoutInMs
                k.kDefaultRetryTimeoutInMs Result.Success msg,
               Event.OpenPullBlock env.GetRemoteClientId msg.blockId none] })
    -- the pull block opens and holds data
    ∨ (∃ msg block blockSize, msg.command = URIMessage.URIResponse
      ∧ msg.result = Result.Success ∧ msg.blockId ≠ k.kInvalidBlockId ∧ 0 < blockSize
      ∧ URIClient.RequestURI k env history m_context (some s) hdr pd n
        = { result := Result.Success
            context := { state := State.ReadResponse, pBlock := some block }
            pResponseHeader :=
            hdr.map (fun _ =>
              { responseDataSizeInBytes := blockSize
                responseDataFormat :=
                  if env.sessionGetVersion ≥ k.URI_RESPONSE_FORMATS_VERSION then
                    ResponseFormatToUriFormat msg.format
                  else URIDataFormat.Text })
            events := evs ++
              [Event.Send c w k.kDefaultCommunicationTimeoutInMs k.kDefaultRetryTimeoutInMs
                Result.Success,
               Event.Receive k.sizeofPayload k.kDefaultCommunicationTimeoutInMs
                k.kDefaultRetryTimeoutInMs Result.Success msg,
               Event.OpenPullBlock env.GetRemoteClientId msg.blockId (some block)] })
    -- the pull block opens and is empty
    ∨ (∃ msg block, msg.command = URIMessage.URIResponse
      ∧ msg.result = Result.Success ∧ msg.blockId ≠ k.kInvalidBlockId
      ∧ URIClient.RequestURI k env history m_context (some s) hdr pd n
        = { result := Result.Success
            context := { m_context with pBlock := none }
            pResponseHeader :=
            hdr.map (fun _ =>
              { responseDataSizeInBytes := 0
                responseDataFormat :=
                  if env.sessionGetVersion ≥ k.URI_RESPONSE_FORMATS_VERSION then
                    ResponseFormatToUriFormat msg.format
                  else URIDataFormat.Text })
            events := evs ++
              [Event.Send c w k.kDefaultCommunicationTimeoutInMs k.kDefaultRetryTimeoutInMs
                Result.Success,
               Event.Receive k.sizeofPayload k.kDefaultCommunicationTimeoutInMs
                k.kDefaultRetryTimeoutInMs Result.Success msg,
               Event.OpenPullBlock env.GetRemoteClientId msg.blockId (some block),
               Event.ClosePullBlock (some block)] }) := by
  refine ⟨SendURIPayload.payloadSize k env c, ?_⟩
  rcases TransactURIPayload_shape k env (history ++ evs) c
      k.kDefaultCommunicationTimeoutInMs k.kDefaultRetryTimeoutInMs
    with ⟨a, ha, hT⟩ | ⟨ra, msg, hT⟩
  · left
    exact ⟨a, ha, by
      cases hdr <;> simp [URIClient.RequestURI, hidle, hsetup, hT, ha]⟩
  · by_cases hra : ra = Result.Success
    · subst hra
      right; right
      rcases readResponsePayload_shape k env
          (history ++
            (evs ++
              [Event.Send c (SendURIPayload.payloadSize k env c)
                k.kDefaultCommunicationTimeoutInMs k.kDefaultRetryTimeoutInMs Result.Success,
               Event.Receive k.sizeofPayload k.kDefaultCommunicationTimeoutInMs
                k.kDefaultRetryTimeoutInMs Result.Success msg]))
          m_context
          (hdr.map (fun _ =>
            { responseDataSizeInBytes := 0, responseDataFormat := URIDataFormat.Unknown }))
          msg
        with ⟨h1, hR⟩ | ⟨h1, h2, hR⟩ | ⟨h1, h2, h3, hR⟩ | ⟨h1, h2, h3, hR⟩
          | ⟨block, blockSize, h1, h2, h3, h4, hR⟩ | ⟨block, h1, h2, h3, hR⟩
      · left
        exact ⟨msg, h1, by
          cases hdr <;> simp only [Option.map] at hR <;>
            simp [URIClient.RequestURI, hidle, hsetup, hT, hR]⟩
      · right; left
        exact ⟨msg, h1, h2, by
          cases hdr <;> simp only [Option.map] at hR <;>
            simp [URIClient.RequestURI, hidle, hsetup, hT, hR]⟩
      · right; right; left
        exact ⟨msg, h1, h2, h3, by
          cases hdr <;> simp only [Option.map] at hR <;>
            simp [URIClient.RequestURI, hidle, hsetup, hT, hR]⟩
      · right; right; right; left
        exact ⟨msg, h1, h2, h3, by
          cases hdr <;> simp only [Option.map] at hR <;>
            simp [URIClient.RequestURI, hidle, hsetup, hT, hR]⟩
      · right; right; right; right; left
        exact ⟨msg, block, blockSize, h1, h2, h3, h4, by
          cases hdr <;> simp only [Option.map] at hR <;>
            simp [URIClient.RequestURI, hidle, hsetup, hT, hR]⟩
      · right; right; right; right; right
        exact ⟨msg, block, h1, h2, h3, by
          cases hdr <;> simp only [Option.map] at hR <;>
            simp [URIClient.RequestURI, hidle, hsetup, hT, hR]⟩
    · right; left
      exact ⟨ra, msg, hra, by
        cases hdr <;> simp [URIClient.RequestURI, hidle, hsetup, hT, hra]⟩

/-- Setting up the payload when there is no post data. -/
theorem setupPayload_no_post_data (k : Constants) (env : Environment) (history : List Event)
    (s : String) (pd : Option (List Nat)) (n : Nat) (h : pd = none ∨ n = 0) :
    URIClient.RequestURI.setupPayload k env history s pd n
      = (Result.Success,
         SizedPayloadContainer.zero.CreatePayload (Payload.URIRequestPayload s none)
           k.sizeofURIRequestPayload,
         []) := by
  simp [URIClient.RequestURI.setupPayload, h]

/-- Setting up the payload when the post data fits into the packet. -/
theorem setupPayload_inline (k : Constants) (env : Environment) (history : List Event)
    (s : String) (data : List Nat) (n : Nat) (hpos : 0 < n) (hfit : n ≤ k.kMaxInlineDataSize) :
    URIClient.RequestURI.setupPayload k env history s (some data) n
      = (Result.Success,
         { payload :=
             Payload.URIRequestPayload s
               (some { blockId := k.kInvalidBlockId, dataFormat := TransferDataFormat.Binary,
                       dataSize := static_cast_uint32 n })
           inlineData := data.take n
           payloadSize := static_cast_uint32 (k.sizeofURIRequestPayload + n) },
         []) := by
  have hn : n ≠ 0 := by omega
  simp [URIClient.RequestURI.setupPayload, hn, hfit, SizedPayloadContainer.CreatePayload]

/-- Setting up the payload when the post data does not fit into the packet. -/
theorem setupPayload_block (k : Constants) (env : Environment) (history : List Event)
    (s : String) (data : List Nat) (n : Nat) (hbig : k.kMaxInlineDataSize < n) :
    URIClient.RequestURI.setupPayload k env history s (some data) n
      = URIClient.RequestURI.postThroughBlock k env history SizedPayloadContainer.zero s data
          n := by
  have hn : n ≠ 0 := by omega
  have hfit : ¬ n ≤ k.kMaxInlineDataSize := by omega
  simp [URIClient.RequestURI.setupPayload, hn, hfit]

/-- Setting up the payload either records nothing and succeeds, or goes
through the block-backed post path. -/
theorem setupPayload_shape (k : Constants) (env : Environment) (history : List Event)
    (s : String) (pd : Option (List Nat)) (n : Nat) :
    (∃ c, URIClient.RequestURI.setupPayload k env history s pd n = (Result.Success, c, []))
    ∨ (∃ data, pd = some data ∧ k.kMaxInlineDataSize < n
        ∧ URIClient.RequestURI.setupPayload k env history s pd n
          = URIClient.RequestURI.postThroughBlock k env history SizedPayloadContainer.zero s
              data n) := by
  by_cases hno : pd = none ∨ n = 0
  · exact Or.inl ⟨_, setupPayload_no_post_data k env history s pd n hno⟩
  · cases pd with
    | none => simp at hno
    | some data =>
      have hpos : 0 < n := by
        rcases Nat.eq_zero_or_pos n with h | h
        · exact absurd (Or.inr h) hno
        · exact h
      by_cases hfit : n ≤ k.kMaxInlineDataSize
      · exact Or.inl ⟨_, setupPayload_inline k env history s data n hpos hfit⟩
      · exact Or.inr ⟨data, rfl, by omega, setupPayload_block k env history s data n (by omega)⟩

/-! ### Claims about `RequestURI` -/

/-- Counterexample for C6: from `Idle`, a request with the empty request
string (a non-null pointer to `""`) and no post data is not rejected: on a
channel that answers, one message is sent and the call returns `Success`. -/
theorem requestURI_empty_string_is_sent :
    idleContext.state = State.Idle
    ∧ (URIClient.RequestURI sampleConstants
        (scriptedEnvironment
          { allSucceed with receives := [(Result.Success, successResponse 0)] })
        [] idleContext (some "") none none 0).result = Result.Success
    ∧ ((URIClient.RequestURI sampleConstants
        (scriptedEnvironment
          { allSucceed with receives := [(Result.Success, successResponse 0)] })
        [] idleContext (some "") none none 0).events.filter Event.isSend).length = 1 := by
  decide

/-- C6, amended. `RequestURI` returns `Result::UriInvalidParameters`, records
no call on the channel or the transfer manager, and leaves the client context
and the response header as they are, whenever the client state is not `Idle`
or the request string pointer is null. -/
theorem requestURI_rejects_at_entry (k : Constants) (env : Environment) (history : List Event)
    (m_context : Context) (pRequestString : Option String)
    (pResponseHeader : Option ResponseHeader) (pPostData : Option (List Nat))
    (postDataSize : Nat)
    (h : m_context.state ≠ State.Idle ∨ pRequestString = none) :
    URIClient.RequestURI k env history m_context pRequestString pResponseHeader pPostData
        postDataSize
      = { result := Result.UriInvalidParameters, context := m_context,
          pResponseHeader := pResponseHeader, events := [] } := by
  cases pRequestString with
  | none => rfl
  | some requestString =>
    have hstate : m_context.state ≠ State.Idle := by
      rcases h with h | h
      · exact h
      · simp at h
    simp [URIClient.RequestURI, hstate]

/-- Witness for C6, amended: a request made while a response is being read,
and a request with a null request string. -/
theorem requestURI_rejects_at_entry_witness :
    URIClient.RequestURI sampleConstants (scriptedEnvironment allSucceed) []
        { state := State.ReadResponse, pBlock := some 41 } (some "echo?x=1") none none 0
      = { result := Result.UriInvalidParameters
          context := { state := State.ReadResponse, pBlock := some 41 }
          pResponseHeader := none, events := [] }
    ∧ URIClient.RequestURI sampleConstants (scriptedEnvironment allSucceed) []
        idleContext none none none 0
      = { result := Result.UriInvalidParameters, context := idleContext,
          pResponseHeader := none, events := [] } :=
  ⟨requestURI_rejects_at_entry _ _ _ _ _ _ _ _ (Or.inl (by decide)),
   requestURI_rejects_at_entry _ _ _ _ _ _ _ _ (Or.inr rfl)⟩

/-- Counterexample for C7: with no post data, when the send is answered
`NotReady` the call issues no receive at all; and when the response names
block 5, the call opens a pull block. -/
theorem requestURI_no_post_data_receive_and_pull_block :
    ((URIClient.RequestURI sampleConstants
        (scriptedEnvironment { allSucceed with sends := [Result.NotReady] })
        [] idleContext (some "echo?x=1") none none 0).events.filter Event.isSend).length = 1
    ∧ ((URIClient.RequestURI sampleConstants
        (scriptedEnvironment { allSucceed with sends := [Result.NotReady] })
        [] idleContext (some "echo?x=1") none none 0).events.filter Event.isReceive).length = 0
    ∧ (URIClient.RequestURI sampleConstants
        (scriptedEnvironment { allSucceed with receives := [(Result.Success, successResponse 5)] })
        [] idleContext (some "echo?x=1") none none 0).events.filter Event.isOpenPullBlock
      = [Event.OpenPullBlock 2 5 (some 41)] := by
  decide

/-- C7, amended. For every request string, a call of `RequestURI` from `Idle`
with no post data (null pointer or size 0) issues exactly one send; it issues
one receive when that send returns `Success` and none otherwise; it makes no
call for a push block; and it opens a pull block exactly when the receive
returns `Success` and delivers a `URIResponse` with result `Success` and a
block id other than the invalid sentinel. -/
theorem requestURI_no_post_data_calls (k : Constants) (env : Environment)
    (history : List Event) (m_context : Context) (s : String)
    (pResponseHeader : Option ResponseHeader) (pPostData : Option (List Nat))
    (postDataSize : Nat) (hidle : m_context.state = State.Idle)
    (hno : pPostData = none ∨ postDataSize = 0) :
    ((URIClient.RequestURI k env history m_context (some s) pResponseHeader pPostData
        postDataSize).events.filter Event.isSend).length = 1
    ∧ ((URIClient.RequestURI k env history m_context (some s) pResponseHeader pPostData
        postDataSize).events.filter Event.isReceive).length
      = ((URIClient.RequestURI k env history m_context (some s) pResponseHeader pPostData
        postDataSize).events.filter Event.isSuccessfulSend).length
    ∧ (URIClient.RequestURI k env history m_context (some s) pResponseHeader pPostData
        postDataSize).events.filter Event.isPushBlockCall = []
    ∧ ((URIClient.RequestURI k env history m_context (some s) pResponseHeader pPostData
        postDataSize).events.filter Event.isOpenPullBlock).length
      = ((URIClient.RequestURI k env history m_context (some s) pResponseHeader pPostData
        postDataSize).events.filter (Event.isReceiveOfBlockResponse k)).length := by
  generalize hO : URIClient.RequestURI k env history m_context (some s) pResponseHeader
    pPostData postDataSize = out
  obtain ⟨w, hshape⟩ := RequestURI_of_setup_succeeded k env history m_context s
    pResponseHeader pPostData postDataSize _ [] hidle
    (setupPayload_no_post_data k env history s pPostData postDataSize hno)
  rw [hO] at hshape
  rcases hshape with ⟨a, h1, hout⟩ | ⟨ra, msg, h1, hout⟩ | ⟨msg, h1, hout⟩ | ⟨msg, h1, h2, hout⟩
    | ⟨msg, h1, h2, h3, hout⟩ | ⟨msg, h1, h2, h3, hout⟩ | ⟨msg, b, sz, h1, h2, h3, _, hout⟩
    | ⟨msg, b, h1, h2, h3, hout⟩ <;>
  · subst hout
    simp only [List.nil_append, List.filter, Event.isSend, Event.isReceive,
      Event.isSuccessfulSend, Event.isPushBlockCall, Event.isOpenPullBlock,
      Event.isReceiveOfBlockResponse, List.length_nil, List.length_cons, zero_add,
      decide_True, decide_False, Bool.and_true, Bool.true_and, Bool.and_false,
      Bool.false_and, ne_eq, not_true_eq_false, not_false_eq_true, and_self, true_and]
    all_goals simp_all

/-- Witness for C7, amended: a request without post data on a channel where
every call succeeds. -/
theorem requestURI_no_post_data_calls_witness :
    idleContext.state = State.Idle
    ∧ ((none : Option (List Nat)) = none ∨ 0 = 0)
    ∧ ((URIClient.RequestURI sampleConstants (scriptedEnvironment allSucceed) [] idleContext
          (some "echo?x=1") none none 0).events.filter Event.isSend).length = 1
    ∧ ((URIClient.RequestURI sampleConstants (scriptedEnvironment allSucceed) [] idleContext
          (some "echo?x=1") none none 0).events.filter Event.isReceive).length
      = ((URIClient.RequestURI sampleConstants (scriptedEnvironment allSucceed) [] idleContext
          (some "echo?x=1") none none 0).events.filter Event.isSuccessfulSend).length
    ∧ (URIClient.RequestURI sampleConstants (scriptedEnvironment allSucceed) [] idleContext
          (some "echo?x=1") none none 0).events.filter Event.isPushBlockCall = []
    ∧ ((URIClient.RequestURI sampleConstants (scriptedEnvironment allSucceed) [] idleContext
          (some "echo?x=1") none none 0).events.filter Event.isOpenPullBlock).length
      = ((URIClient.RequestURI sampleConstants (scriptedEnvironment allSucceed) [] idleContext
          (some "echo?x=1") none none 0).events.filter
            (Event.isReceiveOfBlockResponse sampleConstants)).length :=
  ⟨rfl, Or.inl rfl,
   requestURI_no_post_data_calls sampleConstants (scriptedEnvironment allSucceed) []
     idleContext "echo?x=1" none none 0 rfl (Or.inl rfl)⟩

/-- C8. For non-null post data of size `n` with `0 < n <= kMaxInlineDataSize`,
`RequestURI` called from `Idle` makes no call for a push block and sends no
`URIPostRequest`; the one container it sends holds a `URIRequestPayload` whose
block id is the invalid sentinel, whose data format is `Binary` and whose
post-data size is `n`, followed by the first `n` bytes of the post data, with
`payloadSize = sizeof(URIRequestPayload) + n`. The two sizes come from
`ddURIProtocol.h`; the container size is a `uint32`, so their sum is taken
to fit into 32 bits. -/
theorem requestURI_inline_post_data (k : Constants) (env : Environment)
    (history : List Event) (m_context : Context) (s : String)
    (pResponseHeader : Option ResponseHeader) (data : List Nat) (n : Nat)
    (hidle : m_context.state = State.Idle) (hpos : 0 < n) (hfit : n ≤ k.kMaxInlineDataSize)
    (hsize : k.sizeofURIRequestPayload + k.kMaxInlineDataSize < 2 ^ 32) :
    (URIClient.RequestURI k env history m_context (some s) pResponseHeader (some data)
        n).events.filter Event.isPushBlockCall = []
    ∧ (URIClient.RequestURI k env history m_context (some s) pResponseHeader (some data)
        n).events.filter Event.isSendOfPostRequest = []
    ∧ sentContainers (URIClient.RequestURI k env history m_context (some s) pResponseHeader (some data)
        n).events
      = [{ payload :=
             Payload.URIRequestPayload s
               (some { blockId := k.kInvalidBlockId, dataFormat := TransferDataFormat.Binary,
                       dataSize := n })
           inlineData := data.take n
           payloadSize := k.sizeofURIRequestPayload + n }] := by
  generalize hO : URIClient.RequestURI k env history m_context (some s) pResponseHeader
    (some data) n = out
  have hcast1 : static_cast_uint32 n = n := Nat.mod_eq_of_lt (by omega)
  have hcast2 : static_cast_uint32 (k.sizeofURIRequestPayload + n)
      = k.sizeofURIRequestPayload + n := Nat.mod_eq_of_lt (by omega)
  have hsetup := setupPayload_inline k env history s data n hpos hfit
  rw [hcast1, hcast2] at hsetup
  obtain ⟨w, hshape⟩ := RequestURI_of_setup_succeeded k env history m_context s
    pResponseHeader (some data) n _ [] hidle hsetup
  rw [hO] at hshape
  rcases hshape with ⟨a, h1, hout⟩ | ⟨ra, msg, h1, hout⟩ | ⟨msg, h1, hout⟩ | ⟨msg, h1, h2, hout⟩
    | ⟨msg, h1, h2, h3, hout⟩ | ⟨msg, h1, h2, h3, hout⟩ | ⟨msg, b, sz, h1, h2, h3, _, hout⟩
    | ⟨msg, b, h1, h2, h3, hout⟩ <;>
  · subst hout
    simp only [List.nil_append, List.filter, Event.isPushBlockCall, Event.isSendOfPostRequest,
      sentContainers, and_self]

/-- Witness for C8: ten bytes of post data. -/
theorem requestURI_inline_post_data_witness :
    idleContext.state = State.Idle
    ∧ 0 < 10
    ∧ 10 ≤ sampleConstants.kMaxInlineDataSize
    ∧ sampleConstants.sizeofURIRequestPayload + sampleConstants.kMaxInlineDataSize < 2 ^ 32
    ∧ (URIClient.RequestURI sampleConstants (scriptedEnvironment allSucceed) [] idleContext
          (some "echo?x=1") none (some [48, 49, 50, 51, 52, 53, 54, 55, 56, 57])
          10).events.filter Event.isPushBlockCall = []
    ∧ (URIClient.RequestURI sampleConstants (scriptedEnvironment allSucceed) [] idleContext
          (some "echo?x=1") none (some [48, 49, 50, 51, 52, 53, 54, 55, 56, 57])
          10).events.filter Event.isSendOfPostRequest = []
    ∧ sentContainers
        (URIClient.RequestURI sampleConstants (scriptedEnvironment allSucceed) [] idleContext
          (some "echo?x=1") none (some [48, 49, 50, 51, 52, 53, 54, 55, 56, 57]) 10).events
      = [{ payload :=
             Payload.URIRequestPayload "echo?x=1"
               (some { blockId := sampleConstants.kInvalidBlockId
                       dataFormat := TransferDataFormat.Binary, dataSize := 10 })
           inlineData := List.take 10 [48, 49, 50, 51, 52, 53, 54, 55, 56, 57]
           payloadSize := sampleConstants.sizeofURIRequestPayload + 10 }] :=
  ⟨rfl, by decide, by decide, by decide,
   requestURI_inline_post_data sampleConstants (scriptedEnvironment allSucceed) []
     idleContext "echo?x=1" none [48, 49, 50, 51, 52, 53, 54, 55, 56, 57] 10 rfl (by decide)
     (by decide) (by decide)⟩

/-- Counterexample for C9: with 20 bytes of post data (more than the 16 that
fit inline), when the send of the post request is answered `NotReady`
no push block is opened; when the write into the push block fails, the block
is not finalized; and for post data of `2 ^ 32 + 20` bytes the request
announces a post-data size of 20. -/
theorem requestURI_block_upload_not_always_complete :
    (URIClient.RequestURI sampleConstants
        (scriptedEnvironment { allSucceed with sends := [Result.NotReady] })
        [] idleContext (some "echo") none (some (List.replicate 20 7)) 20).events.filter
          Event.isPushBlockCall = []
    ∧ (URIClient.RequestURI sampleConstants
        (scriptedEnvironment { allSucceed with pushBlockWrite := Result.Error })
        [] idleContext (some "echo") none (some (List.replicate 20 7)) 20).events.filter
          Event.isPushBlockCall
      = [Event.OpenPushBlock 1 9 20 (some 40),
         Event.PushBlockWrite 40 (List.replicate 20 7) 20 Result.Error,
         Event.ClosePushBlock 40]
    ∧ sentContainers
        (URIClient.RequestURI sampleConstants (scriptedEnvironment allSucceed)
          [] idleContext (some "echo") none (some (List.replicate (2 ^ 32 + 20) 7))
          (2 ^ 32 + 20)).events
      = [SizedPayloadContainer.zero.CreatePayload (Payload.URIPostRequestPayload "echo" 20)
           24,
         SizedPayloadContainer.zero.CreatePayload
           (Payload.URIRequestPayload "echo"
             (some { blockId := 9, dataFormat := TransferDataFormat.Binary, dataSize := 20 }))
           32] := by
  decide

/-- C9, amended. For non-null post data of size `n > kMaxInlineDataSize`,
`RequestURI` called from `Idle` opens at most one push block and goes
through the upload step by step, each step made exactly when the steps before
it succeeded: it always sends the post request first; when that send is
answered `Success` it receives the post response; when the receive is
answered `Success` and the response carries result `Success` it opens the
push block for the block id of that response with size `n`; when the block
opens it writes it once with the post data and size `n`; when the write is
answered `Success` it finalizes the block; it closes the block once it is
open, whatever the write and the finalize answered; and when the finalize is
answered `Success` it sends, after the close, the `URIRequestPayload`, which
names that same block id and a post-data size of `n` mod `2 ^ 32`, and after
that send it sends nothing more and makes no further call for a push block.
At the first step that does not succeed the call makes none of the later
steps, apart from the close of an open block. -/
theorem requestURI_block_upload_order (k : Constants) (env : Environment)
    (history : List Event) (m_context : Context) (s : String)
    (pResponseHeader : Option ResponseHeader) (data : List Nat) (n : Nat)
    (hidle : m_context.state = State.Idle) (hbig : k.kMaxInlineDataSize < n) :
    ((URIClient.RequestURI k env history m_context (some s) pResponseHeader (some data)
        n).events.filter Event.isOpenPushBlock).length ≤ 1
    ∧ ∃ w1 : Nat,
      -- the send of the post request is not answered `Success`
      (∃ a, a ≠ Result.Success
        ∧ (URIClient.RequestURI k env history m_context (some s) pResponseHeader (some data)
            n).events
          = [Event.Send
              (SizedPayloadContainer.zero.CreatePayload
                (Payload.URIPostRequestPayload s (n % 2 ^ 32)) k.sizeofURIPostRequestPayload)
              w1 k.kDefaultCommunicationTimeoutInMs k.kDefaultRetryTimeoutInMs a])
      -- the receive of the post response is not answered `Success`
      ∨ (∃ ra msg, ra ≠ Result.Success
        ∧ (URIClient.RequestURI k env history m_context (some s) pResponseHeader (some data)
            n).events
          = [Event.Send
              (SizedPayloadContainer.zero.CreatePayload
                (Payload.URIPostRequestPayload s (n % 2 ^ 32)) k.sizeofURIPostRequestPayload)
              w1 k.kDefaultCommunicationTimeoutInMs k.kDefaultRetryTimeoutInMs Result.Success,
             Event.Receive k.sizeofPayload k.kDefaultCommunicationTimeoutInMs
              k.kDefaultRetryTimeoutInMs ra msg])
      -- the post response carries a failure
      ∨ (∃ msg, msg.result ≠ Result.Success
        ∧ (URIClient.RequestURI k env history m_context (some s) pResponseHeader (some data)
            n).events
          = [Event.Send
              (SizedPayloadContainer.zero.CreatePayload
                (Payload.URIPostRequestPayload s (n % 2 ^ 32)) k.sizeofURIPostRequestPayload)
              w1 k.kDefaultCommunicationTimeoutInMs k.kDefaultRetryTimeoutInMs Result.Success,
             Event.Receive k.sizeofPayload k.kDefaultCommunicationTimeoutInMs
              k.kDefaultRetryTimeoutInMs Result.Success msg])
      -- the push block does not open
      ∨ (∃ msg, msg.result = Result.Success
        ∧ (URIClient.RequestURI k env history m_context (some s) pResponseHeader (some data)
            n).events
          = [Event.Send
              (SizedPayloadContainer.zero.CreatePayload
                (Payload.URIPostRequestPayload s (n % 2 ^ 32)) k.sizeofURIPostRequestPayload)
              w1 k.kDefaultCommunicationTimeoutInMs k.kDefaultRetryTimeoutInMs Result.Success,
             Event.Receive k.sizeofPayload k.kDefaultCommunicationTimeoutInMs
              k.kDefaultRetryTimeoutInMs Result.Success msg,
             Event.OpenPushBlock env.sessionGetDestinationClientId msg.blockId n none])
      -- the write is not answered `Success`: no finalize, the block is closed
      ∨ (∃ msg block wr, msg.result = Result.Success ∧ wr ≠ Result.Success
        ∧ (URIClient.RequestURI k env history m_context (some s) pResponseHeader (some data)
            n).events
          = [Event.Send
              (SizedPayloadContainer.zero.CreatePayload
                (Payload.URIPostRequestPayload s (n % 2 ^ 32)) k.sizeofURIPostRequestPayload)
              w1 k.kDefaultCommunicationTimeoutInMs k.kDefaultRetryTimeoutInMs Result.Success,
             Event.Receive k.sizeofPayload k.kDefaultCommunicationTimeoutInMs
              k.kDefaultRetryTimeoutInMs Result.Success msg,
             Event.OpenPushBlock env.sessionGetDestinationClientId msg.blockId n (some block),
             Event.PushBlockWrite block data n wr,
             Event.ClosePushBlock block])
      -- the finalize is not answered `Success`: the block is closed, no request is sent
      ∨ (∃ msg block fin, msg.result = Result.Success ∧ fin ≠ Result.Success
        ∧ (URIClient.RequestURI k env history m_context (some s) pResponseHeader (some data)
            n).events
          = [Event.Send
              (SizedPayloadContainer.zero.CreatePayload
                (Payload.URIPostRequestPayload s (n % 2 ^ 32)) k.sizeofURIPostRequestPayload)
              w1 k.kDefaultCommunicationTimeoutInMs k.kDefaultRetryTimeoutInMs Result.Success,
             Event.Receive k.sizeofPayload k.kDefaultCommunicationTimeoutInMs
              k.kDefaultRetryTimeoutInMs Result.Success msg,
             Event.OpenPushBlock env.sessionGetDestinationClientId msg.blockId n (some block),
             Event.PushBlockWrite block data n Result.Success,
             Event.PushBlockFinalize block fin,
             Event.ClosePushBlock block])
      -- every step of the upload succeeds: the request is sent after the close
      ∨ (∃ msg block w2 a rest, msg.result = Result.Success
        ∧ (URIClient.RequestURI k env history m_context (some s) pResponseHeader (some data)
            n).events
          = Event.Send
              (SizedPayloadContainer.zero.CreatePayload
                (Payload.URIPostRequestPayload s (n % 2 ^ 32)) k.sizeofURIPostRequestPayload)
              w1 k.kDefaultCommunicationTimeoutInMs k.kDefaultRetryTimeoutInMs Result.Success
            :: Event.Receive k.sizeofPayload k.kDefaultCommunicationTimeoutInMs
                k.kDefaultRetryTimeoutInMs Result.Success msg
            :: Event.OpenPushBlock env.sessionGetDestinationClientId msg.blockId n (some block)
            :: Event.PushBlockWrite block data n Result.Success
            :: Event.PushBlockFinalize block Result.Success
            :: Event.ClosePushBlock block
            :: Event.Send
                (SizedPayloadContainer.zero.CreatePayload
                  (Payload.URIRequestPayload s
                    (some { blockId := msg.blockId, dataFormat := TransferDataFormat.Binary,
                            dataSize := n % 2 ^ 32 }))
                  k.sizeofURIRequestPayload)
                w2 k.kDefaultCommunicationTimeoutInMs k.kDefaultRetryTimeoutInMs a
            :: rest
        ∧ rest.filter Event.isSend = []
        ∧ rest.filter Event.isPushBlockCall = []) := by
  generalize hO : URIClient.RequestURI k env history m_context (some s) pResponseHeader
    (some data) n = out
  have hsetup := setupPayload_block k env history s data n hbig
  obtain ⟨w1, hpost⟩ := postThroughBlock_shape k env history SizedPayloadContainer.zero s
    data n
  rcases hpost with ⟨a, hne, hP⟩ | ⟨ra, msg, hne, hP⟩ | ⟨msg, hne, hP⟩ | ⟨msg, hmsg, hP⟩
    | ⟨msg, b, wr, hmsg, hne, hP⟩ | ⟨msg, b, fin, hmsg, hne, hP⟩ | ⟨msg, b, hmsg, hP⟩
  -- the six paths on which the upload stops early
  · have hout := RequestURI_of_setup_failed k env history m_context s pResponseHeader
      (some data) n _ _ _ hidle (hsetup.trans hP) hne
    rw [hO] at hout
    subst hout
    exact ⟨by simp [Event.isOpenPushBlock], w1, Or.inl ⟨a, hne, rfl⟩⟩
  · have hout := RequestURI_of_setup_failed k env history m_context s pResponseHeader
      (some data) n _ _ _ hidle (hsetup.trans hP) hne
    rw [hO] at hout
    subst hout
    exact ⟨by simp [Event.isOpenPushBlock], w1, Or.inr (Or.inl ⟨ra, msg, hne, rfl⟩)⟩
  · have hout := RequestURI_of_setup_failed k env history m_context s pResponseHeader
      (some data) n _ _ _ hidle (hsetup.trans hP) hne
    rw [hO] at hout
    subst hout
    exact ⟨by simp [Event.isOpenPushBlock], w1, Or.inr (Or.inr (Or.inl ⟨msg, hne, rfl⟩))⟩
  · have hout := RequestURI_of_setup_failed k env history m_context s pResponseHeader
      (some data) n _ _ _ hidle (hsetup.trans hP) (by decide)
    rw [hO] at hout
    subst hout
    exact ⟨by simp [Event.isOpenPushBlock], w1,
      Or.inr (Or.inr (Or.inr (Or.inl ⟨msg, hmsg, rfl⟩)))⟩
  · have hout := RequestURI_of_setup_failed k env history m_context s pResponseHeader
      (some data) n _ _ _ hidle (hsetup.trans hP) hne
    rw [hO] at hout
    subst hout
    exact ⟨by simp [Event.isOpenPushBlock], w1,
      Or.inr (Or.inr (Or.inr (Or.inr (Or.inl ⟨msg, b, wr, hmsg, hne, rfl⟩))))⟩
  · have hout := RequestURI_of_setup_failed k env history m_context s pResponseHeader
      (some data) n _ _ _ hidle (hsetup.trans hP) hne
    rw [hO] at hout
    subst hout
    exact ⟨by simp [Event.isOpenPushBlock], w1,
      Or.inr (Or.inr (Or.inr (Or.inr (Or.inr (Or.inl ⟨msg, b, fin, hmsg, hne, rfl⟩)))))⟩
  -- the upload succeeds and the request is transacted
  · obtain ⟨w, hshape⟩ := RequestURI_of_setup_succeeded k env history m_context s
      pResponseHeader (some data) n _ _ hidle (hsetup.trans hP)
    rw [hO] at hshape
    clear hsetup hP hO
    rcases hshape with ⟨a, _, hout⟩ | ⟨ra, msg2, _, hout⟩ | ⟨msg2, _, hout⟩
      | ⟨msg2, _, _, hout⟩ | ⟨msg2, _, _, _, hout⟩ | ⟨msg2, _, _, _, hout⟩
      | ⟨msg2, b2, sz, _, _, _, _, hout⟩ | ⟨msg2, b2, _, _, _, hout⟩ <;>
    · subst hout
      refine ⟨by simp [Event.isOpenPushBlock], w1, ?_⟩
      iterate 6 right
      exact ⟨msg, b, w, _, _, hmsg, rfl, by simp [Event.isSend],
        by simp [Event.isPushBlockCall]⟩

/-- Witness for C9, amended: 20 bytes of post data on a channel where every
call succeeds, and on a channel where the write into the push block fails. -/
theorem requestURI_block_upload_order_witness :
    idleContext.state = State.Idle
    ∧ sampleConstants.kMaxInlineDataSize < 20
    ∧ (URIClient.RequestURI sampleConstants (scriptedEnvironment allSucceed) [] idleContext
          (some "echo") none (some (List.replicate 20 7)) 20).events
        = [Event.Send
            (SizedPayloadContainer.zero.CreatePayload (Payload.URIPostRequestPayload "echo" 20)
              24)
            24 5000 50 Result.Success,
           Event.Receive 48 5000 50 Result.Success (successPostResponse 9),
           Event.OpenPushBlock 1 9 20 (some 40),
           Event.PushBlockWrite 40 (List.replicate 20 7) 20 Result.Success,
           Event.PushBlockFinalize 40 Result.Success,
           Event.ClosePushBlock 40,
           Event.Send
            (SizedPayloadContainer.zero.CreatePayload
              (Payload.URIRequestPayload "echo"
                (some { blockId := 9, dataFormat := TransferDataFormat.Binary, dataSize := 20 }))
              32)
            32 5000 50 Result.Success,
           Event.Receive 48 5000 50 Result.Success (successResponse 5),
           Event.OpenPullBlock 2 5 (some 41)]
    ∧ ((URIClient.RequestURI sampleConstants (scriptedEnvironment allSucceed) [] idleContext
          (some "echo") none (some (List.replicate 20 7)) 20).events.filter
            Event.isOpenPushBlock).length ≤ 1 :=
  ⟨rfl, by decide, by decide,
   (requestURI_block_upload_order sampleConstants (scriptedEnvironment allSucceed) []
     idleContext "echo" none (List.replicate 20 7) 20 rfl (by decide)).1⟩

/-- C10. In any call of `RequestURI`, a push block is opened at most once and
each block that `OpenPushBlock` returned is closed exactly once before the
call returns, the close being the last call made for a push block; when the
`Write` or the `Finalize` of that block returns a failure, `RequestURI`
returns that failure and sends no `URIRequestPayload`. -/
theorem requestURI_push_block_closed (k : Constants) (env : Environment) (history : List Event)
    (m_context : Context) (pRequestString : Option String)
    (pResponseHeader : Option ResponseHeader) (pPostData : Option (List Nat))
    (postDataSize : Nat) (block : Nat) :
    ((URIClient.RequestURI k env history m_context pRequestString pResponseHeader pPostData
        postDataSize).events.filter (Event.opensPushBlock block)).length ≤ 1
    ∧ ((URIClient.RequestURI k env history m_context pRequestString pResponseHeader pPostData
        postDataSize).events.filter (Event.closesPushBlock block)).length
      = ((URIClient.RequestURI k env history m_context pRequestString pResponseHeader pPostData
        postDataSize).events.filter (Event.opensPushBlock block)).length
    ∧ (∀ clientId blockId size,
        Event.OpenPushBlock clientId blockId size (some block)
          ∈ (URIClient.RequestURI k env history m_context pRequestString pResponseHeader
              pPostData postDataSize).events →
        ((URIClient.RequestURI k env history m_context pRequestString pResponseHeader
            pPostData postDataSize).events.filter Event.isPushBlockCall).getLast?
          = some (Event.ClosePushBlock block))
    ∧ (∀ pData size answer,
        Event.PushBlockWrite block pData size answer
          ∈ (URIClient.RequestURI k env history m_context pRequestString pResponseHeader
              pPostData postDataSize).events →
        answer ≠ Result.Success →
        (URIClient.RequestURI k env history m_context pRequestString pResponseHeader pPostData
          postDataSize).result = answer
        ∧ (URIClient.RequestURI k env history m_context pRequestString pResponseHeader
            pPostData postDataSize).events.filter Event.isSendOfRequest = [])
    ∧ (∀ answer,
        Event.PushBlockFinalize block answer
          ∈ (URIClient.RequestURI k env history m_context pRequestString pResponseHeader
              pPostData postDataSize).events →
        answer ≠ Result.Success →
        (URIClient.RequestURI k env history m_context pRequestString pResponseHeader pPostData
          postDataSize).result = answer
        ∧ (URIClient.RequestURI k env history m_context pRequestString pResponseHeader
            pPostData postDataSize).events.filter Event.isSendOfRequest = []) := by
  generalize hO : URIClient.RequestURI k env history m_context pRequestString pResponseHeader
    pPostData postDataSize = out
  cases pRequestString with
  | none => simp [← hO, URIClient.RequestURI]
  | some s =>
    by_cases hidle : m_context.state = State.Idle
    swap
    · simp [← hO, URIClient.RequestURI, hidle]
    rcases setupPayload_shape k env history s pPostData postDataSize
      with ⟨c, hsetup⟩ | ⟨data, _, _, hsetup⟩
    · obtain ⟨w, hshape⟩ := RequestURI_of_setup_succeeded k env history m_context s
        pResponseHeader pPostData postDataSize c [] hidle hsetup
      rw [hO] at hshape
      rcases hshape with ⟨a, _, hout⟩ | ⟨ra, msg, _, hout⟩ | ⟨msg, _, hout⟩ | ⟨msg, _, _, hout⟩
        | ⟨msg, _, _, _, hout⟩ | ⟨msg, _, _, _, hout⟩ | ⟨msg, b, sz, _, _, _, _, hout⟩
        | ⟨msg, b, _, _, _, hout⟩ <;>
      · subst hout
        simp only [List.nil_append, List.cons_append, List.filter, Event.opensPushBlock,
            Event.closesPushBlock, Event.isPushBlockCall, Event.isSendOfRequest,
            SizedPayloadContainer.CreatePayload, Event.OpenPushBlock.injEq, Event.PushBlockWrite.injEq,
            Event.PushBlockFinalize.injEq, List.getLast?_cons_cons, List.getLast?_singleton,
            List.getLast?_nil, List.length_nil, List.length_cons, List.mem_cons, List.mem_singleton,
            List.not_mem_nil, reduceCtorEq, decide_True, decide_False, false_or, or_false,
            false_implies, implies_true, and_self, and_true, true_and, and_imp, Nat.zero_le, le_refl,
            zero_add, ne_eq, not_true_eq_false, not_false_eq_true]
    · obtain ⟨w1, hpost⟩ := postThroughBlock_shape k env history SizedPayloadContainer.zero s
        data postDataSize
      rcases hpost with ⟨a, hne, hP⟩ | ⟨ra, msg, hne, hP⟩ | ⟨msg, hne, hP⟩ | ⟨msg, _, hP⟩
        | ⟨msg, b, wr, _, hne, hP⟩ | ⟨msg, b, fin, _, hne, hP⟩ | ⟨msg, b, _, hP⟩
      -- the six paths on which the upload fails
      iterate 6
        · have hout := RequestURI_of_setup_failed k env history m_context s pResponseHeader
            pPostData postDataSize _ _ _ hidle (hsetup.trans hP)
            (by first | exact hne | decide)
          rw [hO] at hout
          subst hout
          clear hsetup hP
          first
          | (by_cases hb : b = block <;>
              simp only [List.nil_append, List.cons_append, List.filter, Event.opensPushBlock,
                  Event.closesPushBlock, Event.isPushBlockCall, Event.isSendOfRequest,
                  SizedPayloadContainer.CreatePayload, Event.OpenPushBlock.injEq, Event.PushBlockWrite.injEq,
                  Event.PushBlockFinalize.injEq, List.getLast?_cons_cons, List.getLast?_singleton,
                  List.getLast?_nil, List.length_nil, List.length_cons, List.mem_cons, List.mem_singleton,
                  List.not_mem_nil, reduceCtorEq, hb, decide_True, decide_False, false_or, or_false,
                  false_implies, implies_true, and_self, and_true, true_and, and_imp, Nat.zero_le, le_refl,
                  zero_add, ne_eq, not_true_eq_false, not_false_eq_true] <;>
              simp_all)
          | simp only [List.nil_append, List.cons_append, List.filter, Event.opensPushBlock,
                Event.closesPushBlock, Event.isPushBlockCall, Event.isSendOfRequest,
                SizedPayloadContainer.CreatePayload, Event.OpenPushBlock.injEq, Event.PushBlockWrite.injEq,
                Event.PushBlockFinalize.injEq, List.getLast?_cons_cons, List.getLast?_singleton,
                List.getLast?_nil, List.length_nil, List.length_cons, List.mem_cons, List.mem_singleton,
                List.not_mem_nil, reduceCtorEq, decide_True, decide_False, false_or, or_false,
                false_implies, implies_true, and_self, and_true, true_and, and_imp, Nat.zero_le, le_refl,
                zero_add, ne_eq, not_true_eq_false, not_false_eq_true]
      -- the upload succeeds and the request is transacted
      · obtain ⟨w, hshape⟩ := RequestURI_of_setup_succeeded k env history m_context s
          pResponseHeader pPostData postDataSize _ _ hidle (hsetup.trans hP)
        rw [hO] at hshape
        clear hsetup hP
        rcases hshape with ⟨a, _, hout⟩ | ⟨ra, msg2, _, hout⟩ | ⟨msg2, _, hout⟩
          | ⟨msg2, _, _, hout⟩ | ⟨msg2, _, _, _, hout⟩ | ⟨msg2, _, _, _, hout⟩
          | ⟨msg2, b2, sz, _, _, _, _, hout⟩ | ⟨msg2, b2, _, _, _, hout⟩ <;>
        · subst hout
          by_cases hb : b = block <;>
            simp only [List.nil_append, List.cons_append, List.filter, Event.opensPushBlock,
                Event.closesPushBlock, Event.isPushBlockCall, Event.isSendOfRequest,
                SizedPayloadContainer.CreatePayload, Event.OpenPushBlock.injEq, Event.PushBlockWrite.injEq,
                Event.PushBlockFinalize.injEq, List.getLast?_cons_cons, List.getLast?_singleton,
                List.getLast?_nil, List.length_nil, List.length_cons, List.mem_cons, List.mem_singleton,
                List.not_mem_nil, reduceCtorEq, hb, decide_True, decide_False, false_or, or_false,
                false_implies, implies_true, and_self, and_true, true_and, and_imp, Nat.zero_le, le_refl,
                zero_add, ne_eq, not_true_eq_false, not_false_eq_true] <;>
            simp_all

/-- Witness for C10: 20 bytes of post data, and the write into push block 40
fails with `Error`. -/
theorem requestURI_push_block_closed_witness :
    Event.PushBlockWrite 40 (List.replicate 20 7) 20 Result.Error
        ∈ (URIClient.RequestURI sampleConstants
            (scriptedEnvironment { allSucceed with pushBlockWrite := Result.Error })
            [] idleContext (some "echo") none (some (List.replicate 20 7)) 20).events
    ∧ Result.Error ≠ Result.Success
    ∧ (URIClient.RequestURI sampleConstants
          (scriptedEnvironment { allSucceed with pushBlockWrite := Result.Error })
          [] idleContext (some "echo") none (some (List.replicate 20 7)) 20).result
        = Result.Error
    ∧ (URIClient.RequestURI sampleConstants
          (scriptedEnvironment { allSucceed with pushBlockWrite := Result.Error })
          [] idleContext (some "echo") none (some (List.replicate 20 7)) 20).events.filter
            Event.isSendOfRequest = [] :=
  ⟨by decide, by decide,
   (requestURI_push_block_closed sampleConstants
      (scriptedEnvironment { allSucceed with pushBlockWrite := Result.Error })
      [] idleContext (some "echo") none (some (List.replicate 20 7)) 20 40).2.2.2.1
      (List.replicate 20 7) 20 Result.Error (by decide) (by decide)⟩


/-! ### Further shapes: the response path and sequences of calls -/

/-- `RequestURI` from `Idle` on the path where the payload is set up, the
transaction succeeds, the message received is a `URIResponse` with result
`Success` and a valid block id, and the pull block opens: the outcome of the
call, by the data size of the block. -/
theorem RequestURI_of_pull_block_opened (k : Constants) (env : Environment)
    (history : List Event) (m_context : Context) (s : String) (hdr : Option ResponseHeader)
    (pd : Option (List Nat)) (n : Nat) (c cont : SizedPayloadContainer)
    (evs tevs : List Event) (block : Nat)
    (hidle : m_context.state = State.Idle)
    (hsetup : URIClient.RequestURI.setupPayload k env history s pd n
      = (Result.Success, c, evs))
    (htrans : TransactURIPayload k env (history ++ evs) c
        k.kDefaultCommunicationTimeoutInMs k.kDefaultRetryTimeoutInMs
      = (Result.Success, cont, tevs))
    (hcmd : cont.GetPayload.command = URIMessage.URIResponse)
    (hres : cont.GetPayload.result = Result.Success)
    (hbid : cont.GetPayload.blockId ≠ k.kInvalidBlockId)
    (hopen : env.OpenPullBlock (history ++ (evs ++ tevs)) env.GetRemoteClientId
        cont.GetPayload.blockId = some block) :
    URIClient.RequestURI k env history m_context (some s) hdr pd n
      = if 0 < env.GetBlockDataSize
              (history ++ (evs ++ tevs) ++
                [Event.OpenPullBlock env.GetRemoteClientId cont.GetPayload.blockId (some block)])
              block then
          { result := Result.Success
            context := { state := State.ReadResponse, pBlock := some block }
            pResponseHeader :=
              hdr.map (fun _ =>
                { responseDataSizeInBytes :=
                    env.GetBlockDataSize
                      (history ++ (evs ++ tevs) ++
                        [Event.OpenPullBlock env.GetRemoteClientId cont.GetPayload.blockId
                          (some block)])
                      block
                  responseDataFormat :=
                    if env.sessionGetVersion ≥ k.URI_RESPONSE_FORMATS_VERSION then
                      ResponseFormatToUriFormat cont.GetPayload.format
                    else URIDataFormat.Text })
            events := evs ++ tevs ++
              [Event.OpenPullBlock env.GetRemoteClientId cont.GetPayload.blockId (some block)] }
        else
          { result := Result.Success
            context := { state := State.Idle, pBlock := none }
            pResponseHeader :=
              hdr.map (fun _ =>
                { responseDataSizeInBytes := 0
                  responseDataFormat :=
                    if env.sessionGetVersion ≥ k.URI_RESPONSE_FORMATS_VERSION then
                      ResponseFormatToUriFormat cont.GetPayload.format
                    else URIDataFormat.Text })
            events := evs ++ tevs ++
              [Event.OpenPullBlock env.GetRemoteClientId cont.GetPayload.blockId (some block),
               Event.ClosePullBlock (some block)] } := by
  generalize hsz : env.GetBlockDataSize
      (history ++ (evs ++ tevs) ++
        [Event.OpenPullBlock env.GetRemoteClientId cont.GetPayload.blockId (some block)])
      block = blockSize
  have hR : URIClient.RequestURI.readResponsePayload k env (history ++ (evs ++ tevs)) m_context
      (hdr.map (fun _ =>
        { responseDataSizeInBytes := 0, responseDataFormat := URIDataFormat.Unknown })) cont
      = if 0 < blockSize then
          { result := Result.Success
            context := { state := State.ReadResponse, pBlock := some block }
            pResponseHeader :=
              hdr.map (fun _ =>
                { responseDataSizeInBytes := blockSize
                  responseDataFormat :=
                    if env.sessionGetVersion ≥ k.URI_RESPONSE_FORMATS_VERSION then
                      ResponseFormatToUriFormat cont.GetPayload.format
                    else URIDataFormat.Text })
            events :=
              [Event.OpenPullBlock env.GetRemoteClientId cont.GetPayload.blockId (some block)] }
        else
          { result := Result.Success
            context := { state := State.Idle, pBlock := none }
            pResponseHeader :=
              hdr.map (fun _ =>
                { responseDataSizeInBytes := 0
                  responseDataFormat :=
                    if env.sessionGetVersion ≥ k.URI_RESPONSE_FORMATS_VERSION then
                      ResponseFormatToUriFormat cont.GetPayload.format
                    else URIDataFormat.Text })
            events :=
              [Event.OpenPullBlock env.GetRemoteClientId cont.GetPayload.blockId (some block),
               Event.ClosePullBlock (some block)] } := by
    unfold URIClient.RequestURI.readResponsePayload
    simp only [hcmd, hres, hbid, hopen, if_true, ne_eq, not_false_eq_true, hsz, ClosePullBlock]
    by_cases hpos : 0 < blockSize
    · cases hdr <;> simp [hpos]
    · have hz : blockSize = 0 := by omega
      subst hz
      cases hdr <;> simp [hidle]
  have hO : URIClient.RequestURI k env history m_context (some s) hdr pd n
      = { URIClient.RequestURI.readResponsePayload k env (history ++ (evs ++ tevs)) m_context
            (hdr.map (fun _ =>
              { responseDataSizeInBytes := 0, responseDataFormat := URIDataFormat.Unknown }))
            cont with
          events := evs ++ tevs ++
            (URIClient.RequestURI.readResponsePayload k env (history ++ (evs ++ tevs)) m_context
              (hdr.map (fun _ =>
                { responseDataSizeInBytes := 0, responseDataFormat := URIDataFormat.Unknown }))
              cont).events } := by
    cases hdr <;> simp [URIClient.RequestURI, hidle, hsetup, htrans]
  rw [hO, hR]
  by_cases hpos : 0 < blockSize
  · simp [hpos]
  · simp [hpos]

/-- The client context after a call of `RequestURI`: the context before the
call, or `ReadResponse` with a block, or `Idle` with no block. -/
theorem RequestURI_context_cases (k : Constants) (env : Environment)
    (history : List Event) (m_context : Context) (pRequestString : Option String)
    (pResponseHeader : Option ResponseHeader) (pPostData : Option (List Nat))
    (postDataSize : Nat) :
    (URIClient.RequestURI k env history m_context pRequestString pResponseHeader pPostData
        postDataSize).context = m_context
    ∨ (∃ block, (URIClient.RequestURI k env history m_context pRequestString pResponseHeader
        pPostData postDataSize).context = { state := State.ReadResponse, pBlock := some block })
    ∨ (URIClient.RequestURI k env history m_context pRequestString pResponseHeader pPostData
        postDataSize).context = { state := State.Idle, pBlock := none } := by
  generalize hO : URIClient.RequestURI k env history m_context pRequestString pResponseHeader
    pPostData postDataSize = out
  cases pRequestString with
  | none => simp [← hO, URIClient.RequestURI]
  | some s =>
    by_cases hidle : m_context.state = State.Idle
    swap
    · simp [← hO, URIClient.RequestURI, hidle]
    have hsucc : ∀ c evs,
        URIClient.RequestURI.setupPayload k env history s pPostData postDataSize
          = (Result.Success, c, evs) →
        out.context = m_context
        ∨ (∃ block, out.context = { state := State.ReadResponse, pBlock := some block })
        ∨ out.context = { state := State.Idle, pBlock := none } := by
      intro c evs hsetup
      obtain ⟨w, hshape⟩ := RequestURI_of_setup_succeeded k env history m_context s
        pResponseHeader pPostData postDataSize c evs hidle hsetup
      rw [hO] at hshape
      rcases hshape with ⟨a, _, hout⟩ | ⟨ra, msg, _, hout⟩ | ⟨msg, _, hout⟩ | ⟨msg, _, _, hout⟩
        | ⟨msg, _, _, _, hout⟩ | ⟨msg, _, _, _, hout⟩ | ⟨msg, b, sz, _, _, _, _, hout⟩
        | ⟨msg, b, _, _, _, hout⟩
      iterate 6
        · exact Or.inl (by rw [hout])
      · exact Or.inr (Or.inl ⟨b, by rw [hout]⟩)
      · exact Or.inr (Or.inr (by rw [hout, hidle]))
    rcases setupPayload_shape k env history s pPostData postDataSize
      with ⟨c, hsetup⟩ | ⟨data, _, _, hsetup⟩
    · exact hsucc c [] hsetup
    · obtain ⟨w1, hpost⟩ := postThroughBlock_shape k env history SizedPayloadContainer.zero s
        data postDataSize
      rcases hpost with ⟨a, hne, hP⟩ | ⟨ra, msg, hne, hP⟩ | ⟨msg, hne, hP⟩ | ⟨msg, _, hP⟩
        | ⟨msg, b, wr, _, hne, hP⟩ | ⟨msg, b, fin, _, hne, hP⟩ | ⟨msg, b, _, hP⟩
      iterate 6
        · have hout := RequestURI_of_setup_failed k env history m_context s pResponseHeader
            pPostData postDataSize _ _ _ hidle (hsetup.trans hP)
            (by first | exact hne | decide)
          rw [hO] at hout
          exact Or.inl (by rw [hout])
      · exact hsucc _ _ (hsetup.trans hP)

/-- One call on a client keeps the block pointer non-null exactly in state
`ReadResponse`. -/
theorem ClientCall.apply_handle_iff_reading (k : Constants) (env : Environment)
    (call : ClientCall) (client : Context × List Event)
    (h : client.1.pBlock ≠ none ↔ client.1.state = State.ReadResponse) :
    (call.apply k env client).1.pBlock ≠ none
      ↔ (call.apply k env client).1.state = State.ReadResponse := by
  cases call with
  | RequestURI ps hdr pd n =>
    simp only [ClientCall.apply]
    rcases RequestURI_context_cases k env client.2 client.1 ps hdr pd n with hc | ⟨b, hc⟩ | hc
    · rw [hc]; exact h
    · rw [hc]; simp
    · rw [hc]; simp
  | ReadResponse bufferSize =>
    simp only [ClientCall.apply, URIClient.ReadResponse, ClosePullBlock]
    split
    · split
      · simp
      · exact h
    · exact h
  | AbortRequest =>
    simp only [ClientCall.apply, URIClient.AbortRequest, ClosePullBlock]
    split
    · simp
    · exact h
  | ResetState =>
    simp only [ClientCall.apply, URIClient.ResetState, URIClient.zeroedContext]
    split <;> simp

/-- A sequence of calls on a client keeps the block pointer non-null exactly
in state `ReadResponse`. -/
theorem runClientCalls_handle_iff_reading (k : Constants) (env : Environment)
    (calls : List ClientCall) :
    ∀ client : Context × List Event,
      (client.1.pBlock ≠ none ↔ client.1.state = State.ReadResponse) →
      ((runClientCalls k env client calls).1.pBlock ≠ none
        ↔ (runClientCalls k env client calls).1.state = State.ReadResponse) := by
  induction calls with
  | nil => intro client h; simpa [runClientCalls] using h
  | cons call rest ih =>
    intro client h
    simp only [runClientCalls]
    exact ih _ (ClientCall.apply_handle_iff_reading k env call client h)

/-- A call of `RequestURI` from `Idle` with a non-null request string begins
with a send on the channel. -/
theorem RequestURI_from_idle_sends (k : Constants) (env : Environment)
    (history : List Event) (m_context : Context) (s : String)
    (pResponseHeader : Option ResponseHeader) (pPostData : Option (List Nat))
    (postDataSize : Nat) (hidle : m_context.state = State.Idle) :
    ∃ first rest,
      (URIClient.RequestURI k env history m_context (some s) pResponseHeader pPostData
        postDataSize).events = first :: rest
      ∧ first.isSend = true := by
  generalize hO : URIClient.RequestURI k env history m_context (some s) pResponseHeader
    pPostData postDataSize = out
  rcases setupPayload_shape k env history s pPostData postDataSize
    with ⟨c, hsetup⟩ | ⟨data, _, _, hsetup⟩
  · obtain ⟨w, hshape⟩ := RequestURI_of_setup_succeeded k env history m_context s
      pResponseHeader pPostData postDataSize c [] hidle hsetup
    rw [hO] at hshape
    rcases hshape with ⟨a, _, hout⟩ | ⟨ra, msg, _, hout⟩ | ⟨msg, _, hout⟩ | ⟨msg, _, _, hout⟩
      | ⟨msg, _, _, _, hout⟩ | ⟨msg, _, _, _, hout⟩ | ⟨msg, b, sz, _, _, _, _, hout⟩
      | ⟨msg, b, _, _, _, hout⟩ <;>
    · subst hout
      exact ⟨_, _, rfl, rfl⟩
  · obtain ⟨w1, hpost⟩ := postThroughBlock_shape k env history SizedPayloadContainer.zero s
      data postDataSize
    rcases hpost with ⟨a, hne, hP⟩ | ⟨ra, msg, hne, hP⟩ | ⟨msg, hne, hP⟩ | ⟨msg, _, hP⟩
      | ⟨msg, b, wr, _, hne, hP⟩ | ⟨msg, b, fin, _, hne, hP⟩ | ⟨msg, b, _, hP⟩
    iterate 6
      · have hout := RequestURI_of_setup_failed k env history m_context s pResponseHeader
          pPostData postDataSize _ _ _ hidle (hsetup.trans hP)
          (by first | exact hne | decide)
        rw [hO] at hout
        subst hout
        exact ⟨_, _, rfl, rfl⟩
    · obtain ⟨w, hshape⟩ := RequestURI_of_setup_succeeded k env history m_context s
        pResponseHeader pPostData postDataSize _ _ hidle (hsetup.trans hP)
      rw [hO] at hshape
      rcases hshape with ⟨a, _, hout⟩ | ⟨ra, msg2, _, hout⟩ | ⟨msg2, _, hout⟩
        | ⟨msg2, _, _, hout⟩ | ⟨msg2, _, _, _, hout⟩ | ⟨msg2, _, _, _, hout⟩
        | ⟨msg2, b2, sz, _, _, _, _, hout⟩ | ⟨msg2, b2, _, _, _, hout⟩ <;>
      · subst hout
        exact ⟨_, _, rfl, rfl⟩

/-! ### Claims about the response path, `ReadResponse`, `AbortRequest` and
`ResetState` -/

/-- Failing input for C11: from `Idle`, a request without post data on a
channel where the send and the receive succeed and the message received is a
`URIPostResponse`, not a `URIResponse`. `RequestURI` returns `Success`,
leaves the client `Idle` and the header at its defaults, and opens no
block. -/
theorem requestURI_wrong_tag_returns_success :
    URIClient.RequestURI sampleConstants
        (scriptedEnvironment
          { allSucceed with receives := [(Result.Success, successPostResponse 5)] })
        [] idleContext (some "echo?x=1")
        (some { responseDataSizeInBytes := 77, responseDataFormat := URIDataFormat.Binary })
        none 0
      = { result := Result.Success
          context := idleContext
          pResponseHeader :=
            some { responseDataSizeInBytes := 0, responseDataFormat := URIDataFormat.Unknown }
          events :=
            [Event.Send
               (SizedPayloadContainer.zero.CreatePayload
                 (Payload.URIRequestPayload "echo?x=1" none) 32)
               32 5000 50 Result.Success,
             Event.Receive 48 5000 50 Result.Success (successPostResponse 5)] } := by
  decide

/-- C12. When `RequestURI`, called from `Idle`, has set up its payload, the
transaction succeeds, the message received is a `URIResponse` with result
`Success` and a block id other than the invalid sentinel, and the pull block
for that id opens: if the data size of the block is 0, the pull block is
closed again as the last call, the client is `Idle` with a null block
pointer and the result is `Success`; if the size is greater than 0, the
state is `ReadResponse`, the opened block is the client's block pointer, the
block is not closed and the result is `Success`. -/
theorem requestURI_pull_block_by_size (k : Constants) (env : Environment)
    (history : List Event) (m_context : Context) (s : String) (hdr : Option ResponseHeader)
    (pd : Option (List Nat)) (n : Nat) (c cont : SizedPayloadContainer)
    (evs tevs : List Event) (block : Nat)
    (hidle : m_context.state = State.Idle)
    (hsetup : URIClient.RequestURI.setupPayload k env history s pd n
      = (Result.Success, c, evs))
    (htrans : TransactURIPayload k env (history ++ evs) c
        k.kDefaultCommunicationTimeoutInMs k.kDefaultRetryTimeoutInMs
      = (Result.Success, cont, tevs))
    (hcmd : cont.GetPayload.command = URIMessage.URIResponse)
    (hres : cont.GetPayload.result = Result.Success)
    (hbid : cont.GetPayload.blockId ≠ k.kInvalidBlockId)
    (hopen : env.OpenPullBlock (history ++ (evs ++ tevs)) env.GetRemoteClientId
        cont.GetPayload.blockId = some block) :
    (env.GetBlockDataSize
          (history ++ (evs ++ tevs) ++
            [Event.OpenPullBlock env.GetRemoteClientId cont.GetPayload.blockId (some block)])
          block = 0 →
      (URIClient.RequestURI k env history m_context (some s) hdr pd n).result = Result.Success
      ∧ (URIClient.RequestURI k env history m_context (some s) hdr pd n).context
        = { state := State.Idle, pBlock := none }
      ∧ (URIClient.RequestURI k env history m_context (some s) hdr pd n).events
        = evs ++ tevs ++
            [Event.OpenPullBlock env.GetRemoteClientId cont.GetPayload.blockId (some block),
             Event.ClosePullBlock (some block)])
    ∧ (0 < env.GetBlockDataSize
          (history ++ (evs ++ tevs) ++
            [Event.OpenPullBlock env.GetRemoteClientId cont.GetPayload.blockId (some block)])
          block →
      (URIClient.RequestURI k env history m_context (some s) hdr pd n).result = Result.Success
      ∧ (URIClient.RequestURI k env history m_context (some s) hdr pd n).context
        = { state := State.ReadResponse, pBlock := some block }
      ∧ (URIClient.RequestURI k env history m_context (some s) hdr pd n).events
        = evs ++ tevs ++
            [Event.OpenPullBlock env.GetRemoteClientId cont.GetPayload.blockId
              (some block)]) := by
  have h := RequestURI_of_pull_block_opened k env history m_context s hdr pd n c cont evs tevs
    block hidle hsetup htrans hcmd hres hbid hopen
  constructor
  · intro hz
    rw [h, if_neg (by omega)]
    exact ⟨rfl, rfl, rfl⟩
  · intro hpos
    rw [h, if_pos hpos]
    exact ⟨rfl, rfl, rfl⟩

/-- Witness for C12: a request without post data whose response names block
id 5, once with an empty block and once with a block of 10 bytes. -/
theorem requestURI_pull_block_by_size_witness :
    ((URIClient.RequestURI sampleConstants
          (scriptedEnvironment { respondsWithBlock with blockDataSize := 0 }) [] idleContext
          (some "echo?x=1") none none 0).result = Result.Success
      ∧ (URIClient.RequestURI sampleConstants
          (scriptedEnvironment { respondsWithBlock with blockDataSize := 0 }) [] idleContext
          (some "echo?x=1") none none 0).context = { state := State.Idle, pBlock := none }
      ∧ (URIClient.RequestURI sampleConstants
          (scriptedEnvironment { respondsWithBlock with blockDataSize := 0 }) [] idleContext
          (some "echo?x=1") none none 0).events
        = [] ++
            [Event.Send
               (SizedPayloadContainer.zero.CreatePayload
                 (Payload.URIRequestPayload "echo?x=1" none) 32)
               32 5000 50 Result.Success,
             Event.Receive 48 5000 50 Result.Success (successResponse 5)] ++
            [Event.OpenPullBlock 2 5 (some 41), Event.ClosePullBlock (some 41)])
    ∧ ((URIClient.RequestURI sampleConstants (scriptedEnvironment respondsWithBlock) []
          idleContext (some "echo?x=1") none none 0).result = Result.Success
      ∧ (URIClient.RequestURI sampleConstants (scriptedEnvironment respondsWithBlock) []
          idleContext (some "echo?x=1") none none 0).context
        = { state := State.ReadResponse, pBlock := some 41 }
      ∧ (URIClient.RequestURI sampleConstants (scriptedEnvironment respondsWithBlock) []
          idleContext (some "echo?x=1") none none 0).events
        = [] ++
            [Event.Send
               (SizedPayloadContainer.zero.CreatePayload
                 (Payload.URIRequestPayload "echo?x=1" none) 32)
               32 5000 50 Result.Success,
             Event.Receive 48 5000 50 Result.Success (successResponse 5)] ++
            [Event.OpenPullBlock 2 5 (some 41)]) :=
  ⟨(requestURI_pull_block_by_size sampleConstants
      (scriptedEnvironment { respondsWithBlock with blockDataSize := 0 }) [] idleContext
      "echo?x=1" none none 0
      (SizedPayloadContainer.zero.CreatePayload (Payload.URIRequestPayload "echo?x=1" none) 32)
      { payload := Payload.Received (successResponse 5), inlineData := [], payloadSize := 16 }
      []
      [Event.Send
         (SizedPayloadContainer.zero.CreatePayload
           (Payload.URIRequestPayload "echo?x=1" none) 32)
         32 5000 50 Result.Success,
       Event.Receive 48 5000 50 Result.Success (successResponse 5)]
      41 rfl (by decide) (by decide) (by decide) (by decide) (by decide) (by decide)).1
      (by decide),
   (requestURI_pull_block_by_size sampleConstants (scriptedEnvironment respondsWithBlock) []
      idleContext "echo?x=1" none none 0
      (SizedPayloadContainer.zero.CreatePayload (Payload.URIRequestPayload "echo?x=1" none) 32)
      { payload := Payload.Received (successResponse 5), inlineData := [], payloadSize := 16 }
      []
      [Event.Send
         (SizedPayloadContainer.zero.CreatePayload
           (Payload.URIRequestPayload "echo?x=1" none) 32)
         32 5000 50 Result.Success,
       Event.Receive 48 5000 50 Result.Success (successResponse 5)]
      41 rfl (by decide) (by decide) (by decide) (by decide) (by decide) (by decide)).2
      (by decide)⟩

/-- C13. Every call of `RequestURI` made from `Idle` that returns a result
other than `Success` leaves the client context as it was, so the state is
`Idle` and no pull block has been taken over; no `OpenPullBlock` of the call
returned a block, and every push block that `OpenPushBlock` returned has been
closed. -/
theorem requestURI_failure_leaves_idle (k : Constants) (env : Environment)
    (history : List Event) (m_context : Context) (pRequestString : Option String)
    (pResponseHeader : Option ResponseHeader) (pPostData : Option (List Nat))
    (postDataSize : Nat) (hidle : m_context.state = State.Idle)
    (hfail : (URIClient.RequestURI k env history m_context pRequestString pResponseHeader
      pPostData postDataSize).result ≠ Result.Success) :
    (URIClient.RequestURI k env history m_context pRequestString pResponseHeader pPostData
        postDataSize).context = m_context
    ∧ (URIClient.RequestURI k env history m_context pRequestString pResponseHeader pPostData
        postDataSize).context.state = State.Idle
    ∧ (URIClient.RequestURI k env history m_context pRequestString pResponseHeader pPostData
        postDataSize).events.filter Event.opensPullBlock = []
    ∧ ∀ block,
        ((URIClient.RequestURI k env history m_context pRequestString pResponseHeader
            pPostData postDataSize).events.filter (Event.closesPushBlock block)).length
          = ((URIClient.RequestURI k env history m_context pRequestString pResponseHeader
            pPostData postDataSize).events.filter (Event.opensPushBlock block)).length := by
  generalize hO : URIClient.RequestURI k env history m_context pRequestString pResponseHeader
    pPostData postDataSize = out at hfail ⊢
  suffices h : ∀ block, out.context = m_context
      ∧ out.events.filter Event.opensPullBlock = []
      ∧ (out.events.filter (Event.closesPushBlock block)).length
        = (out.events.filter (Event.opensPushBlock block)).length from
    ⟨(h 0).1, (h 0).1 ▸ hidle, (h 0).2.1, fun block => (h block).2.2⟩
  intro block
  cases pRequestString with
  | none => simp [← hO, URIClient.RequestURI]
  | some s =>
    rcases setupPayload_shape k env history s pPostData postDataSize
      with ⟨c, hsetup⟩ | ⟨data, _, _, hsetup⟩
    · obtain ⟨w, hshape⟩ := RequestURI_of_setup_succeeded k env history m_context s
        pResponseHeader pPostData postDataSize c [] hidle hsetup
      rw [hO] at hshape
      rcases hshape with ⟨a, _, hout⟩ | ⟨ra, msg, _, hout⟩ | ⟨msg, _, hout⟩ | ⟨msg, _, _, hout⟩
        | ⟨msg, _, _, _, hout⟩ | ⟨msg, _, _, _, hout⟩ | ⟨msg, b, sz, _, _, _, _, hout⟩
        | ⟨msg, b, _, _, _, hout⟩ <;>
      · subst hout
        simp only [ne_eq, not_true_eq_false] at hfail
        try simp only [List.nil_append, List.filter, Event.opensPushBlock,
          Event.closesPushBlock, Event.opensPullBlock, List.length_nil, and_self]
    · obtain ⟨w1, hpost⟩ := postThroughBlock_shape k env history SizedPayloadContainer.zero s
        data postDataSize
      rcases hpost with ⟨a, hne, hP⟩ | ⟨ra, msg, hne, hP⟩ | ⟨msg, hne, hP⟩ | ⟨msg, _, hP⟩
        | ⟨msg, b, wr, _, hne, hP⟩ | ⟨msg, b, fin, _, hne, hP⟩ | ⟨msg, b, _, hP⟩
      iterate 6
        · have hout := RequestURI_of_setup_failed k env history m_context s pResponseHeader
            pPostData postDataSize _ _ _ hidle (hsetup.trans hP)
            (by first | exact hne | decide)
          rw [hO] at hout
          subst hout
          clear hsetup hP
          simp only [List.nil_append, List.cons_append, List.filter, Event.opensPushBlock,
            Event.closesPushBlock, Event.opensPullBlock, List.length_nil, List.length_cons,
            and_self, true_and]
          try (by_cases hb : b = block <;> simp [hb])
      · obtain ⟨w, hshape⟩ := RequestURI_of_setup_succeeded k env history m_context s
          pResponseHeader pPostData postDataSize _ _ hidle (hsetup.trans hP)
        rw [hO] at hshape
        clear hsetup hP
        rcases hshape with ⟨a, _, hout⟩ | ⟨ra, msg2, _, hout⟩ | ⟨msg2, _, hout⟩
          | ⟨msg2, _, _, hout⟩ | ⟨msg2, _, _, _, hout⟩ | ⟨msg2, _, _, _, hout⟩
          | ⟨msg2, b2, sz, _, _, _, _, hout⟩ | ⟨msg2, b2, _, _, _, hout⟩ <;>
        · subst hout
          simp only [ne_eq, not_true_eq_false] at hfail
          try
            simp only [List.nil_append, List.cons_append, List.filter, Event.opensPushBlock,
              Event.closesPushBlock, Event.opensPullBlock, List.length_nil, List.length_cons,
              and_self, true_and]
            by_cases hb : b = block <;> simp [hb]

/-- Witness for C13: the response names pull block id 5 and the pull block
does not open. -/
theorem requestURI_failure_leaves_idle_witness :
    idleContext.state = State.Idle
    ∧ (URIClient.RequestURI sampleConstants
        (scriptedEnvironment { respondsWithBlock with openPullBlock := none }) [] idleContext
        (some "echo?x=1") none none 0).result ≠ Result.Success
    ∧ (URIClient.RequestURI sampleConstants
        (scriptedEnvironment { respondsWithBlock with openPullBlock := none }) [] idleContext
        (some "echo?x=1") none none 0).context = idleContext
    ∧ (URIClient.RequestURI sampleConstants
        (scriptedEnvironment { respondsWithBlock with openPullBlock := none }) [] idleContext
        (some "echo?x=1") none none 0).context.state = State.Idle
    ∧ (URIClient.RequestURI sampleConstants
        (scriptedEnvironment { respondsWithBlock with openPullBlock := none }) [] idleContext
        (some "echo?x=1") none none 0).events.filter Event.opensPullBlock = []
    ∧ ∀ block,
        ((URIClient.RequestURI sampleConstants
            (scriptedEnvironment { respondsWithBlock with openPullBlock := none }) []
            idleContext (some "echo?x=1") none none 0).events.filter
              (Event.closesPushBlock block)).length
          = ((URIClient.RequestURI sampleConstants
            (scriptedEnvironment { respondsWithBlock with openPullBlock := none }) []
            idleContext (some "echo?x=1") none none 0).events.filter
              (Event.opensPushBlock block)).length :=
  ⟨rfl, by decide,
   requestURI_failure_leaves_idle sampleConstants
     (scriptedEnvironment { respondsWithBlock with openPullBlock := none }) [] idleContext
     (some "echo?x=1") none none 0 rfl (by decide)⟩

/-- C14. In every state reached from a freshly constructed client by any
sequence of `RequestURI`, `ReadResponse`, `AbortRequest` and `ResetState`
calls, with any arguments and any answers of the collaborators, the pull
block pointer is non-null if and only if the state is `ReadResponse`. -/
theorem client_handle_iff_reading (k : Constants) (env : Environment)
    (calls : List ClientCall) :
    (runClientCalls k env (URIClient.construct, []) calls).1.pBlock ≠ none
      ↔ (runClientCalls k env (URIClient.construct, []) calls).1.state
          = State.ReadResponse := by
  apply runClientCalls_handle_iff_reading
  simp [URIClient.construct, URIClient.zeroedContext]

/-- C15. When `ReadResponse` is called in state `ReadResponse` and the pull
block's `Read` returns `EndOfStream` or `Error`, `ReadResponse` returns that
same result, closes the pull block exactly once (one `Read` and then one
`ClosePullBlock` are the calls it makes) and leaves the state `Idle` with a
null block pointer; a `ReadResponse` made on the client after that, whatever
has been recorded in between, returns `UriInvalidParameters`, leaves the
context as it is and makes no call on any block. -/
theorem readResponse_terminal_result (env : Environment) (history : List Event)
    (m_context : Context) (bufferSize : Nat)
    (hstate : m_context.state = State.ReadResponse)
    (hread : (env.PullBlockRead history m_context.pBlock bufferSize).1 = Result.EndOfStream
      ∨ (env.PullBlockRead history m_context.pBlock bufferSize).1 = Result.Error) :
    (URIClient.ReadResponse env history m_context bufferSize).result
      = (env.PullBlockRead history m_context.pBlock bufferSize).1
    ∧ (URIClient.ReadResponse env history m_context bufferSize).context
      = { state := State.Idle, pBlock := none }
    ∧ (URIClient.ReadResponse env history m_context bufferSize).events
      = [Event.PullBlockRead m_context.pBlock bufferSize
           (env.PullBlockRead history m_context.pBlock bufferSize).1
           (env.PullBlockRead history m_context.pBlock bufferSize).2,
         Event.ClosePullBlock m_context.pBlock]
    ∧ ∀ (later : List Event) (bufferSize2 : Nat),
        URIClient.ReadResponse env later
            (URIClient.ReadResponse env history m_context bufferSize).context bufferSize2
          = { result := Result.UriInvalidParameters
              context := { state := State.Idle, pBlock := none }
              bytes := [], events := [] } := by
  have hctx : (URIClient.ReadResponse env history m_context bufferSize).context
      = { state := State.Idle, pBlock := none } := by
    simp [URIClient.ReadResponse, hstate, hread, ClosePullBlock]
  refine ⟨?_, hctx, ?_, ?_⟩
  · simp [URIClient.ReadResponse, hstate, hread]
  · simp [URIClient.ReadResponse, hstate, hread, ClosePullBlock]
  · intro later bufferSize2
    rw [hctx]
    simp [URIClient.ReadResponse]

/-- Witness for C15: the client reads block 41 and the `Read` returns
`EndOfStream`. -/
theorem readResponse_terminal_result_witness :
    readingContext.state = State.ReadResponse
    ∧ (URIClient.ReadResponse (scriptedEnvironment allSucceed) [] readingContext 16).result
      = Result.EndOfStream
    ∧ (URIClient.ReadResponse (scriptedEnvironment allSucceed) [] readingContext 16).context
      = { state := State.Idle, pBlock := none }
    ∧ (URIClient.ReadResponse (scriptedEnvironment allSucceed) [] readingContext 16).events
      = [Event.PullBlockRead (some 41) 16 Result.EndOfStream [],
         Event.ClosePullBlock (some 41)] :=
  ⟨rfl,
   (readResponse_terminal_result (scriptedEnvironment allSucceed) [] readingContext 16 rfl
      (Or.inl rfl)).1,
   (readResponse_terminal_result (scriptedEnvironment allSucceed) [] readingContext 16 rfl
      (Or.inl rfl)).2.1,
   (readResponse_terminal_result (scriptedEnvironment allSucceed) [] readingContext 16 rfl
      (Or.inl rfl)).2.2.1⟩

/-- Counterexample for C16: the client reads block 41 and the `Read` returns
`NotReady`. `ReadResponse` returns `NotReady`, the client stays in
`ReadResponse` with block 41, nothing is closed, and a `RequestURI` made next
is rejected with `UriInvalidParameters`. -/
theorem readResponse_not_ready_keeps_block :
    URIClient.ReadResponse
        (scriptedEnvironment { allSucceed with pullBlockRead := (Result.NotReady, []) })
        [] readingContext 16
      = { result := Result.NotReady, context := readingContext, bytes := []
          events := [Event.PullBlockRead (some 41) 16 Result.NotReady []] }
    ∧ URIClient.RequestURI sampleConstants
        (scriptedEnvironment { allSucceed with pullBlockRead := (Result.NotReady, []) })
        [Event.PullBlockRead (some 41) 16 Result.NotReady []]
        (URIClient.ReadResponse
          (scriptedEnvironment { allSucceed with pullBlockRead := (Result.NotReady, []) })
          [] readingContext 16).context
        (some "echo?x=1") none none 0
      = { result := Result.UriInvalidParameters, context := readingContext
          pResponseHeader := none, events := [] } := by
  decide

/-- C16, amended. In state `ReadResponse`: when the pull block's `Read`
returns `EndOfStream` or `Error`, `ReadResponse` leaves the client `Idle`
with a null block pointer, closes the pull block once, and a `RequestURI`
made afterwards with a non-null request string passes the entry check (it
begins with a send on the channel); when the `Read` returns any other result,
a failure such as `NotReady` included, `ReadResponse` returns that result,
leaves the client context as it is, closes nothing, and a `RequestURI` made
afterwards is rejected with `UriInvalidParameters`. -/
theorem readResponse_cleanup_on_terminal_results (env : Environment) (history : List Event)
    (m_context : Context) (bufferSize : Nat)
    (hstate : m_context.state = State.ReadResponse) :
    (((env.PullBlockRead history m_context.pBlock bufferSize).1 = Result.EndOfStream
        ∨ (env.PullBlockRead history m_context.pBlock bufferSize).1 = Result.Error) →
      (URIClient.ReadResponse env history m_context bufferSize).context
        = { state := State.Idle, pBlock := none }
      ∧ (URIClient.ReadResponse env history m_context bufferSize).events.filter
          Event.isClosePullBlock = [Event.ClosePullBlock m_context.pBlock]
      ∧ ∀ (k : Constants) (later : List Event) (s : String) (hdr : Option ResponseHeader)
          (pd : Option (List Nat)) (n : Nat),
          ∃ first rest,
            (URIClient.RequestURI k env later
              (URIClient.ReadResponse env history m_context bufferSize).context (some s) hdr
              pd n).events = first :: rest
            ∧ first.isSend = true)
    ∧ (((env.PullBlockRead history m_context.pBlock bufferSize).1 ≠ Result.EndOfStream
        ∧ (env.PullBlockRead history m_context.pBlock bufferSize).1 ≠ Result.Error) →
      (URIClient.ReadResponse env history m_context bufferSize).result
        = (env.PullBlockRead history m_context.pBlock bufferSize).1
      ∧ (URIClient.ReadResponse env history m_context bufferSize).context = m_context
      ∧ (URIClient.ReadResponse env history m_context bufferSize).events.filter
          Event.isClosePullBlock = []
      ∧ ∀ (k : Constants) (later : List Event) (ps : Option String)
          (hdr : Option ResponseHeader) (pd : Option (List Nat)) (n : Nat),
          URIClient.RequestURI k env later
              (URIClient.ReadResponse env history m_context bufferSize).context ps hdr pd n
            = { result := Result.UriInvalidParameters, context := m_context
                pResponseHeader := hdr, events := [] }) := by
  constructor
  · intro hread
    have hctx : (URIClient.ReadResponse env history m_context bufferSize).context
        = { state := State.Idle, pBlock := none } := by
      simp [URIClient.ReadResponse, hstate, hread, ClosePullBlock]
    refine ⟨hctx, ?_, ?_⟩
    · simp [URIClient.ReadResponse, hstate, hread, ClosePullBlock, Event.isClosePullBlock]
    · intro k later s hdr pd n
      rw [hctx]
      exact RequestURI_from_idle_sends k env later _ s hdr pd n rfl
  · rintro ⟨h1, h2⟩
    have hctx : (URIClient.ReadResponse env history m_context bufferSize).context
        = m_context := by
      simp [URIClient.ReadResponse, hstate, h1, h2]
    refine ⟨?_, hctx, ?_, ?_⟩
    · simp [URIClient.ReadResponse, hstate, h1, h2]
    · simp [URIClient.ReadResponse, hstate, h1, h2, Event.isClosePullBlock]
    · intro k later ps hdr pd n
      rw [hctx]
      cases ps with
      | none => rfl
      | some s => simp [URIClient.RequestURI, hstate]

/-- Witness for C16, amended: the `Read` of block 41 returns `EndOfStream`;
and it returns `NotReady`. -/
theorem readResponse_cleanup_on_terminal_results_witness :
    (URIClient.ReadResponse (scriptedEnvironment allSucceed) [] readingContext 16).context
      = { state := State.Idle, pBlock := none }
    ∧ (URIClient.ReadResponse
        (scriptedEnvironment { allSucceed with pullBlockRead := (Result.NotReady, []) }) []
        readingContext 16).context = readingContext :=
  ⟨((readResponse_cleanup_on_terminal_results (scriptedEnvironment allSucceed) []
      readingContext 16 rfl).1 (Or.inl rfl)).1,
   ((readResponse_cleanup_on_terminal_results
      (scriptedEnvironment { allSucceed with pullBlockRead := (Result.NotReady, []) }) []
      readingContext 16 rfl).2 ⟨by decide, by decide⟩).2.1⟩

/-- C17. `AbortRequest` called in state `ReadResponse` closes the pull block
exactly once (that close is the only call it makes), leaves the state `Idle`
with a null block pointer and returns `Success`; called in state `Idle` it
returns `UriInvalidParameters`, makes no call and leaves the client context
unchanged. -/
theorem abortRequest_outcome (m_context : Context) :
    (m_context.state = State.ReadResponse →
      URIClient.AbortRequest m_context
        = { result := Result.Success
            context := { state := State.Idle, pBlock := none }
            events := [Event.ClosePullBlock m_context.pBlock] })
    ∧ (m_context.state = State.Idle →
      URIClient.AbortRequest m_context
        = { result := Result.UriInvalidParameters, context := m_context, events := [] }) := by
  constructor
  · intro h
    simp [URIClient.AbortRequest, h, ClosePullBlock]
  · intro h
    simp [URIClient.AbortRequest, h]

/-- Witness for C17: `AbortRequest` while block 41 is being read, and on a
fresh client. -/
theorem abortRequest_outcome_witness :
    URIClient.AbortRequest readingContext
        = { result := Result.Success
            context := { state := State.Idle, pBlock := none }
            events := [Event.ClosePullBlock readingContext.pBlock] }
    ∧ URIClient.AbortRequest idleContext
        = { result := Result.UriInvalidParameters, context := idleContext, events := [] } :=
  ⟨(abortRequest_outcome readingContext).1 rfl, (abortRequest_outcome idleContext).2 rfl⟩

/-- C18. `ResetState` called on any client context leaves the state `Idle`
and the block pointer null; it closes the pull block exactly once when the
pointer was not null and makes no call otherwise; and a second `ResetState`
right after the first changes nothing and makes no call. -/
theorem resetState_outcome (m_context : Context) :
    (URIClient.ResetState m_context).1 = { state := State.Idle, pBlock := none }
    ∧ (m_context.pBlock ≠ none →
        (URIClient.ResetState m_context).2 = [Event.ClosePullBlock m_context.pBlock])
    ∧ (m_context.pBlock = none → (URIClient.ResetState m_context).2 = [])
    ∧ URIClient.ResetState (URIClient.ResetState m_context).1
      = ((URIClient.ResetState m_context).1, []) := by
  by_cases h : m_context.pBlock = none
  · simp [URIClient.ResetState, h, URIClient.zeroedContext]
  · simp [URIClient.ResetState, h, URIClient.zeroedContext, ClosePullBlock]

/-- Witness for C18: `ResetState` while block 41 is being read, and on a
fresh client. -/
theorem resetState_outcome_witness :
    (URIClient.ResetState readingContext).2 = [Event.ClosePullBlock readingContext.pBlock]
    ∧ (URIClient.ResetState idleContext).2 = [] :=
  ⟨(resetState_outcome readingContext).2.1 (by decide),
   (resetState_outcome idleContext).2.2.1 rfl⟩

/-- C20. When `RequestURI`, called from `Idle` with a response header, has
set up its payload, the transaction succeeds, the message received is a
`URIResponse` with result `Success` and a block id other than the invalid
sentinel, and the pull block for that id opens, then the header holds the
data size of that block as its size, and as its format `Text` when the
session version is below `URI_RESPONSE_FORMATS_VERSION` and otherwise the
format field of the response mapped by `ResponseFormatToUriFormat`, which
takes `Unknown`, `Text` and `Binary` to the values of the same name. -/
theorem requestURI_response_header (k : Constants) (env : Environment)
    (history : List Event) (m_context : Context) (s : String) (header : ResponseHeader)
    (pd : Option (List Nat)) (n : Nat) (c cont : SizedPayloadContainer)
    (evs tevs : List Event) (block : Nat)
    (hidle : m_context.state = State.Idle)
    (hsetup : URIClient.RequestURI.setupPayload k env history s pd n
      = (Result.Success, c, evs))
    (htrans : TransactURIPayload k env (history ++ evs) c
        k.kDefaultCommunicationTimeoutInMs k.kDefaultRetryTimeoutInMs
      = (Result.Success, cont, tevs))
    (hcmd : cont.GetPayload.command = URIMessage.URIResponse)
    (hres : cont.GetPayload.result = Result.Success)
    (hbid : cont.GetPayload.blockId ≠ k.kInvalidBlockId)
    (hopen : env.OpenPullBlock (history ++ (evs ++ tevs)) env.GetRemoteClientId
        cont.GetPayload.blockId = some block) :
    (URIClient.RequestURI k env history m_context (some s) (some header) pd n).pResponseHeader
      = some
          { responseDataSizeInBytes :=
              env.GetBlockDataSize
                (history ++ (evs ++ tevs) ++
                  [Event.OpenPullBlock env.GetRemoteClientId cont.GetPayload.blockId
                    (some block)])
                block
            responseDataFormat :=
              if env.sessionGetVersion < k.URI_RESPONSE_FORMATS_VERSION then URIDataFormat.Text
              else ResponseFormatToUriFormat cont.GetPayload.format }
    ∧ ResponseFormatToUriFormat ResponseDataFormat.Unknown = URIDataFormat.Unknown
    ∧ ResponseFormatToUriFormat ResponseDataFormat.Text = URIDataFormat.Text
    ∧ ResponseFormatToUriFormat ResponseDataFormat.Binary = URIDataFormat.Binary := by
  have h := RequestURI_of_pull_block_opened k env history m_context s (some header) pd n c cont
    evs tevs block hidle hsetup htrans hcmd hres hbid hopen
  refine ⟨?_, rfl, rfl, rfl⟩
  rw [h]
  generalize env.GetBlockDataSize
      (history ++ (evs ++ tevs) ++
        [Event.OpenPullBlock env.GetRemoteClientId cont.GetPayload.blockId (some block)])
      block = blockSize
  by_cases hv : env.sessionGetVersion < k.URI_RESPONSE_FORMATS_VERSION
  · have hv2 : ¬ k.URI_RESPONSE_FORMATS_VERSION ≤ env.sessionGetVersion := by omega
    rcases Nat.eq_zero_or_pos blockSize with hz | hpos
    · simp [hv, hv2, hz]
    · simp [hv, hv2, hpos]
  · have hv2 : k.URI_RESPONSE_FORMATS_VERSION ≤ env.sessionGetVersion := by omega
    rcases Nat.eq_zero_or_pos blockSize with hz | hpos
    · simp [hv, hv2, hz]
    · simp [hv, hv2, hpos]

/-- Witness for C20: the response names block id 5, which opens as block 41
with 10 bytes of data, on a session of version 3; the response says `Text`. -/
theorem requestURI_response_header_witness :
    (URIClient.RequestURI sampleConstants (scriptedEnvironment respondsWithBlock) []
        idleContext (some "echo?x=1")
        (some { responseDataSizeInBytes := 77, responseDataFormat := URIDataFormat.Binary })
        none 0).pResponseHeader
      = some { responseDataSizeInBytes := 10, responseDataFormat := URIDataFormat.Text } :=
  (requestURI_response_header sampleConstants (scriptedEnvironment respondsWithBlock) []
    idleContext "echo?x=1"
    { responseDataSizeInBytes := 77, responseDataFormat := URIDataFormat.Binary } none 0
    (SizedPayloadContainer.zero.CreatePayload (Payload.URIRequestPayload "echo?x=1" none) 32)
    { payload := Payload.Received (successResponse 5), inlineData := [], payloadSize := 16 }
    []
    [Event.Send
       (SizedPayloadContainer.zero.CreatePayload
         (Payload.URIRequestPayload "echo?x=1" none) 32)
       32 5000 50 Result.Success,
     Event.Receive 48 5000 50 Result.Success (successResponse 5)]
    41 rfl (by decide) (by decide) (by decide) (by decide) (by decide) (by decide)).1

end DevDriver.URIProtocol

/-! ## Theorems: the request context, continued -/

namespace DevDriver

/-- C21. The assertion of `URIRequestContext::End` holds if and only if the
state is `WriterSelection` or `WritingCompleted` (so it fails in each of the
three `*Selected` states, where a writer was obtained and not closed); after
`End` the state is `WriterSelection`, nothing else in the context has
changed, and the assertion of a `Begin` that follows holds. -/
theorem end_legal_states (context : URIRequestContext) (pArguments : Option String)
    (format : URIDataFormat) (pResponseBlock : Option Nat) (postDataInfo : PostDataInfo) :
    (context.End.assertsHeld = true
      ↔ (context.m_contextState = ContextState.WriterSelection
          ∨ context.m_contextState = ContextState.WritingCompleted))
    ∧ context.End.context = { context with m_contextState := ContextState.WriterSelection }
    ∧ (context.End.context.Begin pArguments format pResponseBlock postDataInfo).assertsHeld
        = true := by
  refine ⟨?_, rfl, ?_⟩
  · simp [URIRequestContext.End]
  · simp [URIRequestContext.End, URIRequestContext.Begin]

/-- C22. The assertion of `URIRequestContext::Begin(args, format,
responseBlock, postInfo)` holds if and only if the state is
`WriterSelection`; after `Begin` the state is `WriterSelection` and
`GetRequestArguments`, `GetUriDataFormat`, `GetBlock` and `GetPostData`
return `args`, `format`, `responseBlock` and `postInfo`, whatever the context
held before. -/
theorem begin_stores_request (context : URIRequestContext) (pArguments : Option String)
    (format : URIDataFormat) (pResponseBlock : Option Nat) (postDataInfo : PostDataInfo) :
    ((context.Begin pArguments format pResponseBlock postDataInfo).assertsHeld = true
      ↔ context.m_contextState = ContextState.WriterSelection)
    ∧ (context.Begin pArguments format pResponseBlock postDataInfo).context.m_contextState
        = ContextState.WriterSelection
    ∧ (context.Begin pArguments format pResponseBlock
        postDataInfo).context.GetRequestArguments = pArguments
    ∧ (context.Begin pArguments format pResponseBlock postDataInfo).context.GetUriDataFormat
        = format
    ∧ (context.Begin pArguments format pResponseBlock postDataInfo).context.GetBlock
        = pResponseBlock
    ∧ (context.Begin pArguments format pResponseBlock postDataInfo).context.GetPostData
        = postDataInfo := by
  refine ⟨?_, rfl, rfl, rfl, rfl, rfl⟩
  simp [URIRequestContext.Begin]

/-- Counterexample for C23: on a context in `WritingCompleted`, a write of
the two bytes 104, 105 through the writer callback returns `Success` and is
forwarded to response block 7. -/
theorem writeBytes_after_completion_is_forwarded :
    (sampleContext ContextState.WritingCompleted).WriteBytes (some [104, 105]) 2
      = { result := Result.Success
          context := sampleContext ContextState.WritingCompleted
          blockWrites := [{ block := some 7, pBytes := some [104, 105], numBytes := 2 }]
          assertsHeld := true } := by
  decide

/-- C23, amended. In state `WritingCompleted`, with no `End` in between, only
the close of a writer is treated as a contract violation: the close
sentinel `WriteBytes(nullptr, 0)` returns `Error`, fails its assertion and
forwards nothing, while a byte write (non-null data) on a context that has a
response block is not checked against the state: it returns `Success`,
forwards one `Write` to the response block and leaves the state
`WritingCompleted`. -/
theorem writeBytes_in_WritingCompleted (context : URIRequestContext) (bytes : List Nat)
    (numBytes : Nat) (h : context.m_contextState = ContextState.WritingCompleted) :
    context.WriteBytes none 0
      = { result := Result.Error, context := context, blockWrites := [],
          assertsHeld := false }
    ∧ ∀ block, context.m_pResponseBlock = some block →
        context.WriteBytes (some bytes) numBytes
          = { result := Result.Success, context := context
              blockWrites := [{ block := some block, pBytes := some bytes,
                                numBytes := numBytes }]
              assertsHeld := true
              nullBlockDereferenced := false }
        ∧ (context.WriteBytes (some bytes) numBytes).context.m_contextState
            = ContextState.WritingCompleted := by
  constructor
  · simp [URIRequestContext.WriteBytes, h]
  · intro block hblock
    simp [URIRequestContext.WriteBytes, URIRequestContext.GetBlock, hblock, h]

/-- Witness for C23, amended: a close and a write on a context in
`WritingCompleted` whose response block is block 7. -/
theorem writeBytes_in_WritingCompleted_witness :
    (sampleContext ContextState.WritingCompleted).m_contextState
        = ContextState.WritingCompleted
    ∧ (sampleContext ContextState.WritingCompleted).m_pResponseBlock = some 7
    ∧ (sampleContext ContextState.WritingCompleted).WriteBytes none 0
      = { result := Result.Error, context := sampleContext ContextState.WritingCompleted
          blockWrites := [], assertsHeld := false }
    ∧ (sampleContext ContextState.WritingCompleted).WriteBytes (some [104, 105]) 2
      = { result := Result.Success, context := sampleContext ContextState.WritingCompleted
          blockWrites := [{ block := some 7, pBytes := some [104, 105], numBytes := 2 }]
          assertsHeld := true
          nullBlockDereferenced := false } :=
  ⟨rfl, rfl,
   (writeBytes_in_WritingCompleted (sampleContext ContextState.WritingCompleted) [104, 105] 2
      rfl).1,
   ((writeBytes_in_WritingCompleted (sampleContext ContextState.WritingCompleted) [104, 105] 2
      rfl).2 7 rfl).1⟩

/-- Failing input for C24: each of `BeginByteResponse`, `BeginTextResponse`
and `BeginJsonResponse` called with a null `ppWriter`, in any state, returns
`Result::UriInvalidParameters`, which is not `Result::Error`; the context is
left unchanged. -/
theorem beginResponse_null_pointer (context : URIRequestContext) :
    context.BeginByteResponse none
      = { result := Result.UriInvalidParameters, context := context, ppWriter := none }
    ∧ context.BeginTextResponse none
      = { result := Result.UriInvalidParameters, context := context, ppWriter := none }
    ∧ context.BeginJsonResponse none
      = { result := Result.UriInvalidParameters, context := context, ppWriter := none }
    ∧ Result.UriInvalidParameters ≠ Result.Error :=
  ⟨rfl, rfl, rfl, by decide⟩

/-- C26. A call of the writer callback `WriteBytes` with a non-null data
pointer and any length, 0 included, in any context state, on a context that
has a response block, forwards exactly one `Write` with the same pointer and
length to that block, leaves the context unchanged and returns `Success`. -/
theorem writeBytes_forwards (context : URIRequestContext) (bytes : List Nat)
    (numBytes : Nat) (block : Nat) (hblock : context.m_pResponseBlock = some block) :
    context.WriteBytes (some bytes) numBytes
      = { result := Result.Success, context := context
          blockWrites := [{ block := some block, pBytes := some bytes,
                            numBytes := numBytes }]
          assertsHeld := true
          nullBlockDereferenced := false } := by
  simp [URIRequestContext.WriteBytes, URIRequestContext.GetBlock, hblock]

/-- Witness for C26: a write of no bytes through a non-null pointer on a
context in `WriterSelection` whose response block is block 7. -/
theorem writeBytes_forwards_witness :
    (sampleContext ContextState.WriterSelection).m_pResponseBlock = some 7
    ∧ (sampleContext ContextState.WriterSelection).WriteBytes (some []) 0
      = { result := Result.Success, context := sampleContext ContextState.WriterSelection
          blockWrites := [{ block := some 7, pBytes := some [], numBytes := 0 }]
          assertsHeld := true
          nullBlockDereferenced := false } :=
  ⟨rfl, writeBytes_forwards (sampleContext ContextState.WriterSelection) [] 0 7 rfl⟩

/-- C30. `WriteBytes` called with a null pointer and a non-zero length
returns `Error` in every context state, forwards nothing to the response
block and leaves the context unchanged. -/
theorem writeBytes_null_with_length (context : URIRequestContext) (numBytes : Nat)
    (h : numBytes ≠ 0) :
    context.WriteBytes none numBytes
      = { result := Result.Error, context := context, blockWrites := [],
          assertsHeld := true } := by
  simp [URIRequestContext.WriteBytes, h]

/-- Witness for C30: a null pointer with length 4 on a context in
`TextWriterSelected`. -/
theorem writeBytes_null_with_length_witness :
    (sampleContext ContextState.TextWriterSelected).WriteBytes none 4
      = { result := Result.Error, context := sampleContext ContextState.TextWriterSelected
          blockWrites := [], assertsHeld := true } :=
  writeBytes_null_with_length (sampleContext ContextState.TextWriterSelected) 4 (by decide)

end DevDriver

/-! ## Theorems: the URI client, continued -/

namespace DevDriver.URIProtocol

/-! ### Further shapes: the payload set-up and the pull block -/

/-- The three ways of setting up the payload, each with what it leaves: no
post data, post data copied into the packet, and post data sent through a
push block. -/
theorem setupPayload_cases (k : Constants) (env : Environment) (history : List Event)
    (s : String) (pd : Option (List Nat)) (n : Nat) :
    URIClient.RequestURI.setupPayload k env history s pd n
        = (Result.Success,
           SizedPayloadContainer.zero.CreatePayload (Payload.URIRequestPayload s none)
             k.sizeofURIRequestPayload,
           [])
    ∨ (∃ data : List Nat, n ≤ k.kMaxInlineDataSize
        ∧ URIClient.RequestURI.setupPayload k env history s pd n
          = (Result.Success,
             { payload :=
                 Payload.URIRequestPayload s
                   (some { blockId := k.kInvalidBlockId
                           dataFormat := TransferDataFormat.Binary
                           dataSize := static_cast_uint32 n })
               inlineData := data.take n
               payloadSize := static_cast_uint32 (k.sizeofURIRequestPayload + n) },
             []))
    ∨ (∃ data : List Nat, URIClient.RequestURI.setupPayload k env history s pd n
          = URIClient.RequestURI.postThroughBlock k env history SizedPayloadContainer.zero s
              data n) := by
  by_cases hno : pd = none ∨ n = 0
  · exact Or.inl (setupPayload_no_post_data k env history s pd n hno)
  · cases pd with
    | none => simp at hno
    | some data =>
      have hpos : 0 < n := by
        rcases Nat.eq_zero_or_pos n with h | h
        · exact absurd (Or.inr h) hno
        · exact h
      by_cases hfit : n ≤ k.kMaxInlineDataSize
      · exact Or.inr (Or.inl ⟨data, hfit, setupPayload_inline k env history s data n hpos hfit⟩)
      · exact Or.inr (Or.inr ⟨data, setupPayload_block k env history s data n (by omega)⟩)

/-- Setting up the payload makes no call of `OpenPullBlock`. -/
theorem setupPayload_events_no_pull (k : Constants) (env : Environment)
    (history : List Event) (s : String) (pd : Option (List Nat)) (n : Nat) :
    ∀ clientId blockId answer,
      Event.OpenPullBlock clientId blockId answer
        ∉ (URIClient.RequestURI.setupPayload k env history s pd n).2.2 := by
  intro clientId blockId answer
  rcases setupPayload_shape k env history s pd n with ⟨c, hsetup⟩ | ⟨data, _, _, hsetup⟩
  · simp [hsetup]
  · obtain ⟨w1, hpost⟩ := postThroughBlock_shape k env history SizedPayloadContainer.zero s
      data n
    rcases hpost with ⟨a, _, hP⟩ | ⟨ra, msg, _, hP⟩ | ⟨msg, _, hP⟩ | ⟨msg, _, hP⟩
      | ⟨msg, b, wr, _, _, hP⟩ | ⟨msg, b, fin, _, _, hP⟩ | ⟨msg, b, _, hP⟩ <;>
    · rw [hsetup, hP]
      simp only [List.mem_cons, List.mem_singleton, List.not_mem_nil, reduceCtorEq, or_self,
        not_false_eq_true]

/-- A transaction makes no call of `OpenPullBlock`. -/
theorem TransactURIPayload_events_no_pull (k : Constants) (env : Environment)
    (history : List Event) (container : SizedPayloadContainer) (t r : Nat) :
    ∀ clientId blockId answer,
      Event.OpenPullBlock clientId blockId answer
        ∉ (TransactURIPayload k env history container t r).2.2 := by
  intro clientId blockId answer
  rcases TransactURIPayload_shape k env history container t r with ⟨a, _, hT⟩ | ⟨ra, msg, hT⟩ <;>
  · rw [hT]
    simp only [List.mem_cons, List.mem_singleton, List.not_mem_nil, reduceCtorEq, or_self,
      not_false_eq_true]

/-- `RequestURI` from `Idle` on the path where the payload is set up, the
transaction succeeds and the message received is a `URIResponse` with result
`Success` that carries the invalid block id. -/
theorem RequestURI_of_invalid_block_id (k : Constants) (env : Environment)
    (history : List Event) (m_context : Context) (s : String) (hdr : Option ResponseHeader)
    (pd : Option (List Nat)) (n : Nat) (c cont : SizedPayloadContainer)
    (evs tevs : List Event)
    (hidle : m_context.state = State.Idle)
    (hsetup : URIClient.RequestURI.setupPayload k env history s pd n
      = (Result.Success, c, evs))
    (htrans : TransactURIPayload k env (history ++ evs) c
        k.kDefaultCommunicationTimeoutInMs k.kDefaultRetryTimeoutInMs
      = (Result.Success, cont, tevs))
    (hcmd : cont.GetPayload.command = URIMessage.URIResponse)
    (hres : cont.GetPayload.result = Result.Success)
    (hbid : cont.GetPayload.blockId = k.kInvalidBlockId) :
    URIClient.RequestURI k env history m_context (some s) hdr pd n
      = { result := Result.Success, context := m_context
          pResponseHeader :=
            hdr.map (fun _ =>
              { responseDataSizeInBytes := 0, responseDataFormat := URIDataFormat.Unknown })
          events := evs ++ tevs } := by
  cases hdr <;>
    simp [URIClient.RequestURI, URIClient.RequestURI.readResponsePayload, hidle, hsetup, htrans,
      hcmd, hres, hbid]

/-- Every send of a transaction is the send of its container, with the size
chosen by `SendURIPayload`. -/
theorem TransactURIPayload_sends (k : Constants) (env : Environment) (history : List Event)
    (container : SizedPayloadContainer) (t r : Nat) :
    ∀ c w t2 r2 a,
      Event.Send c w t2 r2 a ∈ (TransactURIPayload k env history container t r).2.2 →
      c = container ∧ w = SendURIPayload.payloadSize k env container := by
  intro c w t2 r2 a
  rcases TransactURIPayload_shape k env history container t r with ⟨a1, _, hT⟩ | ⟨ra, msg, hT⟩ <;>
  · rw [hT]
    simp only [List.mem_cons, List.mem_singleton, List.not_mem_nil, reduceCtorEq, or_false,
      Event.Send.injEq]
    rintro ⟨h1, h2, -⟩
    exact ⟨h1, h2⟩

/-- An event of a list that is extended by events other than sends is in the
list or is not a send. -/
theorem mem_append_of_no_send (e : Event) (evs extra : List Event)
    (hextra : ∀ x ∈ extra, x.isSend = false) (h : e ∈ evs ++ extra) :
    e ∈ evs ∨ e.isSend = false := by
  rcases List.mem_append.mp h with h | h
  · exact Or.inl h
  · exact Or.inr (hextra e h)

/-- Every event on the block-backed post path is an event of the transaction
of the post request or is not a send. -/
theorem postThroughBlock_events (k : Constants) (env : Environment) (history : List Event)
    (container : SizedPayloadContainer) (s : String) (data : List Nat) (n : Nat) :
    ∀ e ∈ (URIClient.RequestURI.postThroughBlock k env history container s data n).2.2,
      e ∈ (TransactURIPayload k env history
            (SizedPayloadContainer.zero.CreatePayload
              (Payload.URIPostRequestPayload s (static_cast_uint32 n))
              k.sizeofURIPostRequestPayload)
            k.kDefaultCommunicationTimeoutInMs k.kDefaultRetryTimeoutInMs).2.2
      ∨ e.isSend = false := by
  intro e
  simp only [URIClient.RequestURI.postThroughBlock]
  generalize TransactURIPayload k env history
    (SizedPayloadContainer.zero.CreatePayload
      (Payload.URIPostRequestPayload s (static_cast_uint32 n))
      k.sizeofURIPostRequestPayload)
    k.kDefaultCommunicationTimeoutInMs k.kDefaultRetryTimeoutInMs = tr
  by_cases h1 : tr.1 = Result.Success
  swap
  · simp only [h1, if_false]
    exact Or.inl
  simp only [h1, if_true]
  by_cases hres : tr.2.1.GetPayload.result = Result.Success
  swap
  · simp only [hres, if_false, ite_self]
    exact Or.inl
  simp only [hres, if_true]
  generalize env.OpenPushBlock _ _ _ _ = opened
  cases opened with
  | none =>
    simp only [reduceCtorEq, if_false]
    exact mem_append_of_no_send e _ _ (by simp [Event.isSend])
  | some block =>
    simp only []
    generalize env.PushBlockWrite _ _ _ _ = wr
    by_cases hw : wr = Result.Success
    swap
    · simp only [hw, if_false, List.append_assoc]
      exact mem_append_of_no_send e _ _ (by simp [Event.isSend])
    simp only [hw, if_true]
    generalize env.PushBlockFinalize _ _ = fin
    by_cases hf : fin = Result.Success
    · simp only [hf, if_true, List.append_assoc]
      exact mem_append_of_no_send e _ _ (by simp [Event.isSend])
    · simp only [hf, if_false, List.append_assoc]
      exact mem_append_of_no_send e _ _ (by simp [Event.isSend])

/-- Every send made while the payload is set up is the send of the post
request, with the size chosen by `SendURIPayload`. -/
theorem setupPayload_sends (k : Constants) (env : Environment) (history : List Event)
    (s : String) (pd : Option (List Nat)) (n : Nat) :
    ∀ c w t r a,
      Event.Send c w t r a ∈ (URIClient.RequestURI.setupPayload k env history s pd n).2.2 →
      c = SizedPayloadContainer.zero.CreatePayload
            (Payload.URIPostRequestPayload s (static_cast_uint32 n))
            k.sizeofURIPostRequestPayload
      ∧ w = SendURIPayload.payloadSize k env c := by
  intro c w t r a hmem
  rcases setupPayload_cases k env history s pd n with hS | ⟨data, _, hS⟩ | ⟨data, hS⟩
  · rw [hS] at hmem
    simp at hmem
  · rw [hS] at hmem
    simp at hmem
  · rw [hS] at hmem
    rcases postThroughBlock_events k env history SizedPayloadContainer.zero s data n _ hmem
      with h | h
    · obtain ⟨h1, h2⟩ := TransactURIPayload_sends k env history _ _ _ c w t r a h
      exact ⟨h1, h1 ▸ h2⟩
    · simp [Event.isSend] at h

/-- Decoding the response sends nothing. -/
theorem readResponsePayload_no_send (k : Constants) (env : Environment)
    (history : List Event) (m_context : Context) (hdr : Option ResponseHeader)
    (container : SizedPayloadContainer) :
    ∀ e ∈ (URIClient.RequestURI.readResponsePayload k env history m_context hdr
            container).events,
      e.isSend = false := by
  intro e
  simp only [URIClient.RequestURI.readResponsePayload]
  split_ifs <;> try split
  all_goals try split_ifs
  all_goals simp [ClosePullBlock]
  all_goals try (rintro (h | h) <;> subst h <;> rfl)
  all_goals try (rintro h; subst h; rfl)

/-- Every send of a call of `RequestURI` has the size chosen by
`SendURIPayload`, and its container is the post request or the container the
set-up of the payload leaves when it succeeds. -/
theorem RequestURI_sends (k : Constants) (env : Environment) (history : List Event)
    (m_context : Context) (s : String) (hdr : Option ResponseHeader)
    (pd : Option (List Nat)) (n : Nat) :
    ∀ c w t r a,
      Event.Send c w t r a
        ∈ (URIClient.RequestURI k env history m_context (some s) hdr pd n).events →
      w = SendURIPayload.payloadSize k env c
      ∧ (c = SizedPayloadContainer.zero.CreatePayload
                (Payload.URIPostRequestPayload s (static_cast_uint32 n))
                k.sizeofURIPostRequestPayload
          ∨ ((URIClient.RequestURI.setupPayload k env history s pd n).1 = Result.Success
              ∧ c = (URIClient.RequestURI.setupPayload k env history s pd n).2.1)) := by
  intro c w t r a
  by_cases hidle : m_context.state = State.Idle
  swap
  · simp [URIClient.RequestURI, hidle]
  have hS := setupPayload_sends k env history s pd n c w t r a
  simp only [URIClient.RequestURI, hidle, if_true]
  generalize URIClient.RequestURI.setupPayload k env history s pd n = setup at hS ⊢
  by_cases hs1 : setup.1 = Result.Success
  swap
  · simp only [hs1, if_false]
    intro hmem
    obtain ⟨h1, h2⟩ := hS hmem
    exact ⟨h2, Or.inl h1⟩
  simp only [hs1, if_true]
  have hT := TransactURIPayload_sends k env (history ++ setup.2.2) setup.2.1
    k.kDefaultCommunicationTimeoutInMs k.kDefaultRetryTimeoutInMs c w t r a
  generalize TransactURIPayload k env (history ++ setup.2.2) setup.2.1
    k.kDefaultCommunicationTimeoutInMs k.kDefaultRetryTimeoutInMs = tr at hT ⊢
  have hfinish : Event.Send c w t r a ∈ setup.2.2 ++ tr.2.2 →
      w = SendURIPayload.payloadSize k env c
      ∧ (c = SizedPayloadContainer.zero.CreatePayload
                (Payload.URIPostRequestPayload s (static_cast_uint32 n))
                k.sizeofURIPostRequestPayload
          ∨ (True ∧ c = setup.2.1)) := by
    intro hmem
    rcases List.mem_append.mp hmem with h | h
    · obtain ⟨h1, h2⟩ := hS h
      exact ⟨h2, Or.inl h1⟩
    · obtain ⟨h1, h2⟩ := hT h
      exact ⟨h1 ▸ h2, Or.inr ⟨trivial, h1⟩⟩
  by_cases ht1 : tr.1 = Result.Success
  swap
  · simp only [ht1, if_false]
    exact hfinish
  simp only [ht1, if_true]
  intro hmem
  rcases List.mem_append.mp hmem with h | h
  · exact hfinish h
  · have := readResponsePayload_no_send k env _ m_context _ tr.2.1 _ h
    simp [Event.isSend] at this

/-- When the set-up of the payload succeeds, the container it leaves is a
request built by `CreatePayload`, alone or followed by at most
`kMaxInlineDataSize` bytes of post data. -/
theorem setupPayload_container_size (k : Constants) (env : Environment)
    (history : List Event) (s : String) (pd : Option (List Nat)) (n : Nat)
    (h : (URIClient.RequestURI.setupPayload k env history s pd n).1 = Result.Success) :
    (URIClient.RequestURI.setupPayload k env history s pd n).2.1.payloadSize
        = k.sizeofURIRequestPayload
    ∨ (n ≤ k.kMaxInlineDataSize
        ∧ (URIClient.RequestURI.setupPayload k env history s pd n).2.1.payloadSize
            = static_cast_uint32 (k.sizeofURIRequestPayload + n)) := by
  rcases setupPayload_cases k env history s pd n with hS | ⟨data, hfit, hS⟩ | ⟨data, hS⟩
  · rw [hS]
    exact Or.inl rfl
  · rw [hS]
    exact Or.inr ⟨hfit, rfl⟩
  · rw [hS] at h ⊢
    obtain ⟨w1, hpost⟩ := postThroughBlock_shape k env history SizedPayloadContainer.zero s
      data n
    rcases hpost with ⟨a, hne, hP⟩ | ⟨ra, msg, hne, hP⟩ | ⟨msg, hne, hP⟩ | ⟨msg, _, hP⟩
      | ⟨msg, b, wr, _, hne, hP⟩ | ⟨msg, b, fin, _, hne, hP⟩ | ⟨msg, b, _, hP⟩ <;>
    · rw [hP] at h ⊢
      first
        | exact absurd h hne
        | exact absurd h (by decide : Result.UriFailedToAcquirePostBlock ≠ Result.Success)
        | exact Or.inl rfl

/-! ### Claims about containers, send sizes, result propagation and the response header -/

/-- C25. Given that `kMaxInlineDataSize` is the capacity of a container minus
`sizeof(URIRequestPayload)`, and that a `URIPostRequestPayload` fits into a
container, every container that `RequestURI` builds and hands to the channel
(the request built with no post data, with inline post data, or for post data
held in a block, and the post request that precedes the upload into a block)
has `payloadSize <= capacity`, and the inline bytes copied behind the request
struct end within the buffer. -/
theorem requestURI_containers_within_capacity (k : Constants) (env : Environment)
    (history : List Event) (m_context : Context) (pRequestString : Option String)
    (pResponseHeader : Option ResponseHeader) (pPostData : Option (List Nat))
    (postDataSize : Nat)
    (hcap : k.sizeofURIRequestPayload + k.kMaxInlineDataSize = k.sizeofPayload)
    (hpost : k.sizeofURIPostRequestPayload ≤ k.sizeofPayload) :
    ∀ container ∈ sentContainers
        (URIClient.RequestURI k env history m_context pRequestString pResponseHeader pPostData
          postDataSize).events,
      container.payloadSize ≤ k.sizeofPayload
      ∧ k.sizeofURIRequestPayload + container.inlineData.length ≤ k.sizeofPayload := by
  generalize hO : URIClient.RequestURI k env history m_context pRequestString pResponseHeader
    pPostData postDataSize = out
  have hmod : static_cast_uint32 (k.sizeofURIRequestPayload + postDataSize)
      ≤ k.sizeofURIRequestPayload + postDataSize := Nat.mod_le _ _
  cases pRequestString with
  | none => simp [← hO, URIClient.RequestURI, sentContainers]
  | some s =>
    by_cases hidle : m_context.state = State.Idle
    swap
    · simp [← hO, URIClient.RequestURI, hidle, sentContainers]
    rcases setupPayload_cases k env history s pPostData postDataSize
      with hsetup | ⟨data, hfit, hsetup⟩ | ⟨data, hsetup⟩
    · obtain ⟨w, hshape⟩ := RequestURI_of_setup_succeeded k env history m_context s
        pResponseHeader pPostData postDataSize _ [] hidle hsetup
      rw [hO] at hshape
      rcases hshape with ⟨a, _, hout⟩ | ⟨ra, msg, _, hout⟩ | ⟨msg, _, hout⟩ | ⟨msg, _, _, hout⟩
        | ⟨msg, _, _, _, hout⟩ | ⟨msg, _, _, _, hout⟩ | ⟨msg, b, sz, _, _, _, _, hout⟩
        | ⟨msg, b, _, _, _, hout⟩ <;>
      · subst hout
        simp only [List.nil_append, sentContainers,
          SizedPayloadContainer.CreatePayload, List.mem_singleton, forall_eq, List.length_nil]
        omega
    · have hlen : (data.take postDataSize).length ≤ postDataSize := List.length_take_le _ _
      obtain ⟨w, hshape⟩ := RequestURI_of_setup_succeeded k env history m_context s
        pResponseHeader pPostData postDataSize _ [] hidle hsetup
      rw [hO] at hshape
      rcases hshape with ⟨a, _, hout⟩ | ⟨ra, msg, _, hout⟩ | ⟨msg, _, hout⟩ | ⟨msg, _, _, hout⟩
        | ⟨msg, _, _, _, hout⟩ | ⟨msg, _, _, _, hout⟩ | ⟨msg, b, sz, _, _, _, _, hout⟩
        | ⟨msg, b, _, _, _, hout⟩ <;>
      · subst hout
        simp only [List.nil_append, sentContainers, List.mem_singleton, forall_eq]
        omega
    · obtain ⟨w1, hpostShape⟩ := postThroughBlock_shape k env history
        SizedPayloadContainer.zero s data postDataSize
      rcases hpostShape with ⟨a, hne, hP⟩ | ⟨ra, msg, hne, hP⟩ | ⟨msg, hne, hP⟩ | ⟨msg, _, hP⟩
        | ⟨msg, b, wr, _, hne, hP⟩ | ⟨msg, b, fin, _, hne, hP⟩ | ⟨msg, b, _, hP⟩
      iterate 6
        · have hout := RequestURI_of_setup_failed k env history m_context s pResponseHeader
            pPostData postDataSize _ _ _ hidle (hsetup.trans hP)
            (by first | exact hne | decide)
          rw [hO] at hout
          subst hout
          simp only [sentContainers, SizedPayloadContainer.CreatePayload, List.mem_singleton,
            forall_eq, List.length_nil]
          omega
      · obtain ⟨w, hshape⟩ := RequestURI_of_setup_succeeded k env history m_context s
          pResponseHeader pPostData postDataSize _ _ hidle (hsetup.trans hP)
        rw [hO] at hshape
        clear hsetup hP
        rcases hshape with ⟨a, _, hout⟩ | ⟨ra, msg2, _, hout⟩ | ⟨msg2, _, hout⟩
          | ⟨msg2, _, _, hout⟩ | ⟨msg2, _, _, _, hout⟩ | ⟨msg2, _, _, _, hout⟩
          | ⟨msg2, b2, sz, _, _, _, _, hout⟩ | ⟨msg2, b2, _, _, _, hout⟩ <;>
        · subst hout
          simp only [List.cons_append, List.nil_append, sentContainers,
            SizedPayloadContainer.CreatePayload, List.mem_cons, List.mem_singleton,
            List.not_mem_nil, or_false, forall_eq_or_imp, forall_eq, List.length_nil]
          omega

/-- Witness for C25: ten bytes of inline post data, and the post request for
20 bytes of post data sent through a push block, in containers of 48
bytes. -/
theorem requestURI_containers_within_capacity_witness :
    sampleConstants.sizeofURIRequestPayload + sampleConstants.kMaxInlineDataSize
        = sampleConstants.sizeofPayload
    ∧ sampleConstants.sizeofURIPostRequestPayload ≤ sampleConstants.sizeofPayload
    ∧ sentContainers
        (URIClient.RequestURI sampleConstants (scriptedEnvironment allSucceed) [] idleContext
          (some "echo?x=1") none (some [48, 49, 50, 51, 52, 53, 54, 55, 56, 57]) 10).events
      = [{ payload :=
             Payload.URIRequestPayload "echo?x=1"
               (some { blockId := 0, dataFormat := TransferDataFormat.Binary, dataSize := 10 })
           inlineData := [48, 49, 50, 51, 52, 53, 54, 55, 56, 57]
           payloadSize := 42 }]
    ∧ (42 ≤ sampleConstants.sizeofPayload
        ∧ sampleConstants.sizeofURIRequestPayload + 10 ≤ sampleConstants.sizeofPayload)
    ∧ sentContainers
        (URIClient.RequestURI sampleConstants (scriptedEnvironment allSucceed) [] idleContext
          (some "echo") none (some (List.replicate 20 7)) 20).events
      = [{ payload := Payload.URIPostRequestPayload "echo" 20, inlineData := []
           payloadSize := 24 },
         { payload :=
             Payload.URIRequestPayload "echo"
               (some { blockId := 9, dataFormat := TransferDataFormat.Binary, dataSize := 20 })
           inlineData := [], payloadSize := 32 }]
    ∧ (24 ≤ sampleConstants.sizeofPayload
        ∧ sampleConstants.sizeofURIRequestPayload + 0 ≤ sampleConstants.sizeofPayload) :=
  ⟨rfl, by decide, by decide,
   requestURI_containers_within_capacity sampleConstants (scriptedEnvironment allSucceed) []
     idleContext (some "echo?x=1") none (some [48, 49, 50, 51, 52, 53, 54, 55, 56, 57]) 10 rfl
     (by decide)
     { payload :=
         Payload.URIRequestPayload "echo?x=1"
           (some { blockId := 0, dataFormat := TransferDataFormat.Binary, dataSize := 10 })
       inlineData := [48, 49, 50, 51, 52, 53, 54, 55, 56, 57]
       payloadSize := 42 }
     (by decide),
   by decide,
   requestURI_containers_within_capacity sampleConstants (scriptedEnvironment allSucceed) []
     idleContext (some "echo") none (some (List.replicate 20 7)) 20 rfl (by decide)
     { payload := Payload.URIPostRequestPayload "echo" 20, inlineData := [], payloadSize := 24 }
     (by decide)⟩

/-- C19. `SendURIPayload` chooses the number of bytes it hands to the channel
from the session version on every call. For a container that holds at least
`kLegacyMaxSize` bytes it sends exactly `container.payloadSize` bytes on a
session whose version is at least `URI_POST_PROTOCOL_VERSION`, and
`min(payloadSize, kLegacyMaxSize)` bytes on an older session or when there is
no session (version 0). Every container a call of `RequestURI` hands to
`SendURIPayload` holds at least `kLegacyMaxSize` bytes, given that neither
`sizeof(URIRequestPayload)` nor `sizeof(URIPostRequestPayload)` is below
`kLegacyMaxSize` and that a request with inline data stays below `2 ^ 32`
bytes; so every send of `RequestURI` has the size stated. -/
theorem sendURIPayload_size (k : Constants) (env : Environment)
    (hrequest : k.kLegacyMaxSize ≤ k.sizeofURIRequestPayload)
    (hpost : k.kLegacyMaxSize ≤ k.sizeofURIPostRequestPayload)
    (hinline : k.sizeofURIRequestPayload + k.kMaxInlineDataSize < 2 ^ 32) :
    (∀ (history : List Event) (container : SizedPayloadContainer) (timeoutInMs retryInMs : Nat),
      k.kLegacyMaxSize ≤ container.payloadSize →
      (SendURIPayload k env history container timeoutInMs retryInMs).2
        = [Event.Send container
            (if k.URI_POST_PROTOCOL_VERSION
                ≤ (if env.sessionIsNull = false then env.sessionGetVersion else 0)
             then container.payloadSize
             else min container.payloadSize k.kLegacyMaxSize)
            timeoutInMs retryInMs
            (SendURIPayload k env history container timeoutInMs retryInMs).1])
    ∧ (∀ (history : List Event) (m_context : Context) (pRequestString : Option String)
        (pResponseHeader : Option ResponseHeader) (pPostData : Option (List Nat))
        (postDataSize : Nat) (container : SizedPayloadContainer)
        (size timeoutInMs retryInMs : Nat) (answer : Result),
      Event.Send container size timeoutInMs retryInMs answer
        ∈ (URIClient.RequestURI k env history m_context pRequestString pResponseHeader
            pPostData postDataSize).events →
      k.kLegacyMaxSize ≤ container.payloadSize
      ∧ size
        = (if k.URI_POST_PROTOCOL_VERSION
              ≤ (if env.sessionIsNull = false then env.sessionGetVersion else 0)
           then container.payloadSize
           else min container.payloadSize k.kLegacyMaxSize)) := by
  have hsize : ∀ container : SizedPayloadContainer,
      k.kLegacyMaxSize ≤ container.payloadSize →
      SendURIPayload.payloadSize k env container
        = (if k.URI_POST_PROTOCOL_VERSION
              ≤ (if env.sessionIsNull = false then env.sessionGetVersion else 0)
           then container.payloadSize
           else min container.payloadSize k.kLegacyMaxSize) := by
    intro container hle
    simp only [SendURIPayload.payloadSize, ge_iff_le, Nat.min_eq_right hle]
  refine ⟨?_, ?_⟩
  · intro history container timeoutInMs retryInMs hle
    simp only [SendURIPayload, hsize container hle]
  · intro history m_context pRequestString pResponseHeader pPostData postDataSize container
      size timeoutInMs retryInMs answer hmem
    cases pRequestString with
    | none => simp [URIClient.RequestURI] at hmem
    | some s =>
      obtain ⟨hw, hc⟩ := RequestURI_sends k env history m_context s pResponseHeader pPostData
        postDataSize container size timeoutInMs retryInMs answer hmem
      have hle : k.kLegacyMaxSize ≤ container.payloadSize := by
        rcases hc with hc | ⟨hsucc, hc⟩
        · rw [hc]
          exact hpost
        · rw [hc]
          rcases setupPayload_container_size k env history s pPostData postDataSize hsucc
            with h | ⟨hfit, h⟩
          · rw [h]
            exact hrequest
          · rw [h, static_cast_uint32, Nat.mod_eq_of_lt (by omega)]
            omega
      exact ⟨hle, hw.trans (hsize container hle)⟩

/-- Witness for C19: 20 bytes of post data sent through a push block on a
session of version 1, older than the post protocol (version 3). The request
container holds 32 bytes and is sent with the legacy size of 24 bytes. -/
theorem sendURIPayload_size_witness :
    sampleConstants.kLegacyMaxSize ≤ sampleConstants.sizeofURIRequestPayload
    ∧ sampleConstants.kLegacyMaxSize ≤ sampleConstants.sizeofURIPostRequestPayload
    ∧ sampleConstants.sizeofURIRequestPayload + sampleConstants.kMaxInlineDataSize < 2 ^ 32
    ∧ Event.Send
        (SizedPayloadContainer.zero.CreatePayload
          (Payload.URIRequestPayload "echo"
            (some { blockId := 9, dataFormat := TransferDataFormat.Binary, dataSize := 20 }))
          32)
        24 5000 50 Result.Success
      ∈ (URIClient.RequestURI sampleConstants
          (scriptedEnvironment { allSucceed with sessionVersion := 1 }) [] idleContext
          (some "echo") none (some (List.replicate 20 7)) 20).events
    ∧ (sampleConstants.kLegacyMaxSize ≤ 32 ∧ 24 = min 32 sampleConstants.kLegacyMaxSize) :=
  ⟨by decide, by decide, by decide, by decide,
   (sendURIPayload_size sampleConstants
      (scriptedEnvironment { allSucceed with sessionVersion := 1 })
      (by decide) (by decide) (by decide)).2 [] idleContext (some "echo") none
      (some (List.replicate 20 7)) 20
      (SizedPayloadContainer.zero.CreatePayload
        (Payload.URIRequestPayload "echo"
          (some { blockId := 9, dataFormat := TransferDataFormat.Binary, dataSize := 20 }))
        32)
      24 5000 50 Result.Success (by decide)⟩

/-- C27. For a call of `RequestURI` from `Idle` with a non-null request
string, the result returned is the one the propagation rule prescribes for
the calls the client made: the result of the first failing step, unchanged
(`UriFailedToAcquirePostBlock` and `UriFailedToOpenResponseBlock` for a block
that does not open), and `Success` when no step fails; after the first
failing step the client makes no further call, except for the one
`ClosePushBlock` that follows a failed `Write` or `Finalize`. -/
theorem requestURI_result_propagation (k : Constants) (env : Environment)
    (history : List Event) (m_context : Context) (s : String)
    (pResponseHeader : Option ResponseHeader) (pPostData : Option (List Nat))
    (postDataSize : Nat) (hidle : m_context.state = State.Idle) :
    (URIClient.RequestURI k env history m_context (some s) pResponseHeader pPostData
        postDataSize).result
      = specPropagatedResult
          (URIClient.RequestURI k env history m_context (some s) pResponseHeader pPostData
            postDataSize).events
    ∧ (specStepsAfterFailure
          (URIClient.RequestURI k env history m_context (some s) pResponseHeader pPostData
            postDataSize).events).all Event.isClosePushBlock = true
    ∧ (specStepsAfterFailure
          (URIClient.RequestURI k env history m_context (some s) pResponseHeader pPostData
            postDataSize).events).length ≤ 1 := by
  generalize hO : URIClient.RequestURI k env history m_context (some s) pResponseHeader
    pPostData postDataSize = out
  rcases setupPayload_cases k env history s pPostData postDataSize
    with hsetup | ⟨data, hfit, hsetup⟩ | ⟨data, hsetup⟩
  · obtain ⟨w, hshape⟩ := RequestURI_of_setup_succeeded k env history m_context s
      pResponseHeader pPostData postDataSize _ [] hidle hsetup
    rw [hO] at hshape
    clear hsetup hO
    rcases hshape with ⟨a, h1, hout⟩ | ⟨ra, msg, h1, hout⟩ | ⟨msg, h1, hout⟩
      | ⟨msg, h1, h2, hout⟩ | ⟨msg, h1, h2, h3, hout⟩ | ⟨msg, h1, h2, h3, hout⟩
      | ⟨msg, b, sz, h1, h2, h3, _, hout⟩ | ⟨msg, b, h1, h2, h3, hout⟩ <;>
    · subst hout
      simp_all [specPropagatedResult, specStepsAfterFailure, specFirstFailingStep,
        SizedPayloadContainer.CreatePayload, Event.isClosePushBlock]
  · obtain ⟨w, hshape⟩ := RequestURI_of_setup_succeeded k env history m_context s
      pResponseHeader pPostData postDataSize _ [] hidle hsetup
    rw [hO] at hshape
    clear hsetup hO
    rcases hshape with ⟨a, h1, hout⟩ | ⟨ra, msg, h1, hout⟩ | ⟨msg, h1, hout⟩
      | ⟨msg, h1, h2, hout⟩ | ⟨msg, h1, h2, h3, hout⟩ | ⟨msg, h1, h2, h3, hout⟩
      | ⟨msg, b, sz, h1, h2, h3, _, hout⟩ | ⟨msg, b, h1, h2, h3, hout⟩ <;>
    · subst hout
      simp_all [specPropagatedResult, specStepsAfterFailure, specFirstFailingStep,
        SizedPayloadContainer.CreatePayload, Event.isClosePushBlock]
  · obtain ⟨w1, hpost⟩ := postThroughBlock_shape k env history SizedPayloadContainer.zero s
      data postDataSize
    rcases hpost with ⟨a, hne, hP⟩ | ⟨ra, msg, hne, hP⟩ | ⟨msg, hne, hP⟩ | ⟨msg, hmsg, hP⟩
      | ⟨msg, b, wr, hmsg, hne, hP⟩ | ⟨msg, b, fin, hmsg, hne, hP⟩ | ⟨msg, b, hmsg, hP⟩
    iterate 6
      · have hout := RequestURI_of_setup_failed k env history m_context s pResponseHeader
          pPostData postDataSize _ _ _ hidle (hsetup.trans hP)
          (by first | exact hne | decide)
        rw [hO] at hout
        subst hout
        clear hsetup hP
        simp_all [specPropagatedResult, specStepsAfterFailure, specFirstFailingStep,
          SizedPayloadContainer.CreatePayload, Event.isClosePushBlock]
    · obtain ⟨w, hshape⟩ := RequestURI_of_setup_succeeded k env history m_context s
        pResponseHeader pPostData postDataSize _ _ hidle (hsetup.trans hP)
      rw [hO] at hshape
      clear hsetup hP hO
      rcases hshape with ⟨a, h1, hout⟩ | ⟨ra, msg2, h1, hout⟩ | ⟨msg2, h1, hout⟩
        | ⟨msg2, h1, h2, hout⟩ | ⟨msg2, h1, h2, h3, hout⟩ | ⟨msg2, h1, h2, h3, hout⟩
        | ⟨msg2, b2, sz, h1, h2, h3, _, hout⟩ | ⟨msg2, b2, h1, h2, h3, hout⟩ <;>
      · subst hout
        simp_all [specPropagatedResult, specStepsAfterFailure, specFirstFailingStep,
          SizedPayloadContainer.CreatePayload, Event.isClosePushBlock]

/-- Witness for C27: 20 bytes of post data, and the write into push block 40
fails with `Error`; the rule prescribes `Error`, and the only call after the
failed write is the close of block 40. -/
theorem requestURI_result_propagation_witness :
    idleContext.state = State.Idle
    ∧ specPropagatedResult (URIClient.RequestURI sampleConstants
          (scriptedEnvironment { allSucceed with pushBlockWrite := Result.Error }) []
          idleContext (some "echo") none (some (List.replicate 20 7)) 20).events = Result.Error
    ∧ specStepsAfterFailure (URIClient.RequestURI sampleConstants
          (scriptedEnvironment { allSucceed with pushBlockWrite := Result.Error }) []
          idleContext (some "echo") none (some (List.replicate 20 7)) 20).events = [Event.ClosePushBlock 40]
    ∧ (URIClient.RequestURI sampleConstants
          (scriptedEnvironment { allSucceed with pushBlockWrite := Result.Error }) []
          idleContext (some "echo") none (some (List.replicate 20 7)) 20).result
      = specPropagatedResult (URIClient.RequestURI sampleConstants
          (scriptedEnvironment { allSucceed with pushBlockWrite := Result.Error }) []
          idleContext (some "echo") none (some (List.replicate 20 7)) 20).events :=
  ⟨rfl, by decide, by decide,
   (requestURI_result_propagation sampleConstants
      (scriptedEnvironment { allSucceed with pushBlockWrite := Result.Error }) []
      idleContext "echo" none (some (List.replicate 20 7)) 20 rfl).1⟩

/-- C28. In any call of `RequestURI`, each `OpenPullBlock` comes right after
a receive that returned `Success` and delivered a `URIResponse` with result
`Success`, and it is made for the block id of that response, which is not the
invalid sentinel; and when the transaction of a call from `Idle` succeeds
with a `URIResponse` with result `Success` that carries the invalid block
id, `RequestURI` returns `Success`, makes no call of `OpenPullBlock` and
leaves the client context as it was (`Idle`). -/
theorem requestURI_pull_block_only_after_response (k : Constants) (env : Environment)
    (history : List Event) (m_context : Context) (pRequestString : Option String)
    (pResponseHeader : Option ResponseHeader) (pPostData : Option (List Nat))
    (postDataSize : Nat) :
    (∀ clientId blockId answer,
      Event.OpenPullBlock clientId blockId answer
        ∈ (URIClient.RequestURI k env history m_context pRequestString pResponseHeader
            pPostData postDataSize).events →
      ∃ pre rest bufferSize t r msg,
        (URIClient.RequestURI k env history m_context pRequestString pResponseHeader
            pPostData postDataSize).events
          = pre ++ Event.Receive bufferSize t r Result.Success msg
              :: Event.OpenPullBlock clientId blockId answer :: rest
        ∧ msg.command = URIMessage.URIResponse
        ∧ msg.result = Result.Success
        ∧ msg.blockId = blockId
        ∧ blockId ≠ k.kInvalidBlockId)
    ∧ (∀ (s : String) (c cont : SizedPayloadContainer) (evs tevs : List Event),
      m_context.state = State.Idle →
      pRequestString = some s →
      URIClient.RequestURI.setupPayload k env history s pPostData postDataSize
        = (Result.Success, c, evs) →
      TransactURIPayload k env (history ++ evs) c
          k.kDefaultCommunicationTimeoutInMs k.kDefaultRetryTimeoutInMs
        = (Result.Success, cont, tevs) →
      cont.GetPayload.command = URIMessage.URIResponse →
      cont.GetPayload.result = Result.Success →
      cont.GetPayload.blockId = k.kInvalidBlockId →
      (URIClient.RequestURI k env history m_context pRequestString pResponseHeader pPostData
          postDataSize).result = Result.Success
      ∧ (URIClient.RequestURI k env history m_context pRequestString pResponseHeader
          pPostData postDataSize).context = m_context
      ∧ ∀ clientId blockId answer,
          Event.OpenPullBlock clientId blockId answer
            ∉ (URIClient.RequestURI k env history m_context pRequestString pResponseHeader
                pPostData postDataSize).events) := by
  constructor
  · generalize hO : URIClient.RequestURI k env history m_context pRequestString
      pResponseHeader pPostData postDataSize = out
    intro clientId blockId answer hmem
    cases pRequestString with
    | none => simp [← hO, URIClient.RequestURI] at hmem
    | some s =>
      by_cases hidle : m_context.state = State.Idle
      swap
      · simp [← hO, URIClient.RequestURI, hidle] at hmem
      have hnopull := setupPayload_events_no_pull k env history s pPostData postDataSize
        clientId blockId answer
      rcases hsetup : URIClient.RequestURI.setupPayload k env history s pPostData postDataSize
        with ⟨res, c, evs⟩
      rw [hsetup] at hnopull
      simp only at hnopull
      by_cases hres : res = Result.Success
      · subst hres
        obtain ⟨w, hshape⟩ := RequestURI_of_setup_succeeded k env history m_context s
          pResponseHeader pPostData postDataSize c evs hidle hsetup
        rw [hO] at hshape
        clear hsetup hO
        rcases hshape with ⟨a, _, hout⟩ | ⟨ra, msg, _, hout⟩ | ⟨msg, _, hout⟩
          | ⟨msg, _, _, hout⟩ | ⟨msg, _, _, _, hout⟩ | ⟨msg, h1, h2, h3, hout⟩
          | ⟨msg, b, sz, h1, h2, h3, _, hout⟩ | ⟨msg, b, h1, h2, h3, hout⟩
        iterate 5
          · subst hout
            simp only [List.mem_append, List.mem_cons, List.mem_singleton, List.not_mem_nil,
              reduceCtorEq, or_self, or_false] at hmem
            exact absurd hmem hnopull
        all_goals
          subst hout
          simp only [List.mem_append, List.mem_cons, List.mem_singleton, List.not_mem_nil,
            reduceCtorEq, false_or, or_false, Event.OpenPullBlock.injEq] at hmem
          rcases hmem with hmem | ⟨rfl, rfl, rfl⟩
          · exact absurd hmem hnopull
          · exact ⟨evs ++ [Event.Send c w k.kDefaultCommunicationTimeoutInMs
                k.kDefaultRetryTimeoutInMs Result.Success], _, k.sizeofPayload,
              k.kDefaultCommunicationTimeoutInMs, k.kDefaultRetryTimeoutInMs, msg,
              by rw [List.append_assoc]; rfl, h1, h2, rfl, h3⟩
      · have hout := RequestURI_of_setup_failed k env history m_context s pResponseHeader
          pPostData postDataSize res c evs hidle hsetup hres
        rw [hO] at hout
        subst hout
        exact absurd hmem hnopull
  · intro s c cont evs tevs hidle hs hsetup htrans hcmd hres hbid
    subst hs
    rw [RequestURI_of_invalid_block_id k env history m_context s pResponseHeader pPostData
      postDataSize c cont evs tevs hidle hsetup htrans hcmd hres hbid]
    refine ⟨rfl, rfl, ?_⟩
    intro clientId blockId answer hmem
    simp only [List.mem_append] at hmem
    rcases hmem with hmem | hmem
    · have h := setupPayload_events_no_pull k env history s pPostData postDataSize
        clientId blockId answer
      rw [hsetup] at h
      exact h hmem
    · have h := TransactURIPayload_events_no_pull k env (history ++ evs) c
        k.kDefaultCommunicationTimeoutInMs k.kDefaultRetryTimeoutInMs clientId blockId answer
      rw [htrans] at h
      exact h hmem

/-- Witness for C28: the response names block id 5, and the pull block is
opened right after that response is received. -/
theorem requestURI_pull_block_only_after_response_witness :
    Event.OpenPullBlock 2 5 (some 41) ∈ (URIClient.RequestURI sampleConstants (scriptedEnvironment respondsWithBlock) []
          idleContext (some "echo?x=1") none none 0).events
    ∧ ∃ pre rest bufferSize t r msg,
        (URIClient.RequestURI sampleConstants (scriptedEnvironment respondsWithBlock) []
          idleContext (some "echo?x=1") none none 0).events
          = pre ++ Event.Receive bufferSize t r Result.Success msg
              :: Event.OpenPullBlock 2 5 (some 41) :: rest
        ∧ msg.command = URIMessage.URIResponse
        ∧ msg.result = Result.Success
        ∧ msg.blockId = 5
        ∧ 5 ≠ sampleConstants.kInvalidBlockId :=
  ⟨by decide,
   (requestURI_pull_block_only_after_response sampleConstants
      (scriptedEnvironment respondsWithBlock) [] idleContext (some "echo?x=1") none none 0).1
      2 5 (some 41) (by decide)⟩

/-- C29. When `RequestURI` is rejected at entry (state not `Idle`, or a null
request string), the response header is left as it was; when the call passes
the entry check and ends in anything other than a `Success` with a pull block
opened, a supplied header holds size 0 and format `Unknown` (and a null
header pointer stays null). -/
theorem requestURI_response_header_frame (k : Constants) (env : Environment)
    (history : List Event) (m_context : Context) (pRequestString : Option String)
    (pResponseHeader : Option ResponseHeader) (pPostData : Option (List Nat))
    (postDataSize : Nat) :
    ((m_context.state ≠ State.Idle ∨ pRequestString = none) →
      (URIClient.RequestURI k env history m_context pRequestString pResponseHeader pPostData
        postDataSize).pResponseHeader = pResponseHeader)
    ∧ (m_context.state = State.Idle → pRequestString ≠ none →
      ¬ ((URIClient.RequestURI k env history m_context pRequestString pResponseHeader
            pPostData postDataSize).result = Result.Success
          ∧ (URIClient.RequestURI k env history m_context pRequestString pResponseHeader
            pPostData postDataSize).events.filter Event.opensPullBlock ≠ []) →
      (URIClient.RequestURI k env history m_context pRequestString pResponseHeader pPostData
        postDataSize).pResponseHeader
        = pResponseHeader.map (fun _ =>
            { responseDataSizeInBytes := 0, responseDataFormat := URIDataFormat.Unknown })) := by
  generalize hO : URIClient.RequestURI k env history m_context pRequestString pResponseHeader
    pPostData postDataSize = out
  constructor
  · intro h
    cases pRequestString with
    | none => simp [← hO, URIClient.RequestURI]
    | some s =>
      have hstate : m_context.state ≠ State.Idle := by
        rcases h with h | h
        · exact h
        · simp at h
      simp [← hO, URIClient.RequestURI, hstate]
  · intro hidle hs hnot
    cases pRequestString with
    | none => exact absurd rfl hs
    | some s =>
      rcases setupPayload_shape k env history s pPostData postDataSize
        with ⟨c, hsetup⟩ | ⟨data, _, _, hsetup⟩
      · obtain ⟨w, hshape⟩ := RequestURI_of_setup_succeeded k env history m_context s
          pResponseHeader pPostData postDataSize c [] hidle hsetup
        rw [hO] at hshape
        rcases hshape with ⟨a, _, hout⟩ | ⟨ra, msg, _, hout⟩ | ⟨msg, _, hout⟩
          | ⟨msg, _, _, hout⟩ | ⟨msg, _, _, _, hout⟩ | ⟨msg, _, _, _, hout⟩
          | ⟨msg, b, sz, _, _, _, _, hout⟩ | ⟨msg, b, _, _, _, hout⟩ <;>
        · subst hout
          first
          | rfl
          | (exfalso
             apply hnot
             simp only [List.nil_append, List.filter, Event.opensPullBlock, ne_eq,
               reduceCtorEq, not_false_eq_true, and_self])
      · obtain ⟨w1, hpost⟩ := postThroughBlock_shape k env history SizedPayloadContainer.zero s
          data postDataSize
        rcases hpost with ⟨a, hne, hP⟩ | ⟨ra, msg, hne, hP⟩ | ⟨msg, hne, hP⟩ | ⟨msg, _, hP⟩
          | ⟨msg, b, wr, _, hne, hP⟩ | ⟨msg, b, fin, _, hne, hP⟩ | ⟨msg, b, _, hP⟩
        iterate 6
          · have hout := RequestURI_of_setup_failed k env history m_context s pResponseHeader
              pPostData postDataSize _ _ _ hidle (hsetup.trans hP)
              (by first | exact hne | decide)
            rw [hO] at hout
            subst hout
            rfl
        · obtain ⟨w, hshape⟩ := RequestURI_of_setup_succeeded k env history m_context s
            pResponseHeader pPostData postDataSize _ _ hidle (hsetup.trans hP)
          rw [hO] at hshape
          clear hsetup hP
          rcases hshape with ⟨a, _, hout⟩ | ⟨ra, msg2, _, hout⟩ | ⟨msg2, _, hout⟩
            | ⟨msg2, _, _, hout⟩ | ⟨msg2, _, _, _, hout⟩ | ⟨msg2, _, _, _, hout⟩
            | ⟨msg2, b2, sz, _, _, _, _, hout⟩ | ⟨msg2, b2, _, _, _, hout⟩ <;>
          · subst hout
            first
            | rfl
            | (exfalso
               apply hnot
               simp only [List.cons_append, List.nil_append, List.filter,
                 Event.opensPullBlock, ne_eq, reduceCtorEq, not_false_eq_true, and_self])

/-- Witness for C29: a request made while a response is being read leaves the
header untouched; a request from `Idle` whose send fails leaves the header at
size 0 and format `Unknown`. -/
theorem requestURI_response_header_frame_witness :
    (URIClient.RequestURI sampleConstants (scriptedEnvironment allSucceed) [] readingContext
        (some "echo?x=1")
        (some { responseDataSizeInBytes := 77, responseDataFormat := URIDataFormat.Binary })
        none 0).pResponseHeader
      = some { responseDataSizeInBytes := 77, responseDataFormat := URIDataFormat.Binary }
    ∧ (URIClient.RequestURI sampleConstants
          (scriptedEnvironment { allSucceed with sends := [Result.NotReady] }) [] idleContext
          (some "echo?x=1")
          (some { responseDataSizeInBytes := 77, responseDataFormat := URIDataFormat.Binary })
          none 0).pResponseHeader
      = (some { responseDataSizeInBytes := 77, responseDataFormat := URIDataFormat.Binary }
          : Option ResponseHeader).map (fun _ =>
          { responseDataSizeInBytes := 0, responseDataFormat := URIDataFormat.Unknown }) :=
  ⟨(requestURI_response_header_frame sampleConstants (scriptedEnvironment allSucceed) []
      readingContext (some "echo?x=1")
      (some { responseDataSizeInBytes := 77, responseDataFormat := URIDataFormat.Binary })
      none 0).1 (Or.inl (by decide)),
   (requestURI_response_header_frame sampleConstants
      (scriptedEnvironment { allSucceed with sends := [Result.NotReady] }) [] idleContext
      (some "echo?x=1")
      (some { responseDataSizeInBytes := 77, responseDataFormat := URIDataFormat.Binary })
      none 0).2 rfl (by decide) (by decide)⟩

end DevDriver.URIProtocol

/-! ## Theorems: the request context, a failed writer selection -/

namespace DevDriver

/-- C31. A call of `BeginByteResponse`, `BeginTextResponse` or
`BeginJsonResponse` that does not return `Success` leaves the whole request
context unchanged (state, recorded response format, stored arguments, post
info and response block), and stores nothing behind the output pointer. -/
theorem beginResponse_failure_frame (context : URIRequestContext)
    (ppWriter : Option (Option WriterRef)) :
    ((context.BeginByteResponse ppWriter).result ≠ Result.Success →
      (context.BeginByteResponse ppWriter).context = context
      ∧ (context.BeginByteResponse ppWriter).ppWriter = ppWriter)
    ∧ ((context.BeginTextResponse ppWriter).result ≠ Result.Success →
      (context.BeginTextResponse ppWriter).context = context
      ∧ (context.BeginTextResponse ppWriter).ppWriter = ppWriter)
    ∧ ((context.BeginJsonResponse ppWriter).result ≠ Result.Success →
      (context.BeginJsonResponse ppWriter).context = context
      ∧ (context.BeginJsonResponse ppWriter).ppWriter = ppWriter) := by
  cases ppWriter with
  | none =>
    simp [URIRequestContext.BeginByteResponse, URIRequestContext.BeginTextResponse,
      URIRequestContext.BeginJsonResponse]
  | some slot =>
    by_cases h : context.m_contextState = ContextState.WriterSelection <;>
      simp [URIRequestContext.BeginByteResponse, URIRequestContext.BeginTextResponse,
        URIRequestContext.BeginJsonResponse, h]

/-- Witness for C31: a text writer is asked for while a byte writer is
selected (`Rejected`), and a json writer is asked for with a null pointer
(`UriInvalidParameters`). -/
theorem beginResponse_failure_frame_witness :
    ((sampleContext ContextState.ByteWriterSelected).BeginTextResponse (some none)).result
        ≠ Result.Success
    ∧ ((sampleContext ContextState.ByteWriterSelected).BeginTextResponse (some none)).context
        = sampleContext ContextState.ByteWriterSelected
    ∧ ((sampleContext ContextState.WriterSelection).BeginJsonResponse none).context
        = sampleContext ContextState.WriterSelection :=
  ⟨by decide,
   ((beginResponse_failure_frame (sampleContext ContextState.ByteWriterSelected)
      (some none)).2.1 (by decide)).1,
   ((beginResponse_failure_frame (sampleContext ContextState.WriterSelection)
      none).2.2 (by decide)).1⟩

end DevDriver

/-! ## Theorems: the URI client, the announced post data size -/

namespace DevDriver.URIProtocol

/-- C32. For non-null post data of size `n > kMaxInlineDataSize`, a call of
`RequestURI` from `Idle` begins with the send of a `URIPostRequestPayload`
that announces the size `n` mod `2 ^ 32`; every request payload it sends
names a block and announces the size `n` mod `2 ^ 32`; every `OpenPushBlock`
it makes is for size `n` and every `Write` on the push block is of the post
data with size `n`; and the announced size equals the size uploaded if and
only if `n < 2 ^ 32`. -/
theorem requestURI_announced_size_narrowed (k : Constants) (env : Environment)
    (history : List Event) (m_context : Context) (s : String)
    (pResponseHeader : Option ResponseHeader) (data : List Nat) (n : Nat)
    (hidle : m_context.state = State.Idle) (hbig : k.kMaxInlineDataSize < n) :
    (∃ w a rest,
      (URIClient.RequestURI k env history m_context (some s) pResponseHeader (some data)
          n).events
        = Event.Send
            (SizedPayloadContainer.zero.CreatePayload
              (Payload.URIPostRequestPayload s (n % 2 ^ 32)) k.sizeofURIPostRequestPayload)
            w k.kDefaultCommunicationTimeoutInMs k.kDefaultRetryTimeoutInMs a
          :: rest)
    ∧ (∀ container ∈ sentContainers
          ((URIClient.RequestURI k env history m_context (some s) pResponseHeader (some data)
            n).events.filter Event.isSendOfRequest),
        ∃ blockId,
          container.payload
            = Payload.URIRequestPayload s
                (some { blockId := blockId, dataFormat := TransferDataFormat.Binary,
                        dataSize := n % 2 ^ 32 }))
    ∧ (∀ clientId blockId size answer,
        Event.OpenPushBlock clientId blockId size answer
          ∈ (URIClient.RequestURI k env history m_context (some s) pResponseHeader (some data)
              n).events →
        size = n)
    ∧ (∀ block pData size answer,
        Event.PushBlockWrite block pData size answer
          ∈ (URIClient.RequestURI k env history m_context (some s) pResponseHeader (some data)
              n).events →
        pData = data ∧ size = n)
    ∧ (n % 2 ^ 32 = n ↔ n < 2 ^ 32) := by
  generalize hO : URIClient.RequestURI k env history m_context (some s) pResponseHeader
    (some data) n = out
  have hiff : n % 2 ^ 32 = n ↔ n < 2 ^ 32 := by
    constructor
    · intro h
      rw [← h]
      exact Nat.mod_lt _ (by norm_num)
    · exact Nat.mod_eq_of_lt
  have hsetup := setupPayload_block k env history s data n hbig
  obtain ⟨w1, hpost⟩ := postThroughBlock_shape k env history SizedPayloadContainer.zero s
    data n
  rcases hpost with ⟨a, hne, hP⟩ | ⟨ra, msg, hne, hP⟩ | ⟨msg, hne, hP⟩ | ⟨msg, _, hP⟩
    | ⟨msg, b, wr, _, hne, hP⟩ | ⟨msg, b, fin, _, hne, hP⟩ | ⟨msg, b, hmsg, hP⟩
  iterate 6
    · have hout := RequestURI_of_setup_failed k env history m_context s pResponseHeader
        (some data) n _ _ _ hidle (hsetup.trans hP) (by first | exact hne | decide)
      rw [hO] at hout
      subst hout
      clear hsetup hP
      refine ⟨⟨_, _, _, rfl⟩, ?_, ?_, ?_, hiff⟩
      · simp [Event.isSendOfRequest, sentContainers, SizedPayloadContainer.CreatePayload]
      · intro clientId blockId size answer hmem
        simp at hmem
        try exact hmem.2.2.1
      · intro block pData size answer hmem
        simp at hmem
        try exact ⟨hmem.2.1, hmem.2.2.1⟩
  · obtain ⟨w, hshape⟩ := RequestURI_of_setup_succeeded k env history m_context s
      pResponseHeader (some data) n _ _ hidle (hsetup.trans hP)
    rw [hO] at hshape
    clear hsetup hP hO
    rcases hshape with ⟨a, _, hout⟩ | ⟨ra, msg2, _, hout⟩ | ⟨msg2, _, hout⟩
      | ⟨msg2, _, _, hout⟩ | ⟨msg2, _, _, _, hout⟩ | ⟨msg2, _, _, _, hout⟩
      | ⟨msg2, b2, sz, _, _, _, _, hout⟩ | ⟨msg2, b2, _, _, _, hout⟩ <;>
    · subst hout
      refine ⟨⟨_, _, _, rfl⟩, ?_, ?_, ?_, hiff⟩
      · simp [Event.isSendOfRequest, sentContainers, SizedPayloadContainer.CreatePayload,
          static_cast_uint32]
      · intro clientId blockId size answer hmem
        simp at hmem
        exact hmem.2.2.1
      · intro block pData size answer hmem
        simp at hmem
        exact ⟨hmem.2.1, hmem.2.2.1⟩

/-- Witness for C32: 20 bytes of post data announced with the size
`2 ^ 32 + 20` on a channel where every call succeeds. The post request and
the request announce 20 bytes, the push block is opened and written with
size `2 ^ 32 + 20`. -/
theorem requestURI_announced_size_narrowed_witness :
    idleContext.state = State.Idle
    ∧ sampleConstants.kMaxInlineDataSize < 4294967316
    ∧ Event.OpenPushBlock 1 9 4294967316 (some 40)
        ∈ (URIClient.RequestURI sampleConstants (scriptedEnvironment allSucceed) [] idleContext
            (some "echo") none (some (List.replicate 20 7)) 4294967316).events
    ∧ Event.PushBlockWrite 40 (List.replicate 20 7) 4294967316 Result.Success
        ∈ (URIClient.RequestURI sampleConstants (scriptedEnvironment allSucceed) [] idleContext
            (some "echo") none (some (List.replicate 20 7)) 4294967316).events
    ∧ (sentContainers
        ((URIClient.RequestURI sampleConstants (scriptedEnvironment allSucceed) [] idleContext
          (some "echo") none (some (List.replicate 20 7)) 4294967316).events.filter
            Event.isSendOfRequest)).map (fun container => container.payload)
        = [Payload.URIRequestPayload "echo"
            (some { blockId := 9, dataFormat := TransferDataFormat.Binary, dataSize := 20 })]
    ∧ (∀ clientId blockId size answer,
        Event.OpenPushBlock clientId blockId size answer
          ∈ (URIClient.RequestURI sampleConstants (scriptedEnvironment allSucceed) [] idleContext
              (some "echo") none (some (List.replicate 20 7)) 4294967316).events →
        size = 4294967316)
    ∧ ¬ (4294967316 % 2 ^ 32 = 4294967316) :=
  ⟨rfl, by decide, by decide, by decide, by decide,
   (requestURI_announced_size_narrowed sampleConstants (scriptedEnvironment allSucceed) []
      idleContext "echo" none (List.replicate 20 7) 4294967316 rfl (by decide)).2.2.1,
   fun h =>
     absurd
       ((requestURI_announced_size_narrowed sampleConstants (scriptedEnvironment allSucceed) []
          idleContext "echo" none (List.replicate 20 7) 4294967316 rfl
          (by decide)).2.2.2.2.1 h)
       (by decide)⟩

end DevDriver.URIProtocol

/-! ## Theorems: the single-instance check -/

/-- C33. `IsProgramAlreadyRunning` returns true if and only if the `Open` call
of the constructor succeeded; the constructor first calls `Open` with the
given name, and it calls `OpenOrCreate`, with the same name, exactly when
that `Open` failed. -/
theorem singleInstance_reports_open (m_mutex : NamedMutex) (strMutexName : Option String) :
    ((SingleInstance.construct m_mutex strMutexName).IsProgramAlreadyRunning = true
      ↔ m_mutex.Open strMutexName false true = true)
    ∧ (m_mutex.Open strMutexName false true = true →
        (SingleInstance.construct m_mutex strMutexName).mutexCalls
          = [MutexCall.Open strMutexName false true true])
    ∧ (m_mutex.Open strMutexName false true = false →
        (SingleInstance.construct m_mutex strMutexName).mutexCalls
          = [MutexCall.Open strMutexName false true false,
             MutexCall.OpenOrCreate strMutexName false true
               (m_mutex.OpenOrCreate [MutexCall.Open strMutexName false true false]
                 strMutexName false true)])
    ∧ ((SingleInstance.construct m_mutex strMutexName).mutexCalls.filter
          MutexCall.isOpenOrCreate ≠ []
        ↔ m_mutex.Open strMutexName false true = false) := by
  cases h : m_mutex.Open strMutexName false true <;>
    simp [SingleInstance.construct, SingleInstance.IsProgramAlreadyRunning, h,
      MutexCall.isOpenOrCreate]

/-- Witness for C33: a first instance, whose `Open` fails, and a second one,
whose `Open` succeeds. -/
theorem singleInstance_reports_open_witness :
    (SingleInstance.construct (sampleMutex true) (some "app")).mutexCalls
        = [MutexCall.Open (some "app") false true true]
    ∧ (SingleInstance.construct (sampleMutex false) (some "app")).mutexCalls
        = [MutexCall.Open (some "app") false true false,
           MutexCall.OpenOrCreate (some "app") false true
             ((sampleMutex false).OpenOrCreate [MutexCall.Open (some "app") false true false]
               (some "app") false true)] :=
  ⟨(singleInstance_reports_open (sampleMutex true) (some "app")).2.1 rfl,
   (singleInstance_reports_open (sampleMutex false) (some "app")).2.2.1 rfl⟩
